import Mathlib

/-!
# TVJ-PUMP: the reading reconciliation calculator

A shallow embedding of the derived-value chain of `src/view/ReadingView.jsx`
(the "Core Calculation Logic" block) together with the JavaScript value
semantics it relies on (`parseFloat`, `||`, `+`, `-`, `*`, `<`, `>`), of
`loadData` and `formatOutput` of the same file, of `loadDataForEdit`,
`addDynamicEntry` and `saveChanges` of `src/edit/EditReadingEntry.jsx`, of the key
computations of `src/index/ReadingInputs.jsx`, of the list updaters and
`saveAndNavigate` of `src/index/ReadingDifferenceCalculator.jsx`, of
`handlePriceChange` of `src/admin-panel/PriceChange.jsx` and of the totals and
ordering of `fetchTransactions` of `src/admin-panel/CreditDebit.jsx`.

Modelling conventions.

* A JavaScript number is `JSNum`: `NaN`, a finite value, `+Infinity` or
  `-Infinity`.  The operations `+`, `-`, `*` of `JSNum` and `parseFloat` are exact
  (a finite value is a rational): they serve the statements about one expression
  of the code, in its own order of operations.  The operations of namespace
  `Binary64` return the nearest binary64 value (ties to the even significand,
  subnormal values, overflow to an infinity), as the operators of JavaScript do;
  the statements that compare two runs of the calculation, or a run with an
  exact value, are about them.  The sign of zero is outside the model.
* A JavaScript value as it can arrive from a JSON body is `JSVal`
  (arrays are not modelled).
* A React state object `data` is the structure `ReadingRecord`, with the
  field names of `initialReadingData`.
* A JSON body or an untyped state object is a `JSObject`, a map from property
  names to `FieldVal`s; code that can throw returns `Except JSError`.
-/

namespace TVJPump

/-! ## JavaScript numbers -/

/-- JavaScript number: `NaN`, a finite value, or an infinity (`neg = true` for `-Infinity`). -/
inductive JSNum where
  | nan : JSNum
  | fin (q : ℚ) : JSNum
  | inf (neg : Bool) : JSNum
  deriving DecidableEq

namespace JSNum

/-- JavaScript `a + b` on numbers. -/
def add : JSNum → JSNum → JSNum
  | nan, _ => nan
  | fin _, nan => nan
  | fin a, fin b => fin (a + b)
  | fin _, inf t => inf t
  | inf _, nan => nan
  | inf s, fin _ => inf s
  | inf s, inf t => if s = t then inf s else nan

/-- JavaScript `a - b` on numbers. -/
def sub : JSNum → JSNum → JSNum
  | nan, _ => nan
  | fin _, nan => nan
  | fin a, fin b => fin (a - b)
  | fin _, inf t => inf (!t)
  | inf _, nan => nan
  | inf s, fin _ => inf s
  | inf s, inf t => if s = t then nan else inf s

/-- JavaScript `a * b` on numbers. -/
def mul : JSNum → JSNum → JSNum
  | nan, _ => nan
  | fin _, nan => nan
  | fin a, fin b => fin (a * b)
  | fin a, inf t => if a = 0 then nan else inf (xor (decide (a < 0)) t)
  | inf _, nan => nan
  | inf s, fin b => if b = 0 then nan else inf (xor s (decide (b < 0)))
  | inf s, inf t => inf (xor s t)

instance : Add JSNum := ⟨add⟩
instance : Sub JSNum := ⟨sub⟩
instance : Mul JSNum := ⟨mul⟩

/-- JavaScript `a < b` on numbers (false as soon as one side is `NaN`). -/
def lt : JSNum → JSNum → Bool
  | fin a, fin b => decide (a < b)
  | fin _, inf t => !t
  | inf s, fin _ => s
  | inf s, inf t => s && !t
  | _, _ => false

/-- JavaScript `a > b` on numbers. -/
def gt (a b : JSNum) : Bool := lt b a

/-- JavaScript truthiness of a number: `NaN` and `0` are falsy. -/
def truthy : JSNum → Bool
  | nan => false
  | fin q => decide (q ≠ 0)
  | inf _ => true

/-- JavaScript `a || b` with both operands numbers. -/
def orElse (a b : JSNum) : JSNum := if truthy a then a else b

/-- JavaScript `isNaN` on a number. -/
def isNaN : JSNum → Bool
  | nan => true
  | _ => false

/-- The number is finite (neither `NaN` nor an infinity). -/
def IsFinite : JSNum → Prop
  | fin _ => True
  | _ => False

instance : DecidablePred IsFinite := fun x =>
  match x with
  | nan => isFalse (fun h => h)
  | fin _ => isTrue trivial
  | inf _ => isFalse (fun h => h)

/-- The rational value of a finite number (`0` for `NaN` and the infinities). -/
def toRat : JSNum → ℚ
  | fin q => q
  | _ => 0

end JSNum

/-! ## JavaScript values and `parseFloat` -/

/-- JavaScript value as found in a parsed JSON body (`obj` is any plain object). -/
inductive JSVal where
  | undefined : JSVal
  | null : JSVal
  | bool (b : Bool) : JSVal
  | num (n : JSNum) : JSVal
  | str (s : String) : JSVal
  | obj : JSVal
  deriving DecidableEq

/-- The characters `parseFloat` skips at the start of its input
(ECMAScript WhiteSpace and LineTerminator). -/
def isStrWhiteSpaceChar (c : Char) : Bool :=
  let n := c.toNat
  n = 0x09 || n = 0x0A || n = 0x0B || n = 0x0C || n = 0x0D || n = 0x20 || n = 0xA0 ||
  n = 0x1680 || (0x2000 ≤ n && n ≤ 0x200A) || n = 0x2028 || n = 0x2029 || n = 0x202F ||
  n = 0x205F || n = 0x3000 || n = 0xFEFF

/-- Mathematical value of a run of decimal digits. -/
def decimalValue (ds : List Char) : ℕ :=
  ds.foldl (fun n c => 10 * n + (c.toNat - 48)) 0

/-- The exponent denoted by the longest `ExponentPart` at the head of `cs`
(`e` or `E`, an optional sign, at least one digit); `0` when there is none. -/
def exponentPart (cs : List Char) : ℤ :=
  match cs with
  | [] => 0
  | c :: rest =>
    if c = 'e' ∨ c = 'E' then
      match rest with
      | [] => 0
      | s :: rest2 =>
        if s = '-' then -((decimalValue (rest2.takeWhile Char.isDigit) : ℕ) : ℤ)
        else if s = '+' then ((decimalValue (rest2.takeWhile Char.isDigit) : ℕ) : ℤ)
        else ((decimalValue (rest.takeWhile Char.isDigit) : ℕ) : ℤ)
    else 0

/-- Mathematical value of the longest prefix of `cs` that is a `StrUnsignedDecimalLiteral`
(`Infinity`, `digits[.digits][exp]`, `.digits[exp]`); `NaN` when no prefix is one.  The
value is exact; `Binary64.parseFloat` rounds it to the binary64 value JavaScript returns. -/
def strUnsignedDecimalLiteral (cs : List Char) : JSNum :=
  if "Infinity".data.isPrefixOf cs then JSNum.inf false
  else
    let intDigits := cs.takeWhile Char.isDigit
    let rest := cs.dropWhile Char.isDigit
    match rest with
    | [] => if intDigits.isEmpty then JSNum.nan else JSNum.fin (decimalValue intDigits)
    | c :: afterDot =>
      if c = '.' then
        let fracDigits := afterDot.takeWhile Char.isDigit
        let tail := afterDot.dropWhile Char.isDigit
        if intDigits.isEmpty && fracDigits.isEmpty then JSNum.nan
        else JSNum.fin (((decimalValue intDigits : ℚ)
              + (decimalValue fracDigits : ℚ) / (10 : ℚ) ^ fracDigits.length)
              * (10 : ℚ) ^ exponentPart tail)
      else if intDigits.isEmpty then JSNum.nan
      else JSNum.fin ((decimalValue intDigits : ℚ) * (10 : ℚ) ^ exponentPart rest)

/-- Negation of a number (the sign of a `StrDecimalLiteral`). -/
def JSNum.neg : JSNum → JSNum
  | JSNum.nan => JSNum.nan
  | JSNum.fin q => JSNum.fin (-q)
  | JSNum.inf s => JSNum.inf (!s)

/-- JavaScript `parseFloat` on the characters of a string: leading white space is
skipped, then the longest `StrDecimalLiteral` prefix is evaluated. -/
def parseFloatChars (cs : List Char) : JSNum :=
  match cs.dropWhile isStrWhiteSpaceChar with
  | [] => JSNum.nan
  | c :: rest =>
    if c = '-' then (strUnsignedDecimalLiteral rest).neg
    else if c = '+' then strUnsignedDecimalLiteral rest
    else strUnsignedDecimalLiteral (c :: rest)

/-- JavaScript `parseFloat(value)`, before the rounding of the literal's value to a
binary64 value (`Binary64.parseFloat` adds it): the value is converted to a string
(`ToString`), which is then parsed.  For a number the conversion followed by the parse gives
the number back. -/
def parseFloat (value : JSVal) : JSNum :=
  match value with
  | JSVal.num n => n
  | JSVal.str s => parseFloatChars s.data
  | JSVal.undefined => parseFloatChars "undefined".data
  | JSVal.null => parseFloatChars "null".data
  | JSVal.bool true => parseFloatChars "true".data
  | JSVal.bool false => parseFloatChars "false".data
  | JSVal.obj => parseFloatChars "[object Object]".data

/-! ## IEEE-754 binary64 arithmetic

JavaScript numbers are binary64 values and every `+`, `-`, `*` and `parseFloat` returns the
binary64 value nearest to the exact result, ties going to the even significand.  The
definitions of this section add that rounding to the exact operations above; the claims that
compare two runs of the program, or a run with an exact value, are settled against them. -/

/-- The rational `2 ^ e`. -/
def twoPow (e : ℤ) : ℚ :=
  if 0 ≤ e then ((2 ^ e.toNat : ℕ) : ℚ) else 1 / ((2 ^ (-e).toNat : ℕ) : ℚ)

/-- The binary logarithm of `n`, rounded down (`0` for `n < 2`), by repeated halving; `fuel`
bounds the number of halvings, and `n` itself is enough of it. -/
def log2Fuel : ℕ → ℕ → ℕ
  | 0, _ => 0
  | fuel + 1, n => if 2 ≤ n then log2Fuel fuel (n / 2) + 1 else 0

/-- The exponent `e` with `2 ^ e ≤ n / d < 2 ^ (e + 1)`, for positive `n` and `d`. -/
def floorLog2 (n d : ℕ) : ℤ :=
  let e : ℤ := (log2Fuel n n : ℤ) - (log2Fuel d d : ℤ)
  if twoPow e * d ≤ n then e else e - 1

/-- The integer nearest to `x`, the even one when `x` lies halfway between two. -/
def roundHalfEven (x : ℚ) : ℤ :=
  let f := ⌊x⌋
  let r := x - f
  if r < 1 / 2 then f else if 1 / 2 < r then f + 1 else if f % 2 = 0 then f else f + 1

/-- The binary64 value nearest to the rational `q` (roundTiesToEven): the significand has 53
bits, the least exponent is `-1022` (subnormal values are spaced `2 ^ -1074` apart), and a
result of magnitude `2 ^ 1024` or more is an infinity. -/
def roundBinary64 (q : ℚ) : JSNum :=
  if q = 0 then JSNum.fin 0
  else
    let e := max (floorLog2 q.num.natAbs q.den) (-1022)
    let ulp : ℚ := twoPow (e - 52)
    let r : ℚ := (roundHalfEven (q / ulp) : ℚ) * ulp
    if twoPow 1024 ≤ |r| then JSNum.inf (decide (q < 0)) else JSNum.fin r

/-- The number is a whole number of magnitude at most `bound`. -/
def JSNum.isWholeWithin (bound : ℕ) : JSNum → Bool
  | JSNum.fin q => decide (q.den = 1) && decide (q.num.natAbs ≤ bound)
  | _ => false

namespace Binary64

/-- The binary64 value of an exact result. -/
def round : JSNum → JSNum
  | JSNum.fin q => roundBinary64 q
  | x => x

/-- JavaScript `a + b` on binary64 values. -/
def add (a b : JSNum) : JSNum := round (a + b)

/-- JavaScript `a - b` on binary64 values. -/
def sub (a b : JSNum) : JSNum := round (a - b)

/-- JavaScript `a * b` on binary64 values. -/
def mul (a b : JSNum) : JSNum := round (a * b)

/-- JavaScript `parseFloat(value)` as a binary64 value: the value of the literal, rounded
(literals of more than 20 significant digits, which an engine may round in two steps, are
outside the model). -/
def parseFloat (value : JSVal) : JSNum := round (TVJPump.parseFloat value)

end Binary64

/-! ## The reading record (`initialReadingData`, ReadingView.jsx lines 6-32) -/

/-- One line item of `packedOilEntries`, `creditEntries` or `debitEntries`. -/
structure Entry where
  name : JSVal
  amount : JSVal
  deriving DecidableEq

/-- The state object `data` of `ReadingView`. -/
structure ReadingRecord where
  selectedId : JSVal
  currentDate : JSVal
  petrol : JSNum
  diesel : JSNum
  oil : JSNum
  oilFirstReading : JSNum
  oilSecondReading : JSNum
  oilFirstReading2 : JSNum
  oilSecondReading2 : JSNum
  oilFirstReading3 : JSNum
  oilSecondReading3 : JSNum
  firstReading1 : JSNum
  secondReading1 : JSNum
  firstReading2 : JSNum
  secondReading2 : JSNum
  firstReading3 : JSNum
  secondReading3 : JSNum
  dieselFirstReading1 : JSNum
  dieselSecondReading1 : JSNum
  dieselFirstReading2 : JSNum
  dieselSecondReading2 : JSNum
  dieselFirstReading3 : JSNum
  dieselSecondReading3 : JSNum
  petrolTestQuantity : JSNum
  dieselTestQuantity : JSNum
  acidWater : JSNum
  note500 : JSNum
  note200 : JSNum
  note100 : JSNum
  note50 : JSNum
  note20 : JSNum
  note10 : JSNum
  note5 : JSNum
  coins : JSNum
  batteryWater30 : JSNum
  batteryWater60 : JSNum
  batteryWater150 : JSNum
  packedOilEntries : List Entry
  creditEntries : List Entry
  debitEntries : List Entry

/-- The constant `initialReadingData`. -/
def initialReadingData : ReadingRecord where
  selectedId := JSVal.str "-"
  currentDate := JSVal.str ""
  petrol := JSNum.fin 0
  diesel := JSNum.fin 0
  oil := JSNum.fin 0
  oilFirstReading := JSNum.fin 0
  oilSecondReading := JSNum.fin 0
  oilFirstReading2 := JSNum.fin 0
  oilSecondReading2 := JSNum.fin 0
  oilFirstReading3 := JSNum.fin 0
  oilSecondReading3 := JSNum.fin 0
  firstReading1 := JSNum.fin 0
  secondReading1 := JSNum.fin 0
  firstReading2 := JSNum.fin 0
  secondReading2 := JSNum.fin 0
  firstReading3 := JSNum.fin 0
  secondReading3 := JSNum.fin 0
  dieselFirstReading1 := JSNum.fin 0
  dieselSecondReading1 := JSNum.fin 0
  dieselFirstReading2 := JSNum.fin 0
  dieselSecondReading2 := JSNum.fin 0
  dieselFirstReading3 := JSNum.fin 0
  dieselSecondReading3 := JSNum.fin 0
  petrolTestQuantity := JSNum.fin 0
  dieselTestQuantity := JSNum.fin 0
  acidWater := JSNum.fin 0
  note500 := JSNum.fin 0
  note200 := JSNum.fin 0
  note100 := JSNum.fin 0
  note50 := JSNum.fin 0
  note20 := JSNum.fin 0
  note10 := JSNum.fin 0
  note5 := JSNum.fin 0
  coins := JSNum.fin 0
  batteryWater30 := JSNum.fin 0
  batteryWater60 := JSNum.fin 0
  batteryWater150 := JSNum.fin 0
  packedOilEntries := []
  creditEntries := []
  debitEntries := []

/-! ## Core calculation logic (ReadingView.jsx lines 163-234) -/

/-- `data.oilFirstReading - data.oilSecondReading`. -/
def oilDiff1 (data : ReadingRecord) : JSNum := data.oilFirstReading - data.oilSecondReading
/-- `data.oilFirstReading2 - data.oilSecondReading2`. -/
def oilDiff2 (data : ReadingRecord) : JSNum := data.oilFirstReading2 - data.oilSecondReading2
/-- `data.oilFirstReading3 - data.oilSecondReading3`. -/
def oilDiff3 (data : ReadingRecord) : JSNum := data.oilFirstReading3 - data.oilSecondReading3
/-- `oilDiff1 + oilDiff2 + oilDiff3`. -/
def totalOilDifference (data : ReadingRecord) : JSNum :=
  oilDiff1 data + oilDiff2 data + oilDiff3 data
/-- `totalOilDifference * data.oil`. -/
def oilRequiredMoney (data : ReadingRecord) : JSNum := totalOilDifference data * data.oil

/-- `data.secondReading1 - data.firstReading1`. -/
def petrolDiff1 (data : ReadingRecord) : JSNum := data.secondReading1 - data.firstReading1
/-- `data.secondReading2 - data.firstReading2`. -/
def petrolDiff2 (data : ReadingRecord) : JSNum := data.secondReading2 - data.firstReading2
/-- `data.secondReading3 - data.firstReading3`. -/
def petrolDiff3 (data : ReadingRecord) : JSNum := data.secondReading3 - data.firstReading3
/-- `petrolDiff1 + petrolDiff2 + petrolDiff3`. -/
def totalPetrolDifference (data : ReadingRecord) : JSNum :=
  petrolDiff1 data + petrolDiff2 data + petrolDiff3 data
/-- `totalPetrolDifference * data.petrol`. -/
def requiredMoneyPetrol (data : ReadingRecord) : JSNum := totalPetrolDifference data * data.petrol

/-- `data.dieselSecondReading1 - data.dieselFirstReading1`. -/
def dieselDiff1 (data : ReadingRecord) : JSNum :=
  data.dieselSecondReading1 - data.dieselFirstReading1
/-- `data.dieselSecondReading2 - data.dieselFirstReading2`. -/
def dieselDiff2 (data : ReadingRecord) : JSNum :=
  data.dieselSecondReading2 - data.dieselFirstReading2
/-- `data.dieselSecondReading3 - data.dieselFirstReading3`. -/
def dieselDiff3 (data : ReadingRecord) : JSNum :=
  data.dieselSecondReading3 - data.dieselFirstReading3
/-- `dieselDiff1 + dieselDiff2 + dieselDiff3`. -/
def totalDieselDifference (data : ReadingRecord) : JSNum :=
  dieselDiff1 data + dieselDiff2 data + dieselDiff3 data
/-- `totalDieselDifference * data.diesel`. -/
def requiredMoneyDiesel (data : ReadingRecord) : JSNum := totalDieselDifference data * data.diesel

/-- `data.petrolTestQuantity * data.petrol`. -/
def petrolTestQuantityMoney (data : ReadingRecord) : JSNum :=
  data.petrolTestQuantity * data.petrol
/-- `data.dieselTestQuantity * data.diesel`. -/
def dieselTestQuantityMoney (data : ReadingRecord) : JSNum :=
  data.dieselTestQuantity * data.diesel

/-- The reducer shared by the three line-item totals:
`entries.reduce((total, entry) => total + (parseFloat(entry.amount) || 0), 0)`. -/
def sumEntries (entries : List Entry) : JSNum :=
  entries.foldl (fun total entry => total + (parseFloat entry.amount).orElse (JSNum.fin 0))
    (JSNum.fin 0)

/-- `data.creditEntries.reduce(...)`. -/
def totalCreditAmount (data : ReadingRecord) : JSNum := sumEntries data.creditEntries
/-- `data.debitEntries.reduce(...)`. -/
def totalDebitAmount (data : ReadingRecord) : JSNum := sumEntries data.debitEntries

/-- `(30 * (data.batteryWater30 || 0)) + (60 * (data.batteryWater60 || 0))
+ (150 * (data.batteryWater150 || 0))`. -/
def totalBatteryWaterAmount (data : ReadingRecord) : JSNum :=
  (JSNum.fin 30 * data.batteryWater30.orElse (JSNum.fin 0)) +
  (JSNum.fin 60 * data.batteryWater60.orElse (JSNum.fin 0)) +
  (JSNum.fin 150 * data.batteryWater150.orElse (JSNum.fin 0))

/-- `data.packedOilEntries.reduce(...)`. -/
def totalPackedOilAmount (data : ReadingRecord) : JSNum := sumEntries data.packedOilEntries

/-- `(data.note500 * 500) + (data.note200 * 200) + (data.note100 * 100) + (data.note50 * 50)
+ (data.note20 * 20) + (data.note10 * 10) + (data.note5 * 5) + (data.coins || 0)`. -/
def totalDenominationAmount (data : ReadingRecord) : JSNum :=
  (data.note500 * JSNum.fin 500) + (data.note200 * JSNum.fin 200) +
  (data.note100 * JSNum.fin 100) + (data.note50 * JSNum.fin 50) + (data.note20 * JSNum.fin 20) +
  (data.note10 * JSNum.fin 10) + (data.note5 * JSNum.fin 5) + data.coins.orElse (JSNum.fin 0)

/-- The `finalResult` memo: `positives - negatives`. -/
def finalResult (data : ReadingRecord) : JSNum :=
  let positives := oilRequiredMoney data + requiredMoneyPetrol data + requiredMoneyDiesel data
    + totalDebitAmount data + totalBatteryWaterAmount data + data.acidWater
    + totalPackedOilAmount data
  let negatives := petrolTestQuantityMoney data + dieselTestQuantityMoney data
    + totalCreditAmount data
  positives - negatives

/-- `totalDenominationAmount - finalResult`. -/
def excessShotResult (data : ReadingRecord) : JSNum :=
  totalDenominationAmount data - finalResult data

/-- The object returned by the `excessShotStatus` memo. -/
structure Status where
  heading : String
  className : String
  deriving DecidableEq

/-- The `excessShotStatus` memo. -/
def excessShotStatus (data : ReadingRecord) : Status :=
  if (excessShotResult data).gt (JSNum.fin 0) then
    { heading := "Excess", className := "bg-green-100 text-green-800" }
  else if (excessShotResult data).lt (JSNum.fin 0) then
    { heading := "Shot", className := "bg-red-100 text-red-800" }
  else
    { heading := "Excess/Shot", className := "bg-gray-100 text-gray-800" }

/-! ## The core calculation on binary64 values

The same memos, each operation returning the nearest binary64 value. -/

namespace Binary64

/-- `data.oilFirstReading - data.oilSecondReading`. -/
def oilDiff1 (data : ReadingRecord) : JSNum := sub data.oilFirstReading data.oilSecondReading
/-- `data.oilFirstReading2 - data.oilSecondReading2`. -/
def oilDiff2 (data : ReadingRecord) : JSNum := sub data.oilFirstReading2 data.oilSecondReading2
/-- `data.oilFirstReading3 - data.oilSecondReading3`. -/
def oilDiff3 (data : ReadingRecord) : JSNum := sub data.oilFirstReading3 data.oilSecondReading3
/-- `oilDiff1 + oilDiff2 + oilDiff3`. -/
def totalOilDifference (data : ReadingRecord) : JSNum :=
  add (add (oilDiff1 data) (oilDiff2 data)) (oilDiff3 data)
/-- `totalOilDifference * data.oil`. -/
def oilRequiredMoney (data : ReadingRecord) : JSNum := mul (totalOilDifference data) data.oil

/-- `data.secondReading1 - data.firstReading1`. -/
def petrolDiff1 (data : ReadingRecord) : JSNum := sub data.secondReading1 data.firstReading1
/-- `data.secondReading2 - data.firstReading2`. -/
def petrolDiff2 (data : ReadingRecord) : JSNum := sub data.secondReading2 data.firstReading2
/-- `data.secondReading3 - data.firstReading3`. -/
def petrolDiff3 (data : ReadingRecord) : JSNum := sub data.secondReading3 data.firstReading3
/-- `petrolDiff1 + petrolDiff2 + petrolDiff3`. -/
def totalPetrolDifference (data : ReadingRecord) : JSNum :=
  add (add (petrolDiff1 data) (petrolDiff2 data)) (petrolDiff3 data)
/-- `totalPetrolDifference * data.petrol`. -/
def requiredMoneyPetrol (data : ReadingRecord) : JSNum :=
  mul (totalPetrolDifference data) data.petrol

/-- `data.dieselSecondReading1 - data.dieselFirstReading1`. -/
def dieselDiff1 (data : ReadingRecord) : JSNum :=
  sub data.dieselSecondReading1 data.dieselFirstReading1
/-- `data.dieselSecondReading2 - data.dieselFirstReading2`. -/
def dieselDiff2 (data : ReadingRecord) : JSNum :=
  sub data.dieselSecondReading2 data.dieselFirstReading2
/-- `data.dieselSecondReading3 - data.dieselFirstReading3`. -/
def dieselDiff3 (data : ReadingRecord) : JSNum :=
  sub data.dieselSecondReading3 data.dieselFirstReading3
/-- `dieselDiff1 + dieselDiff2 + dieselDiff3`. -/
def totalDieselDifference (data : ReadingRecord) : JSNum :=
  add (add (dieselDiff1 data) (dieselDiff2 data)) (dieselDiff3 data)
/-- `totalDieselDifference * data.diesel`. -/
def requiredMoneyDiesel (data : ReadingRecord) : JSNum :=
  mul (totalDieselDifference data) data.diesel

/-- `data.petrolTestQuantity * data.petrol`. -/
def petrolTestQuantityMoney (data : ReadingRecord) : JSNum :=
  mul data.petrolTestQuantity data.petrol
/-- `data.dieselTestQuantity * data.diesel`. -/
def dieselTestQuantityMoney (data : ReadingRecord) : JSNum :=
  mul data.dieselTestQuantity data.diesel

/-- What one line item adds to its total: `parseFloat(entry.amount) || 0`. -/
def entryAmount (entry : Entry) : JSNum := (parseFloat entry.amount).orElse (JSNum.fin 0)

/-- The reducer shared by the three line-item totals:
`entries.reduce((total, entry) => total + (parseFloat(entry.amount) || 0), 0)`. -/
def sumEntries (entries : List Entry) : JSNum :=
  entries.foldl (fun total entry => add total (entryAmount entry)) (JSNum.fin 0)

/-- `data.creditEntries.reduce(...)`. -/
def totalCreditAmount (data : ReadingRecord) : JSNum := sumEntries data.creditEntries
/-- `data.debitEntries.reduce(...)`. -/
def totalDebitAmount (data : ReadingRecord) : JSNum := sumEntries data.debitEntries

/-- `(30 * (data.batteryWater30 || 0)) + (60 * (data.batteryWater60 || 0))
+ (150 * (data.batteryWater150 || 0))`. -/
def totalBatteryWaterAmount (data : ReadingRecord) : JSNum :=
  add (add (mul (JSNum.fin 30) (data.batteryWater30.orElse (JSNum.fin 0)))
      (mul (JSNum.fin 60) (data.batteryWater60.orElse (JSNum.fin 0))))
    (mul (JSNum.fin 150) (data.batteryWater150.orElse (JSNum.fin 0)))

/-- `data.packedOilEntries.reduce(...)`. -/
def totalPackedOilAmount (data : ReadingRecord) : JSNum := sumEntries data.packedOilEntries

/-- `(data.note500 * 500) + (data.note200 * 200) + (data.note100 * 100) + (data.note50 * 50)
+ (data.note20 * 20) + (data.note10 * 10) + (data.note5 * 5) + (data.coins || 0)`. -/
def totalDenominationAmount (data : ReadingRecord) : JSNum :=
  add (add (add (add (add (add (add (mul data.note500 (JSNum.fin 500))
      (mul data.note200 (JSNum.fin 200))) (mul data.note100 (JSNum.fin 100)))
      (mul data.note50 (JSNum.fin 50))) (mul data.note20 (JSNum.fin 20)))
      (mul data.note10 (JSNum.fin 10))) (mul data.note5 (JSNum.fin 5)))
    (data.coins.orElse (JSNum.fin 0))

/-- The `positives` of the `finalResult` memo. -/
def positives (data : ReadingRecord) : JSNum :=
  add (add (add (add (add (add (oilRequiredMoney data) (requiredMoneyPetrol data))
      (requiredMoneyDiesel data)) (totalDebitAmount data)) (totalBatteryWaterAmount data))
      data.acidWater) (totalPackedOilAmount data)

/-- The `negatives` of the `finalResult` memo. -/
def negatives (data : ReadingRecord) : JSNum :=
  add (add (petrolTestQuantityMoney data) (dieselTestQuantityMoney data))
    (totalCreditAmount data)

/-- The `finalResult` memo: `positives - negatives`. -/
def finalResult (data : ReadingRecord) : JSNum := sub (positives data) (negatives data)

/-- `totalDenominationAmount - finalResult`. -/
def excessShotResult (data : ReadingRecord) : JSNum :=
  sub (totalDenominationAmount data) (finalResult data)

/-- The `excessShotStatus` memo. -/
def excessShotStatus (data : ReadingRecord) : Status :=
  if (excessShotResult data).gt (JSNum.fin 0) then
    { heading := "Excess", className := "bg-green-100 text-green-800" }
  else if (excessShotResult data).lt (JSNum.fin 0) then
    { heading := "Shot", className := "bg-red-100 text-red-800" }
  else
    { heading := "Excess/Shot", className := "bg-gray-100 text-gray-800" }

end Binary64

/-! ## Records of whole numbers -/

/-- The magnitude of what a line item with a whole amount adds to its total. -/
def entryMagnitude (entry : Entry) : ℕ :=
  ((parseFloat entry.amount).orElse (JSNum.fin 0)).toRat.num.natAbs

/-- Every line item of the list adds a whole number to its total (`0` when its amount does
not parse), and the magnitudes of these numbers add up to at most `bound`. -/
def wholeEntries (bound : ℕ) (entries : List Entry) : Bool :=
  entries.all (fun entry => ((parseFloat entry.amount).orElse (JSNum.fin 0)).isWholeWithin bound)
    && decide ((entries.map entryMagnitude).sum ≤ bound)

/-- `Number.MAX_SAFE_INTEGER`, `2 ^ 53 - 1`. -/
def maxSafeInteger : ℕ := 9007199254740991

/-- The record holds whole numbers of moderate size: every numeric field is a whole number
of magnitude at most ten million, and the amounts of each list are whole numbers whose
magnitudes add up to at most `10 ^ 15`. -/
def ReadingRecord.isWhole (data : ReadingRecord) : Bool :=
  data.petrol.isWholeWithin (10 ^ 7) && data.diesel.isWholeWithin (10 ^ 7)
    && data.oil.isWholeWithin (10 ^ 7)
    && data.oilFirstReading.isWholeWithin (10 ^ 7)
    && data.oilSecondReading.isWholeWithin (10 ^ 7)
    && data.oilFirstReading2.isWholeWithin (10 ^ 7)
    && data.oilSecondReading2.isWholeWithin (10 ^ 7)
    && data.oilFirstReading3.isWholeWithin (10 ^ 7)
    && data.oilSecondReading3.isWholeWithin (10 ^ 7)
    && data.firstReading1.isWholeWithin (10 ^ 7) && data.secondReading1.isWholeWithin (10 ^ 7)
    && data.firstReading2.isWholeWithin (10 ^ 7) && data.secondReading2.isWholeWithin (10 ^ 7)
    && data.firstReading3.isWholeWithin (10 ^ 7) && data.secondReading3.isWholeWithin (10 ^ 7)
    && data.dieselFirstReading1.isWholeWithin (10 ^ 7)
    && data.dieselSecondReading1.isWholeWithin (10 ^ 7)
    && data.dieselFirstReading2.isWholeWithin (10 ^ 7)
    && data.dieselSecondReading2.isWholeWithin (10 ^ 7)
    && data.dieselFirstReading3.isWholeWithin (10 ^ 7)
    && data.dieselSecondReading3.isWholeWithin (10 ^ 7)
    && data.petrolTestQuantity.isWholeWithin (10 ^ 7)
    && data.dieselTestQuantity.isWholeWithin (10 ^ 7)
    && data.acidWater.isWholeWithin (10 ^ 7)
    && data.note500.isWholeWithin (10 ^ 7) && data.note200.isWholeWithin (10 ^ 7)
    && data.note100.isWholeWithin (10 ^ 7) && data.note50.isWholeWithin (10 ^ 7)
    && data.note20.isWholeWithin (10 ^ 7) && data.note10.isWholeWithin (10 ^ 7)
    && data.note5.isWholeWithin (10 ^ 7) && data.coins.isWholeWithin (10 ^ 7)
    && data.batteryWater30.isWholeWithin (10 ^ 7)
    && data.batteryWater60.isWholeWithin (10 ^ 7)
    && data.batteryWater150.isWholeWithin (10 ^ 7)
    && wholeEntries (10 ^ 15) data.packedOilEntries
    && wholeEntries (10 ^ 15) data.creditEntries
    && wholeEntries (10 ^ 15) data.debitEntries

/-! ## Domain predicates and sample data -/

instance : Zero JSNum := ⟨JSNum.fin 0⟩

/-- What one line item adds to its total, in the words of the specification: the amount
when it is numeric (`parseFloat` yields a number), and `0` when it is not. -/
def entryContribution (entry : Entry) : JSNum :=
  if (parseFloat entry.amount).isNaN then JSNum.fin 0 else parseFloat entry.amount

/-- Every line item of the list adds a finite amount to its total. -/
def FiniteEntries (entries : List Entry) : Prop :=
  ∀ entry ∈ entries, ((parseFloat entry.amount).orElse (JSNum.fin 0)).IsFinite

/-- The record holds decimal values: every numeric field is a finite number and every
line item contributes a finite amount. -/
structure ReadingRecord.Decimal (data : ReadingRecord) : Prop where
  petrol : data.petrol.IsFinite
  diesel : data.diesel.IsFinite
  oil : data.oil.IsFinite
  oilFirstReading : data.oilFirstReading.IsFinite
  oilSecondReading : data.oilSecondReading.IsFinite
  oilFirstReading2 : data.oilFirstReading2.IsFinite
  oilSecondReading2 : data.oilSecondReading2.IsFinite
  oilFirstReading3 : data.oilFirstReading3.IsFinite
  oilSecondReading3 : data.oilSecondReading3.IsFinite
  firstReading1 : data.firstReading1.IsFinite
  secondReading1 : data.secondReading1.IsFinite
  firstReading2 : data.firstReading2.IsFinite
  secondReading2 : data.secondReading2.IsFinite
  firstReading3 : data.firstReading3.IsFinite
  secondReading3 : data.secondReading3.IsFinite
  dieselFirstReading1 : data.dieselFirstReading1.IsFinite
  dieselSecondReading1 : data.dieselSecondReading1.IsFinite
  dieselFirstReading2 : data.dieselFirstReading2.IsFinite
  dieselSecondReading2 : data.dieselSecondReading2.IsFinite
  dieselFirstReading3 : data.dieselFirstReading3.IsFinite
  dieselSecondReading3 : data.dieselSecondReading3.IsFinite
  petrolTestQuantity : data.petrolTestQuantity.IsFinite
  dieselTestQuantity : data.dieselTestQuantity.IsFinite
  acidWater : data.acidWater.IsFinite
  note500 : data.note500.IsFinite
  note200 : data.note200.IsFinite
  note100 : data.note100.IsFinite
  note50 : data.note50.IsFinite
  note20 : data.note20.IsFinite
  note10 : data.note10.IsFinite
  note5 : data.note5.IsFinite
  coins : data.coins.IsFinite
  batteryWater30 : data.batteryWater30.IsFinite
  batteryWater60 : data.batteryWater60.IsFinite
  batteryWater150 : data.batteryWater150.IsFinite
  packedOilEntries : FiniteEntries data.packedOilEntries
  creditEntries : FiniteEntries data.creditEntries
  debitEntries : FiniteEntries data.debitEntries

/-- The closed form of the excess/shortage figure in the raw record fields, as the
specification writes it, over the rationals. -/
def closedFormExcessShot (data : ReadingRecord) : ℚ :=
  (500 * data.note500.toRat + 200 * data.note200.toRat + 100 * data.note100.toRat
    + 50 * data.note50.toRat + 20 * data.note20.toRat + 10 * data.note10.toRat
    + 5 * data.note5.toRat + data.coins.toRat)
  - (((data.oilFirstReading.toRat - data.oilSecondReading.toRat)
        + (data.oilFirstReading2.toRat - data.oilSecondReading2.toRat)
        + (data.oilFirstReading3.toRat - data.oilSecondReading3.toRat)) * data.oil.toRat
    + ((data.secondReading1.toRat - data.firstReading1.toRat)
        + (data.secondReading2.toRat - data.firstReading2.toRat)
        + (data.secondReading3.toRat - data.firstReading3.toRat)) * data.petrol.toRat
    + ((data.dieselSecondReading1.toRat - data.dieselFirstReading1.toRat)
        + (data.dieselSecondReading2.toRat - data.dieselFirstReading2.toRat)
        + (data.dieselSecondReading3.toRat - data.dieselFirstReading3.toRat))
        * data.diesel.toRat
    + (totalDebitAmount data).toRat
    + 30 * data.batteryWater30.toRat + 60 * data.batteryWater60.toRat
    + 150 * data.batteryWater150.toRat
    + data.acidWater.toRat
    + (totalPackedOilAmount data).toRat
    - data.petrolTestQuantity.toRat * data.petrol.toRat
    - data.dieselTestQuantity.toRat * data.diesel.toRat
    - (totalCreditAmount data).toRat)

/-- The credit list of the specification's example: `[{amount:100},{amount:"abc"}]`. -/
def exampleCreditEntries : List Entry :=
  [{ name := JSVal.undefined, amount := JSVal.num (JSNum.fin 100) },
   { name := JSVal.undefined, amount := JSVal.str "abc" }]

/-- A filled-in reading used to instantiate the theorems below. -/
def sampleRecord : ReadingRecord :=
  { initialReadingData with
    selectedId := JSVal.str "7"
    currentDate := JSVal.str "2025-01-31"
    petrol := JSNum.fin 90
    diesel := JSNum.fin 80
    oil := JSNum.fin 100
    oilFirstReading := JSNum.fin 50
    oilSecondReading := JSNum.fin 30
    firstReading1 := JSNum.fin 10
    secondReading1 := JSNum.fin 25
    dieselFirstReading2 := JSNum.fin 4
    dieselSecondReading2 := JSNum.fin 9
    petrolTestQuantity := JSNum.fin 1
    dieselTestQuantity := JSNum.fin 2
    acidWater := JSNum.fin 40
    note500 := JSNum.fin 7
    note100 := JSNum.fin 3
    note5 := JSNum.fin 1
    coins := JSNum.fin (5 / 2)
    batteryWater30 := JSNum.fin 2
    batteryWater150 := JSNum.fin 1
    packedOilEntries := [{ name := JSVal.str "2T", amount := JSVal.str "120.50" }]
    creditEntries := exampleCreditEntries
    debitEntries := [{ name := JSVal.str "K", amount := JSVal.num (JSNum.fin 60) }] }

/-! ## JSON bodies and state objects -/

/-- A value stored under a key of a JSON body or of a React state object: a scalar, or an
array whose elements are line-item objects or `null` (`none`).  Arrays with other elements
are not modelled. -/
inductive FieldVal where
  | scalar (v : JSVal) : FieldVal
  | list (items : List (Option Entry)) : FieldVal
  deriving DecidableEq

/-- A JavaScript object as a map from its own property names to their values (`none`: the
object has no such property). -/
abbrev JSObject := String → Option FieldVal

/-- Object spread `{...a, ...b}`: the properties of `b` win. -/
def spread (a b : JSObject) : JSObject := fun key =>
  match b key with
  | some value => some value
  | none => a key

/-- `parseFloat` on a stored value.  An array of line items or nulls converts to a string
that is empty or starts with `[object Object]` or a comma, none of which parses. -/
def parseFloatField : FieldVal → JSNum
  | FieldVal.scalar v => parseFloat v
  | FieldVal.list _ => JSNum.nan

/-- The state object `data` as a JavaScript object: `r.field` under the key `"field"`. -/
def ReadingRecord.toObject (r : ReadingRecord) : JSObject := fun key =>
  match key with
  | "selectedId" => some (FieldVal.scalar r.selectedId)
  | "currentDate" => some (FieldVal.scalar r.currentDate)
  | "petrol" => some (FieldVal.scalar (JSVal.num r.petrol))
  | "diesel" => some (FieldVal.scalar (JSVal.num r.diesel))
  | "oil" => some (FieldVal.scalar (JSVal.num r.oil))
  | "oilFirstReading" => some (FieldVal.scalar (JSVal.num r.oilFirstReading))
  | "oilSecondReading" => some (FieldVal.scalar (JSVal.num r.oilSecondReading))
  | "oilFirstReading2" => some (FieldVal.scalar (JSVal.num r.oilFirstReading2))
  | "oilSecondReading2" => some (FieldVal.scalar (JSVal.num r.oilSecondReading2))
  | "oilFirstReading3" => some (FieldVal.scalar (JSVal.num r.oilFirstReading3))
  | "oilSecondReading3" => some (FieldVal.scalar (JSVal.num r.oilSecondReading3))
  | "firstReading1" => some (FieldVal.scalar (JSVal.num r.firstReading1))
  | "secondReading1" => some (FieldVal.scalar (JSVal.num r.secondReading1))
  | "firstReading2" => some (FieldVal.scalar (JSVal.num r.firstReading2))
  | "secondReading2" => some (FieldVal.scalar (JSVal.num r.secondReading2))
  | "firstReading3" => some (FieldVal.scalar (JSVal.num r.firstReading3))
  | "secondReading3" => some (FieldVal.scalar (JSVal.num r.secondReading3))
  | "dieselFirstReading1" => some (FieldVal.scalar (JSVal.num r.dieselFirstReading1))
  | "dieselSecondReading1" => some (FieldVal.scalar (JSVal.num r.dieselSecondReading1))
  | "dieselFirstReading2" => some (FieldVal.scalar (JSVal.num r.dieselFirstReading2))
  | "dieselSecondReading2" => some (FieldVal.scalar (JSVal.num r.dieselSecondReading2))
  | "dieselFirstReading3" => some (FieldVal.scalar (JSVal.num r.dieselFirstReading3))
  | "dieselSecondReading3" => some (FieldVal.scalar (JSVal.num r.dieselSecondReading3))
  | "petrolTestQuantity" => some (FieldVal.scalar (JSVal.num r.petrolTestQuantity))
  | "dieselTestQuantity" => some (FieldVal.scalar (JSVal.num r.dieselTestQuantity))
  | "acidWater" => some (FieldVal.scalar (JSVal.num r.acidWater))
  | "note500" => some (FieldVal.scalar (JSVal.num r.note500))
  | "note200" => some (FieldVal.scalar (JSVal.num r.note200))
  | "note100" => some (FieldVal.scalar (JSVal.num r.note100))
  | "note50" => some (FieldVal.scalar (JSVal.num r.note50))
  | "note20" => some (FieldVal.scalar (JSVal.num r.note20))
  | "note10" => some (FieldVal.scalar (JSVal.num r.note10))
  | "note5" => some (FieldVal.scalar (JSVal.num r.note5))
  | "coins" => some (FieldVal.scalar (JSVal.num r.coins))
  | "batteryWater30" => some (FieldVal.scalar (JSVal.num r.batteryWater30))
  | "batteryWater60" => some (FieldVal.scalar (JSVal.num r.batteryWater60))
  | "batteryWater150" => some (FieldVal.scalar (JSVal.num r.batteryWater150))
  | "packedOilEntries" => some (FieldVal.list (r.packedOilEntries.map some))
  | "creditEntries" => some (FieldVal.list (r.creditEntries.map some))
  | "debitEntries" => some (FieldVal.list (r.debitEntries.map some))
  | _ => none

/-- The keys of the numeric fields of `initialReadingData`: the three prices, the 18 meter
readings, the two test quantities, acidWater, the seven notes, coins and the three
battery-water counts. -/
def numericKeys : List String :=
  ["petrol", "diesel", "oil", "oilFirstReading", "oilSecondReading", "oilFirstReading2",
   "oilSecondReading2", "oilFirstReading3", "oilSecondReading3", "firstReading1",
   "secondReading1", "firstReading2", "secondReading2", "firstReading3", "secondReading3",
   "dieselFirstReading1", "dieselSecondReading1", "dieselFirstReading2",
   "dieselSecondReading2", "dieselFirstReading3", "dieselSecondReading3", "petrolTestQuantity",
   "dieselTestQuantity", "acidWater", "note500", "note200", "note100", "note50", "note20",
   "note10", "note5", "coins", "batteryWater30", "batteryWater60", "batteryWater150"]

/-! ## `loadData` (ReadingView.jsx lines 128-156) -/

/-- `typeof initialReadingData[key] === 'number'`. -/
def isNumberKey (key : String) : Bool :=
  match initialReadingData.toObject key with
  | some (FieldVal.scalar (JSVal.num _)) => true
  | _ => false

/-- `Object.fromEntries(Object.entries(fetchedData).map(([key, value]) => ...))`: a value
under a numeric key becomes `parseFloat(value) || 0`, any other value is kept. -/
def parsedData (fetchedData : JSObject) : JSObject := fun key =>
  match fetchedData key with
  | none => none
  | some value =>
    if isNumberKey key then
      some (FieldVal.scalar (JSVal.num ((parseFloatField value).orElse (JSNum.fin 0))))
    else some value

/-- The state after `setData(prevData => ({...initialReadingData, ...prevData,
...parsedData}))`. -/
def loadData (prevData fetchedData : JSObject) : JSObject :=
  spread (spread initialReadingData.toObject prevData) (parsedData fetchedData)

/-! ## One render of `ReadingView` -/

/-- Every figure computed by the memos of one render. -/
structure DerivedFigures where
  oilDiff1 : JSNum
  oilDiff2 : JSNum
  oilDiff3 : JSNum
  totalOilDifference : JSNum
  oilRequiredMoney : JSNum
  petrolDiff1 : JSNum
  petrolDiff2 : JSNum
  petrolDiff3 : JSNum
  totalPetrolDifference : JSNum
  requiredMoneyPetrol : JSNum
  dieselDiff1 : JSNum
  dieselDiff2 : JSNum
  dieselDiff3 : JSNum
  totalDieselDifference : JSNum
  requiredMoneyDiesel : JSNum
  petrolTestQuantityMoney : JSNum
  dieselTestQuantityMoney : JSNum
  totalCreditAmount : JSNum
  totalDebitAmount : JSNum
  totalBatteryWaterAmount : JSNum
  totalPackedOilAmount : JSNum
  totalDenominationAmount : JSNum
  finalResult : JSNum
  excessShotResult : JSNum
  excessShotStatus : Status

/-- The figures of one render, from the state `data`. -/
def derivedFigures (data : ReadingRecord) : DerivedFigures :=
  {
    oilDiff1 := oilDiff1 data
    oilDiff2 := oilDiff2 data
    oilDiff3 := oilDiff3 data
    totalOilDifference := totalOilDifference data
    oilRequiredMoney := oilRequiredMoney data
    petrolDiff1 := petrolDiff1 data
    petrolDiff2 := petrolDiff2 data
    petrolDiff3 := petrolDiff3 data
    totalPetrolDifference := totalPetrolDifference data
    requiredMoneyPetrol := requiredMoneyPetrol data
    dieselDiff1 := dieselDiff1 data
    dieselDiff2 := dieselDiff2 data
    dieselDiff3 := dieselDiff3 data
    totalDieselDifference := totalDieselDifference data
    requiredMoneyDiesel := requiredMoneyDiesel data
    petrolTestQuantityMoney := petrolTestQuantityMoney data
    dieselTestQuantityMoney := dieselTestQuantityMoney data
    totalCreditAmount := totalCreditAmount data
    totalDebitAmount := totalDebitAmount data
    totalBatteryWaterAmount := totalBatteryWaterAmount data
    totalPackedOilAmount := totalPackedOilAmount data
    totalDenominationAmount := totalDenominationAmount data
    finalResult := finalResult data
    excessShotResult := excessShotResult data
    excessShotStatus := excessShotStatus data }

/-- A JavaScript exception. -/
inductive JSError where
  | typeError : JSError
  deriving DecidableEq

/-- The number stored under a key (`NaN` stands in when the value is not a number; see
`numbersOk`). -/
def numField (data : JSObject) (key : String) : JSNum :=
  match data key with
  | some (FieldVal.scalar (JSVal.num n)) => n
  | _ => JSNum.nan

/-- Every numeric key of the state holds a JavaScript number. -/
def numbersOk (data : JSObject) : Bool :=
  numericKeys.all fun key =>
    match data key with
    | some (FieldVal.scalar (JSVal.num _)) => true
    | _ => false

/-- The scalar read from a property (`undefined` when absent; an array is an object). -/
def scalarField (data : JSObject) (key : String) : JSVal :=
  match data key with
  | some (FieldVal.scalar v) => v
  | some (FieldVal.list _) => JSVal.obj
  | none => JSVal.undefined

/-- What `data.xEntries.reduce((total, entry) => ... entry.amount ...)` can iterate: the
call is a `TypeError` unless the property holds an array, and reading `entry.amount` is a
`TypeError` on a `null` element. -/
def entriesField (data : JSObject) (key : String) : Except JSError (List Entry) :=
  match data key with
  | some (FieldVal.list items) =>
    if items.all Option.isSome then Except.ok (items.filterMap id)
    else Except.error JSError.typeError
  | _ => Except.error JSError.typeError

/-- The state object read as a `ReadingRecord` by the calculation of one render.  `none`:
some numeric key does not hold a number, which is outside this model of the arithmetic;
`some (error _)`: the render throws. -/
def readingRecordOf (data : JSObject) : Option (Except JSError ReadingRecord) :=
  if numbersOk data then
    some (do
      let creditEntries ← entriesField data "creditEntries"
      let debitEntries ← entriesField data "debitEntries"
      let packedOilEntries ← entriesField data "packedOilEntries"
      pure {
        selectedId := scalarField data "selectedId"
        currentDate := scalarField data "currentDate"
        petrol := numField data "petrol"
        diesel := numField data "diesel"
        oil := numField data "oil"
        oilFirstReading := numField data "oilFirstReading"
        oilSecondReading := numField data "oilSecondReading"
        oilFirstReading2 := numField data "oilFirstReading2"
        oilSecondReading2 := numField data "oilSecondReading2"
        oilFirstReading3 := numField data "oilFirstReading3"
        oilSecondReading3 := numField data "oilSecondReading3"
        firstReading1 := numField data "firstReading1"
        secondReading1 := numField data "secondReading1"
        firstReading2 := numField data "firstReading2"
        secondReading2 := numField data "secondReading2"
        firstReading3 := numField data "firstReading3"
        secondReading3 := numField data "secondReading3"
        dieselFirstReading1 := numField data "dieselFirstReading1"
        dieselSecondReading1 := numField data "dieselSecondReading1"
        dieselFirstReading2 := numField data "dieselFirstReading2"
        dieselSecondReading2 := numField data "dieselSecondReading2"
        dieselFirstReading3 := numField data "dieselFirstReading3"
        dieselSecondReading3 := numField data "dieselSecondReading3"
        petrolTestQuantity := numField data "petrolTestQuantity"
        dieselTestQuantity := numField data "dieselTestQuantity"
        acidWater := numField data "acidWater"
        note500 := numField data "note500"
        note200 := numField data "note200"
        note100 := numField data "note100"
        note50 := numField data "note50"
        note20 := numField data "note20"
        note10 := numField data "note10"
        note5 := numField data "note5"
        coins := numField data "coins"
        batteryWater30 := numField data "batteryWater30"
        batteryWater60 := numField data "batteryWater60"
        batteryWater150 := numField data "batteryWater150"
        packedOilEntries := packedOilEntries
        creditEntries := creditEntries
        debitEntries := debitEntries })
  else none

/-- The figures of one render of `ReadingView` on the state object `data`. -/
def renderFigures (data : JSObject) : Option (Except JSError DerivedFigures) :=
  (readingRecordOf data).map fun result => result.map derivedFigures

/-- The state of `ReadingView` after `loadData` has fetched the record `fetchedData`
(the state before it is `initialReadingData`). -/
def viewState (fetchedData : JSObject) : JSObject :=
  loadData initialReadingData.toObject fetchedData

/-! ## The edit flow (EditReadingEntry.jsx) -/

/-- JavaScript truthiness of a scalar. -/
def JSVal.truthy : JSVal → Bool
  | JSVal.undefined => false
  | JSVal.null => false
  | JSVal.bool b => b
  | JSVal.num n => n.truthy
  | JSVal.str s => decide (s ≠ "")
  | JSVal.obj => true

/-- `getNumberValue`: `parseFloat(value)`, or `0` when that is `NaN`. -/
def getNumberValue (value : FieldVal) : JSNum :=
  let parsed := parseFloatField value
  if !parsed.isNaN then parsed else JSNum.fin 0

/-- The keys of the initial `formData` state of `EditReadingEntry`, in source order. -/
def editFormKeys : List String :=
  ["currentDate", "selectedId", "petrol", "diesel", "oil", "oilFirstReading",
   "oilFirstReading2", "oilFirstReading3", "oilSecondReading", "oilSecondReading2",
   "oilSecondReading3", "firstReading1", "firstReading2", "firstReading3", "secondReading1",
   "secondReading2", "secondReading3", "dieselFirstReading1", "dieselFirstReading2",
   "dieselFirstReading3", "dieselSecondReading1", "dieselSecondReading2",
   "dieselSecondReading3", "petrolTestQuantity", "dieselTestQuantity", "batteryWater30",
   "batteryWater60", "batteryWater150", "acidWater", "note500", "note200", "note100", "note50",
   "note20", "note10", "note5", "coins"]

/-- The initial `formData` state of `EditReadingEntry`: every key holds `''`. -/
def initialFormData : JSObject := fun key =>
  if key ∈ editFormKeys then some (FieldVal.scalar (JSVal.str "")) else none

/-- The state of the edit form: `formData` and the three line-item lists. -/
structure EditFormState where
  formData : JSObject
  packedOilEntries : FieldVal
  creditEntries : FieldVal
  debitEntries : FieldVal

/-- The `newFormData` object built by `loadDataForEdit`: for each key of `formData` that
the fetched record owns, the fetched value, or `''` when that value is `undefined` or
`null`.  The record is one on which `fetchedData.hasOwnProperty` is the inherited method
(see `loadDataForEdit` for the other records). -/
def newFormData (formData fetchedData : JSObject) : JSObject := fun key =>
  match formData key with
  | none => none
  | some _ =>
    match fetchedData key with
    | none => none
    | some value =>
      if value ≠ FieldVal.scalar JSVal.undefined ∧ value ≠ FieldVal.scalar JSVal.null then
        some value
      else some (FieldVal.scalar (JSVal.str ""))

/-- `fetchedData.xEntries || []`. -/
def orEmptyArray : Option FieldVal → FieldVal
  | none => FieldVal.list []
  | some (FieldVal.scalar v) => if v.truthy then FieldVal.scalar v else FieldVal.list []
  | some (FieldVal.list items) => FieldVal.list items

/-- The state of the edit form after `loadDataForEdit` has fetched `fetchedData` (the
`formData` it iterates over is the initial one).  When the fetched record has a property
named `hasOwnProperty` of its own, which in a JSON body is never a function, the call
`fetchedData.hasOwnProperty(key)` throws; the `catch` block shows a message and the state
stays the initial one. -/
def loadDataForEdit (fetchedData : JSObject) : EditFormState :=
  match fetchedData "hasOwnProperty" with
  | some _ =>
    { formData := initialFormData
      packedOilEntries := FieldVal.list []
      creditEntries := FieldVal.list []
      debitEntries := FieldVal.list [] }
  | none =>
    { formData := newFormData initialFormData fetchedData
      packedOilEntries := orEmptyArray (fetchedData "packedOilEntries")
      creditEntries := orEmptyArray (fetchedData "creditEntries")
      debitEntries := orEmptyArray (fetchedData "debitEntries") }

/-- The entry sent for a line item: `{name: entry.name, amount: getNumberValue(entry.amount)}`. -/
def sentEntry (entry : Entry) : Entry :=
  { name := entry.name
    amount := JSVal.num (getNumberValue (FieldVal.scalar entry.amount)) }

/-- `xEntries.map(entry => ({name: entry.name, amount: getNumberValue(entry.amount)}))`: a
`TypeError` unless the state holds an array without `null` elements. -/
def sentEntries : FieldVal → Except JSError FieldVal
  | FieldVal.list items =>
    if items.all Option.isSome then
      Except.ok (FieldVal.list (items.map fun item => item.map sentEntry))
    else Except.error JSError.typeError
  | FieldVal.scalar _ => Except.error JSError.typeError

/-- The object literal `data` of `saveChanges` (lines 254-274) once its three mapped lists
are evaluated; later properties win over earlier ones. -/
def saveChangesData (formData : JSObject) (packedOilEntries creditEntries debitEntries : FieldVal) :
    JSObject :=
  fun key =>
    if key = "debitEntries" then some debitEntries
    else if key = "creditEntries" then some creditEntries
    else if key = "packedOilEntries" then some packedOilEntries
    else
      match formData key with
      | none => none
      | some value =>
        if key ≠ "currentDate" ∧ key ≠ "selectedId" then
          some (FieldVal.scalar (JSVal.num (getNumberValue value)))
        else some value

/-- The object `data` built by `saveChanges`, or the exception it throws. -/
def saveChanges (state : EditFormState) : Except JSError JSObject := do
  let packedOilEntries ← sentEntries state.packedOilEntries
  let creditEntries ← sentEntries state.creditEntries
  let debitEntries ← sentEntries state.debitEntries
  pure (saveChangesData state.formData packedOilEntries creditEntries debitEntries)

/-! ## `formatOutput` (ReadingView.jsx lines 34-38) -/

/-- The string of `toFixed(2)` for a magnitude below 10^21: an optional sign, the integer
part, a point and the two digits of the hundredths, `n` being the magnitude in hundredths. -/
def fixedString (negative : Bool) (n : ℕ) : String :=
  (if negative then "-" else "") ++ toString (n / 100) ++ "."
    ++ String.mk [Nat.digitChar (n % 100 / 10), Nat.digitChar (n % 10)]

/-- JavaScript `num.toFixed(2)`.  A number that is not finite is returned through
`Number::toString`; a magnitude of 10^21 or more is too, in exponent notation, which is
outside the model and stands as the parameter `numberToString`; otherwise the magnitude is
rounded to the nearest hundredth, the larger one on a tie. -/
def toFixed2 (numberToString : ℚ → String) : JSNum → String
  | JSNum.nan => "NaN"
  | JSNum.inf false => "Infinity"
  | JSNum.inf true => "-Infinity"
  | JSNum.fin q =>
    if (10 : ℚ) ^ 21 ≤ |q| then (if q < 0 then "-" else "") ++ numberToString |q|
    else fixedString (decide (q < 0)) ⌊|q| * 100 + 1 / 2⌋₊

/-- `formatOutput(value)`. -/
def formatOutput (numberToString : ℚ → String) (value : JSVal) : String :=
  let num := Binary64.parseFloat value
  if num.isNaN then "-" else toFixed2 numberToString num

/-! ## `ReadingInputs` (ReadingInputs.jsx) -/

/-- The key written by `handleInputChange(e, index)`:
`${baseId}${index > 0 ? index : ''}`. -/
def handleInputChangeKey (baseId : String) (index : ℕ) : String :=
  baseId ++ (if index > 0 then toString index else "")

/-- `handleInputChange`: the form state with the typed text stored under that key. -/
def handleInputChange (baseId : String) (formData : JSObject) (value : String) (index : ℕ) :
    JSObject :=
  fun key =>
    if key = handleInputChangeKey baseId index then some (FieldVal.scalar (JSVal.str value))
    else formData key

/-- `inputIds`: `Array.from({ length: count }, (_, i) => ${baseId}${i > 0 ? i + 1 : ''})`. -/
def inputIds (baseId : String) (count : ℕ) : List String :=
  (List.range count).map fun i => baseId ++ (if i > 0 then toString (i + 1) else "")

/-- The key whose value input `index` displays: `formData[id]` with `id = inputIds[index]`. -/
def displayedKey (baseId : String) (count index : ℕ) : Option String :=
  (inputIds baseId count)[index]?

/-- The property is absent or holds an array of line-item objects. -/
def AbsentOrEntries (value : Option FieldVal) : Prop :=
  value = none ∨ ∃ entries : List Entry, value = some (FieldVal.list (entries.map some))

/-! ## Sample inputs -/

/-- A fetched record whose `creditEntries` is `null`. -/
def fetchedNullCredit : JSObject := fun key =>
  if key = "creditEntries" then some (FieldVal.scalar JSVal.null) else none

/-- A fetched record with numeric text, unparsable text, `null` and missing numeric fields,
one list present and two missing. -/
def fetchedSample : JSObject := fun key =>
  if key = "petrol" then some (FieldVal.scalar (JSVal.str "90.5"))
  else if key = "oil" then some (FieldVal.scalar (JSVal.str "abc"))
  else if key = "coins" then some (FieldVal.scalar JSVal.null)
  else if key = "note500" then some (FieldVal.scalar (JSVal.num (JSNum.fin 3)))
  else if key = "creditEntries" then some (FieldVal.list (exampleCreditEntries.map some))
  else none

/-- The sample reading as stored by a version of the store that has no `coins` field. -/
def fetchedWithoutCoins : JSObject := fun key =>
  if key = "coins" then none else sampleRecord.toObject key

/-- The record of the specification's example scenario: oil price 100 with heads (50, 30),
petrol price 90 with heads (10, 25), every other field zero or empty. -/
def specExampleRecord : ReadingRecord :=
  { initialReadingData with
    oil := JSNum.fin 100
    oilFirstReading := JSNum.fin 50
    oilSecondReading := JSNum.fin 30
    petrol := JSNum.fin 90
    firstReading1 := JSNum.fin 10
    secondReading1 := JSNum.fin 25 }

/-- An edit-form state with typed text in a few fields. -/
def sampleEditState : EditFormState :=
  { formData := fun key =>
      if key = "currentDate" then some (FieldVal.scalar (JSVal.str "2025-01-31"))
      else if key = "selectedId" then some (FieldVal.scalar (JSVal.str "7"))
      else if key = "petrol" then some (FieldVal.scalar (JSVal.str "90.5"))
      else if key = "coins" then some (FieldVal.scalar (JSVal.str ""))
      else none
    packedOilEntries := FieldVal.list []
    creditEntries := FieldVal.list (exampleCreditEntries.map some)
    debitEntries := FieldVal.list [] }

/-! ## The staff form (ReadingDifferenceCalculator.jsx) -/

/-- The keys of the initial `formData` state of the staff form, in source order. -/
def staffFormKeys : List String :=
  ["currentDate", "selectedId", "petrol", "diesel", "oil", "oilFirstReading",
   "oilFirstReading2", "oilFirstReading3", "oilSecondReading", "oilSecondReading2",
   "oilSecondReading3", "firstReading1", "firstReading2", "firstReading3", "secondReading1",
   "secondReading2", "secondReading3", "dieselFirstReading1", "dieselFirstReading2",
   "dieselFirstReading3", "dieselSecondReading1", "dieselSecondReading2",
   "dieselSecondReading3", "petrolTestQuantity", "dieselTestQuantity", "batteryWater30",
   "batteryWater60", "batteryWater150", "acidWater", "note500", "note200", "note100", "note50",
   "note20", "note10", "note5", "coins"]

/-- The 18 meter-reading keys declared in the initial `formData` of the staff form
(lines 86-91). -/
def staffMeterReadingKeys : List String :=
  ["oilFirstReading", "oilFirstReading2", "oilFirstReading3", "oilSecondReading",
   "oilSecondReading2", "oilSecondReading3", "firstReading1", "firstReading2", "firstReading3",
   "secondReading1", "secondReading2", "secondReading3", "dieselFirstReading1",
   "dieselFirstReading2", "dieselFirstReading3", "dieselSecondReading1",
   "dieselSecondReading2", "dieselSecondReading3"]

/-- The initial `formData` state of the staff form: the three prices hold `'Loading...'`,
every other key `''`. -/
def staffInitialFormData : JSObject := fun key =>
  if key ∈ ["petrol", "diesel", "oil"] then some (FieldVal.scalar (JSVal.str "Loading..."))
  else if key ∈ staffFormKeys then some (FieldVal.scalar (JSVal.str ""))
  else none

/-- The `baseId`s of the six `ReadingInputs` groups of the staff form (lines 319-326), each
rendered with `count={3}`. -/
def staffReadingGroups : List String :=
  ["oilFirstReading", "oilSecondReading", "firstReading", "secondReading",
   "dieselFirstReading", "dieselSecondReading"]

/-- The ids of all the inputs the six groups generate. -/
def staffGeneratedIds : List String :=
  staffReadingGroups.flatMap fun baseId => inputIds baseId 3

/-- A line item of the staff form: an object with the properties `id`, `name` and `amount`
(and whatever property `handleDynamicEntryChange` is asked to set). -/
abbrev StaffEntry := String → Option JSVal

/-- Reading a property of a line item (`undefined` when absent). -/
def StaffEntry.prop (entry : StaffEntry) (key : String) : JSVal :=
  match entry key with
  | some value => value
  | none => JSVal.undefined

/-- `entry.id === id`, the ids being the strings made by `createInitialDynamicEntry`. -/
def StaffEntry.hasId (entry : StaffEntry) (id : String) : Bool :=
  decide (entry "id" = some (JSVal.str id))

/-- `{ ...entry, [field]: value }`. -/
def StaffEntry.set (entry : StaffEntry) (field : String) (value : JSVal) : StaffEntry :=
  fun key => if key = field then some value else entry key

/-- The updater of `handleDynamicEntryChange(id, field, value, setEntries)`:
`prevEntries.map(entry => entry.id === id ? { ...entry, [field]: value } : entry)`. -/
def handleDynamicEntryChange (id field : String) (value : JSVal)
    (prevEntries : List StaffEntry) : List StaffEntry :=
  prevEntries.map fun entry => if entry.hasId id then entry.set field value else entry

/-- The updater of `removeDynamicEntry(id, setEntries)`:
`prevEntries.filter(entry => entry.id !== id)`. -/
def removeDynamicEntry (id : String) (prevEntries : List StaffEntry) : List StaffEntry :=
  prevEntries.filter fun entry => !entry.hasId id

/-- `processEntries`: `entries.map(entry => ({ name: entry.name, amount:
parseFloat(entry.amount) || 0 }))`. -/
def processEntries (entries : List StaffEntry) : List Entry :=
  entries.map fun entry =>
    { name := entry.prop "name"
      amount := JSVal.num ((parseFloat (entry.prop "amount")).orElse (JSNum.fin 0)) }

/-- What the loop of `saveAndNavigate` leaves under `key`: outside currentDate, selectedId
and the three prices, a value that parses is replaced by `parseFloat(value) || 0`. -/
def payloadField (key : String) (value : FieldVal) : FieldVal :=
  if key ≠ "currentDate" ∧ key ≠ "selectedId" ∧ key ∉ ["petrol", "diesel", "oil"]
      ∧ (parseFloatField value).isNaN = false then
    FieldVal.scalar (JSVal.num ((parseFloatField value).orElse (JSNum.fin 0)))
  else value

/-- The `payload` built by `saveAndNavigate` (lines 217-235). -/
def saveAndNavigate (formData : JSObject) (packedOilEntries creditEntries debitEntries :
    List StaffEntry) : JSObject :=
  fun key =>
    if key = "debitEntries" then some (FieldVal.list ((processEntries debitEntries).map some))
    else if key = "creditEntries" then
      some (FieldVal.list ((processEntries creditEntries).map some))
    else if key = "packedOilEntries" then
      some (FieldVal.list ((processEntries packedOilEntries).map some))
    else
      match formData key with
      | none => none
      | some value => some (payloadField key value)

/-! ## `addDynamicEntry` of the edit form (EditReadingEntry.jsx lines 166-192) -/

/-- JavaScript `String.prototype.trim`: white space is removed at both ends. -/
def jsTrim (s : String) : String :=
  String.mk
    ((s.data.dropWhile isStrWhiteSpaceChar).reverse.dropWhile isStrWhiteSpaceChar).reverse

/-- The state of one pair of new-entry inputs: `{ name, amount }`, both texts. -/
structure NewEntry where
  name : String
  amount : String
  deriving DecidableEq

/-- The part of the edit form's state that `addDynamicEntry` reads and writes. -/
structure EntryInputState where
  packedOilEntries : List (Option Entry)
  creditEntries : List (Option Entry)
  debitEntries : List (Option Entry)
  newPackedOil : NewEntry
  newCredit : NewEntry
  newDebit : NewEntry
  message : String
  messageType : String
  isMessageVisible : Bool
  deriving DecidableEq

/-- `showMessageBox(msg, type)`. -/
def showMessageBox (msg type : String) (state : EntryInputState) : EntryInputState :=
  { state with message := msg, messageType := type, isMessageVisible := true }

/-- The guard of `addDynamicEntry`: `name.trim() === '' || amount === ''`. -/
def rejectsNewEntry (newEntry : NewEntry) : Bool :=
  decide (jsTrim newEntry.name = "") || decide (newEntry.amount = "")

/-- The entry appended by `addDynamicEntry`: `{ name: name.trim(), amount: amount }`. -/
def appendedEntry (newEntry : NewEntry) : Entry :=
  { name := JSVal.str (jsTrim newEntry.name), amount := JSVal.str newEntry.amount }

/-- The text of the error message:
`${type.charAt(0).toUpperCase() + type.slice(1)} name and amount cannot be empty.` -/
def emptyEntryMessage (type : String) : String :=
  type.capitalize ++ " name and amount cannot be empty."

/-- `addDynamicEntry(type)` of the edit form. -/
def addDynamicEntry (type : String) (state : EntryInputState) : EntryInputState :=
  if type = "packedOil" then
    if rejectsNewEntry state.newPackedOil then
      showMessageBox (emptyEntryMessage type) "error" state
    else
      { state with
        packedOilEntries := state.packedOilEntries ++ [some (appendedEntry state.newPackedOil)]
        newPackedOil := { name := "", amount := "" } }
  else if type = "credit" then
    if rejectsNewEntry state.newCredit then
      showMessageBox (emptyEntryMessage type) "error" state
    else
      { state with
        creditEntries := state.creditEntries ++ [some (appendedEntry state.newCredit)]
        newCredit := { name := "", amount := "" } }
  else if type = "debit" then
    if rejectsNewEntry state.newDebit then
      showMessageBox (emptyEntryMessage type) "error" state
    else
      { state with
        debitEntries := state.debitEntries ++ [some (appendedEntry state.newDebit)]
        newDebit := { name := "", amount := "" } }
  else state

/-! ## `handlePriceChange` (PriceChange.jsx lines 40-47) -/

/-- The `prices` state: an object of texts. -/
abbrev PriceState := String → Option String

/-- The test `/^[0-9]*[.]?[0-9]*$/` (written with `\d` and an escaped point in
the source) on a text: a run of digits, an optional point, a run of digits, then the end
of the text.  Digits and the point being disjoint, the greedy reading decides the match. -/
def priceRegexTest (value : String) : Bool :=
  let afterDigits := value.data.dropWhile Char.isDigit
  let afterPoint :=
    match afterDigits with
    | [] => []
    | c :: rest => if c = '.' then rest else afterDigits
  (afterPoint.dropWhile Char.isDigit).isEmpty

/-- The guard of `handlePriceChange`: the regular expression matches, or `value === ''`. -/
def acceptsPrice (value : String) : Bool :=
  priceRegexTest value || decide (value = "")

/-- The `prices` state after `handlePriceChange` on the input `name` with text `value`:
`setPrices(prev => ({ ...prev, [name]: value }))` when the guard holds, no update
otherwise. -/
def handlePriceChange (prices : PriceState) (name value : String) : PriceState :=
  if acceptsPrice value then fun key => if key = name then some value else prices key
  else prices

/-- The text consists only of decimal digits and at most one decimal point. -/
def DigitsWithOnePoint (value : String) : Prop :=
  (∀ c ∈ value.data, c.isDigit = true ∨ c = '.') ∧ value.data.count '.' ≤ 1

/-! ## `fetchTransactions` (CreditDebit.jsx lines 69-87) -/

/-- A credit or debit of the response: `{ name, amount }`, amounts being numbers. -/
structure Transaction where
  name : JSVal
  amount : JSNum
  deriving DecidableEq

/-- The value under one date of the response: `credits` and `debits`, each possibly
missing. -/
structure DayData where
  credits : Option (List Transaction)
  debits : Option (List Transaction)
  deriving DecidableEq

/-- One displayed day group: `{ date, credits, debits }`. -/
structure DayGroup where
  date : String
  credits : List Transaction
  debits : List Transaction
  deriving DecidableEq

/-- The `summary` state. -/
structure Summary where
  totalCredit : JSNum
  totalDebit : JSNum
  netAmount : JSNum
  deriving DecidableEq

/-- `(dayData && dayData.credits) || []`, the value under a date possibly `null`. -/
def dayCredits (dayData : Option DayData) : List Transaction :=
  match dayData with
  | none => []
  | some day =>
    match day.credits with
    | none => []
    | some credits => credits

/-- `(dayData && dayData.debits) || []`. -/
def dayDebits (dayData : Option DayData) : List Transaction :=
  match dayData with
  | none => []
  | some day =>
    match day.debits with
    | none => []
    | some debits => debits

/-- The value of `totalCredit` after the `map` over `Object.entries(data)`: every day's
`credits.forEach(credit => totalCredit += credit.amount)` in turn, from 0. -/
def accumulatedCredit (response : List (String × Option DayData)) : JSNum :=
  response.foldl
    (fun total day => (dayCredits day.2).foldl (fun sum credit => sum + credit.amount) total)
    (JSNum.fin 0)

/-- The value of `totalDebit` after the `map`. -/
def accumulatedDebit (response : List (String × Option DayData)) : JSNum :=
  response.foldl
    (fun total day => (dayDebits day.2).foldl (fun sum debit => sum + debit.amount) total)
    (JSNum.fin 0)

/-- The comparator `(a, b) => new Date(b.date) - new Date(a.date)` tells `sort` to put `a`
after `b` when it is positive; `dateTime` gives the time value of `new Date(text)`, `NaN`
for an invalid date. -/
def keepsBefore (dateTime : String → JSNum) (a b : DayGroup) : Prop :=
  (dateTime b.date - dateTime a.date).gt (JSNum.fin 0) = false

instance (dateTime : String → JSNum) : DecidableRel (keepsBefore dateTime) :=
  fun a b => inferInstanceAs (Decidable ((dateTime b.date - dateTime a.date).gt _ = false))

/-- The `transactions` state: the day groups in the order of `Object.entries`, then sorted
by the comparator.  `Array.prototype.sort` is stable, so with a consistent comparator its
result is the one a stable insertion sort gives. -/
def fetchedTransactions (dateTime : String → JSNum) (response : List (String × Option DayData)) :
    List DayGroup :=
  (response.map fun day =>
      ({ date := day.1, credits := dayCredits day.2, debits := dayDebits day.2 } : DayGroup)).insertionSort
    (keepsBefore dateTime)

/-- The `summary` state set by `fetchTransactions`. -/
def fetchedSummary (response : List (String × Option DayData)) : Summary :=
  { totalCredit := accumulatedCredit response
    totalDebit := accumulatedDebit response
    netAmount := accumulatedCredit response - accumulatedDebit response }

/-! ## Sample inputs of the staff and admin flows -/

/-- A staff-form state with typed text in a few fields. -/
def sampleStaffFormData : JSObject := fun key =>
  if key = "currentDate" then some (FieldVal.scalar (JSVal.str "2025-01-31"))
  else if key = "petrol" then some (FieldVal.scalar (JSVal.str "104.50"))
  else if key = "coins" then some (FieldVal.scalar (JSVal.str "12"))
  else if key = "acidWater" then some (FieldVal.scalar (JSVal.str ""))
  else none

/-- A staff line item `{ id: "credit_1", name: "GPAY", amount: "100" }`. -/
def sampleStaffEntry : StaffEntry := fun key =>
  if key = "id" then some (JSVal.str "credit_1")
  else if key = "name" then some (JSVal.str "GPAY")
  else if key = "amount" then some (JSVal.str "100")
  else none

/-- An edit-form state in which the new credit inputs hold `" GPAY "` and `"100"`. -/
def sampleEntryInputState : EntryInputState :=
  { packedOilEntries := []
    creditEntries := exampleCreditEntries.map some
    debitEntries := []
    newPackedOil := { name := "  ", amount := "5" }
    newCredit := { name := " GPAY ", amount := "100" }
    newDebit := { name := "", amount := "" }
    message := ""
    messageType := "success"
    isMessageVisible := false }

/-- A response with two dates, the older one listed first. -/
def sampleResponse : List (String × Option DayData) :=
  [("2025-01-30",
      some { credits := some [{ name := JSVal.str "A", amount := JSNum.fin 100 }]
             debits := none }),
   ("2025-01-31",
      some { credits := some [{ name := JSVal.str "B", amount := JSNum.fin 50 }]
             debits := some [{ name := JSVal.str "C", amount := JSNum.fin 30 }] })]

/-- Time values for the two dates of `sampleResponse` (days since the epoch, in ms). -/
def sampleDateTime (text : String) : JSNum :=
  if text = "2025-01-30" then JSNum.fin 1738195200000
  else if text = "2025-01-31" then JSNum.fin 1738281600000
  else JSNum.nan

/-! ## Sample inputs of the binary64 calculation -/

/-- Three line items with the amounts `0.1`, `0.2` and `0.3`. -/
def tenthsEntries : List Entry :=
  [{ name := JSVal.str "a", amount := JSVal.str "0.1" },
   { name := JSVal.str "b", amount := JSVal.str "0.2" },
   { name := JSVal.str "c", amount := JSVal.str "0.3" }]

/-- A reading with one debit of `0.3` and `0.1` of acid water. -/
def tenthsRecord : ReadingRecord :=
  { initialReadingData with
    acidWater := Binary64.parseFloat (JSVal.str "0.1")
    debitEntries := [{ name := JSVal.str "K", amount := JSVal.str "0.3" }] }

/-- A petrol sale of `1010.4 - 1000.1` litres at `104.5`, paid with `1076.35` in the till;
in decimal arithmetic the till balances exactly. -/
def fuelSaleRecord : ReadingRecord :=
  { initialReadingData with
    petrol := Binary64.parseFloat (JSVal.str "104.5")
    firstReading1 := Binary64.parseFloat (JSVal.str "1000.1")
    secondReading1 := Binary64.parseFloat (JSVal.str "1010.4")
    coins := Binary64.parseFloat (JSVal.str "1076.35") }

/-- The same sale with the decimal values themselves for fields, as exact arithmetic sees
them. -/
def fuelSaleDecimals : ReadingRecord :=
  { initialReadingData with
    petrol := parseFloat (JSVal.str "104.5")
    firstReading1 := parseFloat (JSVal.str "1000.1")
    secondReading1 := parseFloat (JSVal.str "1010.4")
    coins := parseFloat (JSVal.str "1076.35") }

/-- A line item with the number `0.2` for amount. -/
def fifthEntry : Entry :=
  { name := JSVal.str "L", amount := JSVal.num (Binary64.parseFloat (JSVal.str "0.2")) }

/-- A filled-in reading of whole numbers. -/
def wholeRecord : ReadingRecord :=
  { initialReadingData with
    selectedId := JSVal.str "7"
    currentDate := JSVal.str "2025-01-31"
    petrol := JSNum.fin 90
    diesel := JSNum.fin 80
    oil := JSNum.fin 100
    oilFirstReading := JSNum.fin 50
    oilSecondReading := JSNum.fin 30
    firstReading1 := JSNum.fin 10
    secondReading1 := JSNum.fin 25
    dieselFirstReading2 := JSNum.fin 4
    dieselSecondReading2 := JSNum.fin 9
    petrolTestQuantity := JSNum.fin 1
    dieselTestQuantity := JSNum.fin 2
    acidWater := JSNum.fin 40
    note500 := JSNum.fin 7
    note100 := JSNum.fin 3
    note5 := JSNum.fin 1
    coins := JSNum.fin 3
    batteryWater30 := JSNum.fin 2
    batteryWater150 := JSNum.fin 1
    packedOilEntries := [{ name := JSVal.str "2T", amount := JSVal.str "120" },
      { name := JSVal.str "4T", amount := JSVal.str "75" }]
    creditEntries := exampleCreditEntries
    debitEntries := [{ name := JSVal.str "K", amount := JSVal.num (JSNum.fin 60) }] }

/-- A reading whose petrol price was stored as the text `Infinity`, with one litre sold. -/
def infinitePriceRecord : ReadingRecord :=
  { initialReadingData with
    petrol := Binary64.parseFloat (JSVal.str "Infinity")
    secondReading1 := Binary64.parseFloat (JSVal.str "1") }

/-! ## Arithmetic of `JSNum` -/

namespace JSNum

@[simp] theorem fin_add_fin (a b : ℚ) : (fin a + fin b : JSNum) = fin (a + b) := rfl

@[simp] theorem fin_sub_fin (a b : ℚ) : (fin a - fin b : JSNum) = fin (a - b) := rfl

@[simp] theorem fin_mul_fin (a b : ℚ) : (fin a * fin b : JSNum) = fin (a * b) := rfl

@[simp] theorem toRat_fin (q : ℚ) : (fin q).toRat = q := rfl

theorem zero_def : (0 : JSNum) = fin 0 := rfl

theorem IsFinite.exists_fin {x : JSNum} (h : x.IsFinite) : ∃ q : ℚ, x = fin q := by
  cases x with
  | nan => exact absurd h (fun h => h)
  | fin q => exact ⟨q, rfl⟩
  | inf s => exact absurd h (fun h => h)

theorem IsFinite.eq_fin {x : JSNum} (h : x.IsFinite) : x = fin x.toRat := by
  obtain ⟨q, rfl⟩ := h.exists_fin
  rfl

theorem IsFinite.ne_nan {x : JSNum} (h : x.IsFinite) : x ≠ nan := by
  obtain ⟨q, rfl⟩ := h.exists_fin
  exact fun h => JSNum.noConfusion h

theorem mul_swap (a b : JSNum) : a * b = b * a := by
  cases a <;> cases b <;>
    first
    | rfl
    | (show mul _ _ = mul _ _
       simp [mul, Rat.mul_comm, Bool.xor_comm])

theorem add_zero_right (a : JSNum) : a + fin 0 = a := by
  cases a <;>
    first
    | rfl
    | (show add _ _ = _
       simp [add])

theorem zero_add_left (a : JSNum) : fin 0 + a = a := by
  cases a <;>
    first
    | rfl
    | (show add _ _ = _
       simp [add])

theorem add_assoc3 (a b c : JSNum) : a + b + c = a + (b + c) := by
  cases a <;> cases b <;> cases c <;>
    first
    | rfl
    | (show add (add _ _) _ = add _ (add _ _)
       simp only [add]
       first
       | rfl
       | (rw [Rat.add_assoc])
       | (split_ifs <;> simp_all [add]))

/-- `x || 0` is `x` unless `x` is `NaN`, in which case it is `0`. -/
theorem orElse_zero (x : JSNum) : x.orElse (fin 0) = if x.isNaN then fin 0 else x := by
  cases x with
  | nan => rfl
  | fin q =>
    by_cases hq : q = 0
    · simp [orElse, truthy, isNaN, hq]
    · simp [orElse, truthy, isNaN, hq]
  | inf s => rfl

@[simp] theorem orElse_fin_zero (q : ℚ) : (fin q).orElse (fin 0) = fin q := by
  rw [orElse_zero]
  rfl

theorem orElse_zero_of_ne_nan {x : JSNum} (h : x ≠ nan) : x.orElse (fin 0) = x := by
  rw [orElse_zero]
  cases x with
  | nan => exact absurd rfl h
  | fin q => rfl
  | inf s => rfl

/-- A difference that is a number is `0` exactly when its two operands are equal. -/
theorem sub_eq_zero_iff {a b : JSNum} (h : a - b ≠ nan) : a - b = fin 0 ↔ a = b := by
  cases a with
  | nan => exact absurd rfl h
  | fin p =>
    cases b with
    | nan => exact absurd rfl h
    | fin q =>
      show fin (p - q) = fin 0 ↔ fin p = fin q
      simp [sub_eq_zero]
    | inf t =>
      show inf (!t) = fin 0 ↔ fin p = inf t
      simp
  | inf s =>
    cases b with
    | nan => exact absurd rfl h
    | fin q =>
      show inf s = fin 0 ↔ inf s = fin q
      simp
    | inf t =>
      by_cases hst : s = t
      · subst hst
        exact absurd (show sub (inf s) (inf s) = nan by simp [sub]) h
      · show sub (inf s) (inf t) = fin 0 ↔ inf s = inf t
        simp [sub, hst]

/-- A number that is not `NaN` is positive, negative or zero, and only one of the three. -/
theorem trichotomy {x : JSNum} (h : x ≠ nan) :
    (x.gt (fin 0) = true ∧ x.lt (fin 0) = false ∧ x ≠ fin 0) ∨
    (x.gt (fin 0) = false ∧ x.lt (fin 0) = true ∧ x ≠ fin 0) ∨
    (x.gt (fin 0) = false ∧ x.lt (fin 0) = false ∧ x = fin 0) := by
  cases x with
  | nan => exact absurd rfl h
  | fin q =>
    rcases lt_trichotomy q 0 with hq | hq | hq
    · right; left
      simp [gt, lt, hq, hq.le, hq.ne]
    · right; right
      simp [gt, lt, hq]
    · left
      simp [gt, lt, hq, hq.le, hq.ne.symm]
  | inf s =>
    cases s
    · left; simp [gt, lt]
    · right; left; simp [gt, lt]

end JSNum

/-! ## The line-item reducer -/

theorem foldl_add_eq (f : Entry → JSNum) (entries : List Entry) (acc : JSNum) :
    entries.foldl (fun total entry => total + f entry) acc = acc + (entries.map f).sum := by
  induction entries generalizing acc with
  | nil => simp [JSNum.zero_def, JSNum.add_zero_right]
  | cons e es ih => simp [ih, JSNum.add_assoc3]

theorem sumEntries_eq_sum (entries : List Entry) :
    sumEntries entries = (entries.map entryContribution).sum := by
  unfold sumEntries
  rw [foldl_add_eq, JSNum.zero_add_left]
  congr 1
  apply List.map_congr_left
  intro e _
  simp [entryContribution, JSNum.orElse_zero]

theorem sumEntries_cons (e : Entry) (es : List Entry) :
    sumEntries (e :: es) = entryContribution e + sumEntries es := by
  simp [sumEntries_eq_sum]

theorem sumEntries_isFinite {entries : List Entry} (h : FiniteEntries entries) :
    (sumEntries entries).IsFinite := by
  induction entries with
  | nil => exact trivial
  | cons e es ih =>
    rw [sumEntries_cons]
    have he : ((parseFloat e.amount).orElse (JSNum.fin 0)).IsFinite := h e (by simp)
    have hes : (sumEntries es).IsFinite := ih (fun x hx => h x (by simp [hx]))
    obtain ⟨a, ha⟩ := he.exists_fin
    obtain ⟨b, hb⟩ := hes.exists_fin
    rw [JSNum.orElse_zero] at ha
    rw [entryContribution, ha, hb]
    exact trivial

/-- An amount that begins with a number is read by `parseFloat` as that number: the entry
`{amount: "12abc"}` adds 12 to its total. -/
theorem sumEntries_numeric_prefix :
    sumEntries [{ name := JSVal.undefined, amount := JSVal.str "12abc" }] = JSNum.fin 12 := by
  simp [sumEntries, parseFloat, parseFloatChars, strUnsignedDecimalLiteral, decimalValue,
    exponentPart, isStrWhiteSpaceChar, JSNum.orElse, JSNum.truthy]

/-! ## Records of decimal values -/

/-- On a record of decimal values the counted cash is the exact rational
`note500·500 + … + note5·5 + coins`. -/
theorem totalDenominationAmount_of_decimal (data : ReadingRecord) (h : data.Decimal) :
    totalDenominationAmount data =
      JSNum.fin (data.note500.toRat * 500 + data.note200.toRat * 200
        + data.note100.toRat * 100 + data.note50.toRat * 50 + data.note20.toRat * 20
        + data.note10.toRat * 10 + data.note5.toRat * 5 + data.coins.toRat) := by
  obtain ⟨q24, e24⟩ := h.note500.exists_fin
  obtain ⟨q25, e25⟩ := h.note200.exists_fin
  obtain ⟨q26, e26⟩ := h.note100.exists_fin
  obtain ⟨q27, e27⟩ := h.note50.exists_fin
  obtain ⟨q28, e28⟩ := h.note20.exists_fin
  obtain ⟨q29, e29⟩ := h.note10.exists_fin
  obtain ⟨q30, e30⟩ := h.note5.exists_fin
  obtain ⟨q31, e31⟩ := h.coins.exists_fin
  simp only [totalDenominationAmount, e24, e25, e26, e27, e28, e29, e30, e31, JSNum.orElse_fin_zero, JSNum.fin_add_fin,
    JSNum.fin_mul_fin, JSNum.toRat_fin]

/-- On a record of decimal values `finalResult` is the exact rational value of
positives minus negatives. -/
theorem finalResult_of_decimal (data : ReadingRecord) (h : data.Decimal) :
    finalResult data =
      JSNum.fin
        ((((data.oilFirstReading.toRat - data.oilSecondReading.toRat)
            + (data.oilFirstReading2.toRat - data.oilSecondReading2.toRat)
            + (data.oilFirstReading3.toRat - data.oilSecondReading3.toRat)) * data.oil.toRat
          + ((data.secondReading1.toRat - data.firstReading1.toRat)
            + (data.secondReading2.toRat - data.firstReading2.toRat)
            + (data.secondReading3.toRat - data.firstReading3.toRat)) * data.petrol.toRat
          + ((data.dieselSecondReading1.toRat - data.dieselFirstReading1.toRat)
            + (data.dieselSecondReading2.toRat - data.dieselFirstReading2.toRat)
            + (data.dieselSecondReading3.toRat - data.dieselFirstReading3.toRat))
            * data.diesel.toRat
          + (totalDebitAmount data).toRat
          + (30 * data.batteryWater30.toRat + 60 * data.batteryWater60.toRat
            + 150 * data.batteryWater150.toRat)
          + data.acidWater.toRat
          + (totalPackedOilAmount data).toRat)
        - (data.petrolTestQuantity.toRat * data.petrol.toRat
          + data.dieselTestQuantity.toRat * data.diesel.toRat
          + (totalCreditAmount data).toRat)) := by
  obtain ⟨q0, e0⟩ := h.petrol.exists_fin
  obtain ⟨q1, e1⟩ := h.diesel.exists_fin
  obtain ⟨q2, e2⟩ := h.oil.exists_fin
  obtain ⟨q3, e3⟩ := h.oilFirstReading.exists_fin
  obtain ⟨q4, e4⟩ := h.oilSecondReading.exists_fin
  obtain ⟨q5, e5⟩ := h.oilFirstReading2.exists_fin
  obtain ⟨q6, e6⟩ := h.oilSecondReading2.exists_fin
  obtain ⟨q7, e7⟩ := h.oilFirstReading3.exists_fin
  obtain ⟨q8, e8⟩ := h.oilSecondReading3.exists_fin
  obtain ⟨q9, e9⟩ := h.firstReading1.exists_fin
  obtain ⟨q10, e10⟩ := h.secondReading1.exists_fin
  obtain ⟨q11, e11⟩ := h.firstReading2.exists_fin
  obtain ⟨q12, e12⟩ := h.secondReading2.exists_fin
  obtain ⟨q13, e13⟩ := h.firstReading3.exists_fin
  obtain ⟨q14, e14⟩ := h.secondReading3.exists_fin
  obtain ⟨q15, e15⟩ := h.dieselFirstReading1.exists_fin
  obtain ⟨q16, e16⟩ := h.dieselSecondReading1.exists_fin
  obtain ⟨q17, e17⟩ := h.dieselFirstReading2.exists_fin
  obtain ⟨q18, e18⟩ := h.dieselSecondReading2.exists_fin
  obtain ⟨q19, e19⟩ := h.dieselFirstReading3.exists_fin
  obtain ⟨q20, e20⟩ := h.dieselSecondReading3.exists_fin
  obtain ⟨q21, e21⟩ := h.petrolTestQuantity.exists_fin
  obtain ⟨q22, e22⟩ := h.dieselTestQuantity.exists_fin
  obtain ⟨q23, e23⟩ := h.acidWater.exists_fin
  obtain ⟨q32, e32⟩ := h.batteryWater30.exists_fin
  obtain ⟨q33, e33⟩ := h.batteryWater60.exists_fin
  obtain ⟨q34, e34⟩ := h.batteryWater150.exists_fin
  obtain ⟨tp, etp⟩ := (sumEntries_isFinite h.packedOilEntries).exists_fin
  obtain ⟨tc, etc⟩ := (sumEntries_isFinite h.creditEntries).exists_fin
  obtain ⟨td, etd⟩ := (sumEntries_isFinite h.debitEntries).exists_fin
  simp only [finalResult, oilRequiredMoney, totalOilDifference, oilDiff1, oilDiff2, oilDiff3,
    requiredMoneyPetrol, totalPetrolDifference, petrolDiff1, petrolDiff2, petrolDiff3,
    requiredMoneyDiesel, totalDieselDifference, dieselDiff1, dieselDiff2, dieselDiff3,
    petrolTestQuantityMoney, dieselTestQuantityMoney, totalBatteryWaterAmount,
    totalPackedOilAmount, totalCreditAmount, totalDebitAmount,
    e0, e1, e2, e3, e4, e5, e6, e7, e8, e9, e10, e11, e12, e13, e14, e15, e16, e17, e18, e19, e20, e21, e22, e23, e32, e33, e34, etp, etc, etd,
    JSNum.orElse_fin_zero, JSNum.fin_add_fin, JSNum.fin_sub_fin, JSNum.fin_mul_fin,
    JSNum.toRat_fin]

/-- On a record of decimal values the excess/shortage figure is a finite number. -/
theorem excessShotResult_isFinite_of_decimal (data : ReadingRecord) (h : data.Decimal) :
    (excessShotResult data).IsFinite := by
  rw [excessShotResult, totalDenominationAmount_of_decimal data h,
    finalResult_of_decimal data h, JSNum.fin_sub_fin]
  exact trivial

/-! ## Facts about the sample data -/

theorem sampleRecord_decimal : sampleRecord.Decimal := by
  constructor <;>
    first
    | exact trivial
    | (intro entry hentry
       simp only [sampleRecord, initialReadingData, exampleCreditEntries, List.mem_cons,
         List.mem_singleton, List.not_mem_nil, or_false] at hentry
       rcases hentry with rfl | rfl <;>
         simp [parseFloat, parseFloatChars, strUnsignedDecimalLiteral, decimalValue,
           exponentPart, isStrWhiteSpaceChar, JSNum.orElse_zero, JSNum.isNaN, JSNum.IsFinite])

theorem sampleRecord_excessShotResult : excessShotResult sampleRecord = JSNum.fin (-23) := by
  simp [excessShotResult, finalResult, totalDenominationAmount, oilRequiredMoney,
    totalOilDifference, oilDiff1, oilDiff2, oilDiff3, requiredMoneyPetrol,
    totalPetrolDifference, petrolDiff1, petrolDiff2, petrolDiff3, requiredMoneyDiesel,
    totalDieselDifference, dieselDiff1, dieselDiff2, dieselDiff3, totalDebitAmount,
    totalCreditAmount, totalPackedOilAmount, totalBatteryWaterAmount,
    petrolTestQuantityMoney, dieselTestQuantityMoney, exampleCreditEntries, sumEntries,
    sampleRecord, initialReadingData, parseFloat, parseFloatChars,
    strUnsignedDecimalLiteral, decimalValue, exponentPart, isStrWhiteSpaceChar,
    JSNum.orElse, JSNum.truthy]
  norm_num

theorem initialReadingData_excessShotResult :
    excessShotResult initialReadingData = JSNum.fin 0 := by
  simp [excessShotResult, finalResult, totalDenominationAmount, oilRequiredMoney,
    totalOilDifference, oilDiff1, oilDiff2, oilDiff3, requiredMoneyPetrol,
    totalPetrolDifference, petrolDiff1, petrolDiff2, petrolDiff3, requiredMoneyDiesel,
    totalDieselDifference, dieselDiff1, dieselDiff2, dieselDiff3, totalDebitAmount,
    totalCreditAmount, totalPackedOilAmount, totalBatteryWaterAmount,
    petrolTestQuantityMoney, dieselTestQuantityMoney, sumEntries, initialReadingData,
    JSNum.orElse, JSNum.truthy]

/-! ## The claims -/

/-- C1: `finalResult` is positives minus negatives, where positives is oilRequiredMoney +
requiredMoneyPetrol + requiredMoneyDiesel + totalDebitAmount + totalBatteryWaterAmount +
acidWater + totalPackedOilAmount and negatives is petrolTestQuantityMoney +
dieselTestQuantityMoney + totalCreditAmount; no other term takes part. -/
theorem finalResult_eq_positives_sub_negatives (data : ReadingRecord) :
    finalResult data =
      (oilRequiredMoney data + requiredMoneyPetrol data + requiredMoneyDiesel data
        + totalDebitAmount data + totalBatteryWaterAmount data + data.acidWater
        + totalPackedOilAmount data)
      - (petrolTestQuantityMoney data + dieselTestQuantityMoney data
        + totalCreditAmount data) :=
  rfl

/-- C2: `excessShotResult` is totalDenominationAmount minus finalResult, and it is `0`
exactly when the counted cash equals finalResult.  The hypothesis asks that the figure be a
number, which holds on every record of decimal values
(`excessShotResult_isFinite_of_decimal`). -/
theorem excessShotResult_eq_denomination_sub_final (data : ReadingRecord)
    (h : excessShotResult data ≠ JSNum.nan) :
    excessShotResult data = totalDenominationAmount data - finalResult data ∧
    (excessShotResult data = JSNum.fin 0 ↔ totalDenominationAmount data = finalResult data) :=
  ⟨rfl, JSNum.sub_eq_zero_iff h⟩


/-- The excess/shortage identity on the sample reading, whose figure is -23. -/
theorem excessShotResult_eq_denomination_sub_final_witness :
    excessShotResult sampleRecord ≠ JSNum.nan ∧
    (excessShotResult sampleRecord
        = totalDenominationAmount sampleRecord - finalResult sampleRecord ∧
     (excessShotResult sampleRecord = JSNum.fin 0 ↔
        totalDenominationAmount sampleRecord = finalResult sampleRecord)) :=
  ⟨by simp [sampleRecord_excessShotResult],
   excessShotResult_eq_denomination_sub_final sampleRecord
     (by simp [sampleRecord_excessShotResult])⟩

/-- C3: the heading is 'Excess' iff excessShotResult > 0, 'Shot' iff excessShotResult < 0,
and the neutral 'Excess/Shot' iff excessShotResult = 0; exactly one of the three cases
applies.  The hypothesis asks that the figure be a number, which holds on every record of
decimal values (`excessShotResult_isFinite_of_decimal`). -/
theorem excessShotStatus_classification (data : ReadingRecord)
    (h : excessShotResult data ≠ JSNum.nan) :
    ((excessShotStatus data).heading = "Excess" ↔
        (excessShotResult data).gt (JSNum.fin 0) = true) ∧
    ((excessShotStatus data).heading = "Shot" ↔
        (excessShotResult data).lt (JSNum.fin 0) = true) ∧
    ((excessShotStatus data).heading = "Excess/Shot" ↔
        excessShotResult data = JSNum.fin 0) ∧
    (((excessShotResult data).gt (JSNum.fin 0) = true ∧
        (excessShotResult data).lt (JSNum.fin 0) = false ∧
        excessShotResult data ≠ JSNum.fin 0) ∨
     ((excessShotResult data).gt (JSNum.fin 0) = false ∧
        (excessShotResult data).lt (JSNum.fin 0) = true ∧
        excessShotResult data ≠ JSNum.fin 0) ∨
     ((excessShotResult data).gt (JSNum.fin 0) = false ∧
        (excessShotResult data).lt (JSNum.fin 0) = false ∧
        excessShotResult data = JSNum.fin 0)) := by
  have key := JSNum.trichotomy h
  refine ⟨?_, ?_, ?_, key⟩
  · rcases key with ⟨h1, h2, _⟩ | ⟨h1, h2, _⟩ | ⟨h1, h2, _⟩ <;>
      simp [excessShotStatus, h1, h2]
  · rcases key with ⟨h1, h2, _⟩ | ⟨h1, h2, _⟩ | ⟨h1, h2, _⟩ <;>
      simp [excessShotStatus, h1, h2]
  · rcases key with ⟨h1, h2, h3⟩ | ⟨h1, h2, h3⟩ | ⟨h1, h2, h3⟩
    · simp [excessShotStatus, h1, h2, h3]
    · simp [excessShotStatus, h1, h2, h3]
    · have hs : excessShotStatus data =
          { heading := "Excess/Shot", className := "bg-gray-100 text-gray-800" } := by
        simp [excessShotStatus, h1, h2]
      rw [hs]
      simp [h3]


/-- The classification on the all-zero initial reading: its figure is 0, the neutral state. -/
theorem excessShotStatus_classification_witness :
    excessShotResult initialReadingData ≠ JSNum.nan ∧
    (excessShotStatus initialReadingData).heading = "Excess/Shot" :=
  ⟨by simp [initialReadingData_excessShotResult],
   (excessShotStatus_classification initialReadingData
     (by simp [initialReadingData_excessShotResult])).2.2.1.mpr
     initialReadingData_excessShotResult⟩

/-- C4: per head, the oil difference is first minus second and the petrol and diesel
differences are second minus first; each fuel's total difference is the sum of its three
per-head differences. -/
theorem per_head_differences (data : ReadingRecord) :
    (oilDiff1 data = data.oilFirstReading - data.oilSecondReading ∧
     oilDiff2 data = data.oilFirstReading2 - data.oilSecondReading2 ∧
     oilDiff3 data = data.oilFirstReading3 - data.oilSecondReading3) ∧
    (petrolDiff1 data = data.secondReading1 - data.firstReading1 ∧
     petrolDiff2 data = data.secondReading2 - data.firstReading2 ∧
     petrolDiff3 data = data.secondReading3 - data.firstReading3) ∧
    (dieselDiff1 data = data.dieselSecondReading1 - data.dieselFirstReading1 ∧
     dieselDiff2 data = data.dieselSecondReading2 - data.dieselFirstReading2 ∧
     dieselDiff3 data = data.dieselSecondReading3 - data.dieselFirstReading3) ∧
    totalOilDifference data = oilDiff1 data + oilDiff2 data + oilDiff3 data ∧
    totalPetrolDifference data = petrolDiff1 data + petrolDiff2 data + petrolDiff3 data ∧
    totalDieselDifference data = dieselDiff1 data + dieselDiff2 data + dieselDiff3 data :=
  ⟨⟨rfl, rfl, rfl⟩, ⟨rfl, rfl, rfl⟩, ⟨rfl, rfl, rfl⟩, rfl, rfl, rfl⟩

/-- C5: for oil, petrol and diesel the required money is the fuel's total difference
multiplied by the unit price stored in the record; no rounding step stands between the
raw readings and the product. -/
theorem required_money_eq (data : ReadingRecord) :
    (oilRequiredMoney data = totalOilDifference data * data.oil ∧
     requiredMoneyPetrol data = totalPetrolDifference data * data.petrol ∧
     requiredMoneyDiesel data = totalDieselDifference data * data.diesel) ∧
    (oilRequiredMoney data =
        ((data.oilFirstReading - data.oilSecondReading)
          + (data.oilFirstReading2 - data.oilSecondReading2)
          + (data.oilFirstReading3 - data.oilSecondReading3)) * data.oil ∧
     requiredMoneyPetrol data =
        ((data.secondReading1 - data.firstReading1)
          + (data.secondReading2 - data.firstReading2)
          + (data.secondReading3 - data.firstReading3)) * data.petrol ∧
     requiredMoneyDiesel data =
        ((data.dieselSecondReading1 - data.dieselFirstReading1)
          + (data.dieselSecondReading2 - data.dieselFirstReading2)
          + (data.dieselSecondReading3 - data.dieselFirstReading3)) * data.diesel) :=
  ⟨⟨rfl, rfl, rfl⟩, rfl, rfl, rfl⟩

/-- C6: the petrol and diesel test money are the test quantity times the fuel's price; the
amount deducted in finalResult consists of these two and the credit total only, and the oil
price enters finalResult through the oil required money alone (no oil test-money term). -/
theorem test_quantity_money_eq (data : ReadingRecord) :
    petrolTestQuantityMoney data = data.petrolTestQuantity * data.petrol ∧
    dieselTestQuantityMoney data = data.dieselTestQuantity * data.diesel ∧
    finalResult data =
      (oilRequiredMoney data + requiredMoneyPetrol data + requiredMoneyDiesel data
        + totalDebitAmount data + totalBatteryWaterAmount data + data.acidWater
        + totalPackedOilAmount data)
      - (data.petrolTestQuantity * data.petrol + data.dieselTestQuantity * data.diesel
        + totalCreditAmount data) ∧
    (∀ oilPrice : JSNum,
      finalResult { data with oil := oilPrice } =
        (totalOilDifference data * oilPrice + requiredMoneyPetrol data
          + requiredMoneyDiesel data + totalDebitAmount data + totalBatteryWaterAmount data
          + data.acidWater + totalPackedOilAmount data)
        - (data.petrolTestQuantity * data.petrol + data.dieselTestQuantity * data.diesel
          + totalCreditAmount data)) :=
  ⟨rfl, rfl, rfl, fun _ => rfl⟩

/-- C7: each of the packed-oil, credit and debit totals is the sum over the entries of the
entry's amount, an entry whose amount is not numeric contributing 0; the credit entries
`[{amount:100},{amount:"abc"}]` total 100. -/
theorem line_item_totals (data : ReadingRecord) :
    totalPackedOilAmount data = (data.packedOilEntries.map entryContribution).sum ∧
    totalCreditAmount data = (data.creditEntries.map entryContribution).sum ∧
    totalDebitAmount data = (data.debitEntries.map entryContribution).sum ∧
    (∀ entry : Entry, parseFloat entry.amount = JSNum.nan →
      entryContribution entry = JSNum.fin 0) ∧
    (∀ entry : Entry, parseFloat entry.amount ≠ JSNum.nan →
      entryContribution entry = parseFloat entry.amount) ∧
    totalCreditAmount { data with creditEntries := exampleCreditEntries } = JSNum.fin 100 := by
  refine ⟨sumEntries_eq_sum _, sumEntries_eq_sum _, sumEntries_eq_sum _, ?_, ?_, ?_⟩
  · intro entry h
    simp [entryContribution, h, JSNum.isNaN]
  · intro entry h
    cases hp : parseFloat entry.amount with
    | nan => exact absurd hp h
    | fin q => simp [entryContribution, hp, JSNum.isNaN]
    | inf t => simp [entryContribution, hp, JSNum.isNaN]
  · simp [totalCreditAmount, sumEntries, exampleCreditEntries, parseFloat, parseFloatChars,
      strUnsignedDecimalLiteral, isStrWhiteSpaceChar, JSNum.orElse, JSNum.truthy]

/-- C8: totalDenominationAmount is 500·note500 + 200·note200 + 100·note100 + 50·note50 +
20·note20 + 10·note10 + 5·note5 + coins (the coins field holding a number). -/
theorem totalDenominationAmount_eq (data : ReadingRecord) (h : data.coins ≠ JSNum.nan) :
    totalDenominationAmount data =
      JSNum.fin 500 * data.note500 + JSNum.fin 200 * data.note200
      + JSNum.fin 100 * data.note100 + JSNum.fin 50 * data.note50
      + JSNum.fin 20 * data.note20 + JSNum.fin 10 * data.note10
      + JSNum.fin 5 * data.note5 + data.coins := by
  rw [totalDenominationAmount, JSNum.orElse_zero_of_ne_nan h,
    JSNum.mul_swap data.note500, JSNum.mul_swap data.note200, JSNum.mul_swap data.note100,
    JSNum.mul_swap data.note50, JSNum.mul_swap data.note20, JSNum.mul_swap data.note10,
    JSNum.mul_swap data.note5]


/-- The denomination total on the sample reading. -/
theorem totalDenominationAmount_eq_witness :
    sampleRecord.coins ≠ JSNum.nan ∧
    totalDenominationAmount sampleRecord =
      JSNum.fin 500 * sampleRecord.note500 + JSNum.fin 200 * sampleRecord.note200
      + JSNum.fin 100 * sampleRecord.note100 + JSNum.fin 50 * sampleRecord.note50
      + JSNum.fin 20 * sampleRecord.note20 + JSNum.fin 10 * sampleRecord.note10
      + JSNum.fin 5 * sampleRecord.note5 + sampleRecord.coins :=
  ⟨by decide, totalDenominationAmount_eq sampleRecord (by decide)⟩

/-- C9: totalBatteryWaterAmount is 30·batteryWater30 + 60·batteryWater60 +
150·batteryWater150 (the three counts holding numbers), and it is the same whatever the
petrol, diesel and oil price fields of the record are. -/
theorem totalBatteryWaterAmount_eq (data : ReadingRecord)
    (h30 : data.batteryWater30 ≠ JSNum.nan) (h60 : data.batteryWater60 ≠ JSNum.nan)
    (h150 : data.batteryWater150 ≠ JSNum.nan) :
    totalBatteryWaterAmount data =
      JSNum.fin 30 * data.batteryWater30 + JSNum.fin 60 * data.batteryWater60
      + JSNum.fin 150 * data.batteryWater150 ∧
    (∀ petrolPrice dieselPrice oilPrice : JSNum,
      totalBatteryWaterAmount
        { data with petrol := petrolPrice, diesel := dieselPrice, oil := oilPrice } =
      totalBatteryWaterAmount data) := by
  refine ⟨?_, fun _ _ _ => rfl⟩
  rw [totalBatteryWaterAmount, JSNum.orElse_zero_of_ne_nan h30,
    JSNum.orElse_zero_of_ne_nan h60, JSNum.orElse_zero_of_ne_nan h150]


/-- The battery-water total on the sample reading. -/
theorem totalBatteryWaterAmount_eq_witness :
    (sampleRecord.batteryWater30 ≠ JSNum.nan ∧ sampleRecord.batteryWater60 ≠ JSNum.nan ∧
      sampleRecord.batteryWater150 ≠ JSNum.nan) ∧
    totalBatteryWaterAmount sampleRecord =
      JSNum.fin 30 * sampleRecord.batteryWater30 + JSNum.fin 60 * sampleRecord.batteryWater60
      + JSNum.fin 150 * sampleRecord.batteryWater150 :=
  ⟨⟨by decide, by decide, by decide⟩,
   (totalBatteryWaterAmount_eq sampleRecord (by decide) (by decide) (by decide)).1⟩

/-- In exact arithmetic, where no operation rounds: for a record of decimal values,
excessShotResult is the closed form (500·note500 + … + 5·note5 + coins) − [Σ(oilFirst −
oilSecond)·oil + Σ(petrolSecond − petrolFirst)·petrol + Σ(dieselSecond − dieselFirst)·diesel
+ totalDebit + 30·bw30 + 60·bw60 + 150·bw150 + acidWater + totalPackedOil −
petrolTestQuantity·petrol − dieselTestQuantity·diesel − totalCredit] of the raw fields. -/
theorem excessShotResult_closed_form (data : ReadingRecord) (h : data.Decimal) :
    excessShotResult data = JSNum.fin (closedFormExcessShot data) := by
  rw [excessShotResult, totalDenominationAmount_of_decimal data h,
    finalResult_of_decimal data h, JSNum.fin_sub_fin]
  congr 1
  unfold closedFormExcessShot
  ring

/-- The closed form on the sample reading. -/
theorem excessShotResult_closed_form_witness :
    sampleRecord.Decimal ∧
    excessShotResult sampleRecord = JSNum.fin (closedFormExcessShot sampleRecord) :=
  ⟨sampleRecord_decimal, excessShotResult_closed_form sampleRecord sampleRecord_decimal⟩

/-! ## `loadData` and the render on state objects -/

theorem isNumberKey_of_mem : ∀ key ∈ numericKeys, isNumberKey key = true := by decide

theorem initialReadingData_of_mem : ∀ key ∈ numericKeys,
    initialReadingData.toObject key
      = some (FieldVal.scalar (JSVal.num (JSNum.fin 0))) := by decide

theorem JSNum.orElse_zero_ne_nan (x : JSNum) : x.orElse (JSNum.fin 0) ≠ JSNum.nan := by
  rw [JSNum.orElse_zero]
  cases x <;> simp [JSNum.isNaN]

/-- The value of a numeric key after `loadData`. -/
theorem viewState_numericKey (fetchedData : JSObject) (key : String)
    (hkey : key ∈ numericKeys) :
    viewState fetchedData key =
      some (FieldVal.scalar (JSVal.num
        (match fetchedData key with
         | none => JSNum.fin 0
         | some value => (parseFloatField value).orElse (JSNum.fin 0)))) := by
  unfold viewState loadData spread parsedData
  rw [isNumberKey_of_mem key hkey, initialReadingData_of_mem key hkey]
  cases fetchedData key <;> rfl

/-- The value of a line-item key after `loadData`: the fetched value, or the empty array
of `initialReadingData` when the record has none. -/
theorem viewState_listKey (fetchedData : JSObject) (key : String)
    (hkey : key = "packedOilEntries" ∨ key = "creditEntries" ∨ key = "debitEntries") :
    viewState fetchedData key =
      (match fetchedData key with
       | none => some (FieldVal.list [])
       | some value => some value) := by
  unfold viewState loadData spread parsedData
  rcases hkey with rfl | rfl | rfl <;>
    (cases fetchedData _ <;> rfl)

theorem numbersOk_viewState (fetchedData : JSObject) :
    numbersOk (viewState fetchedData) = true := by
  unfold numbersOk
  rw [List.all_eq_true]
  intro key hkey
  rw [viewState_numericKey fetchedData key hkey]

theorem entriesField_viewState (fetchedData : JSObject) (key : String)
    (hkey : key = "packedOilEntries" ∨ key = "creditEntries" ∨ key = "debitEntries")
    (h : AbsentOrEntries (fetchedData key)) :
    ∃ entries : List Entry, entriesField (viewState fetchedData) key = Except.ok entries := by
  unfold entriesField
  rw [viewState_listKey fetchedData key hkey]
  rcases h with h | ⟨entries, h⟩
  · rw [h]
    exact ⟨[], rfl⟩
  · rw [h]
    refine ⟨entries, ?_⟩
    have hall : (entries.map some).all Option.isSome = true := by
      simp [List.all_eq_true]
    have hfil : (entries.map some).filterMap id = entries := by
      simp [List.filterMap_map]
    simp only [hall, hfil, if_true]

/-- C11: after `loadData`, every numeric field of the state (the three prices, the 18 meter
readings, the two test quantities, the three battery-water counts, acidWater, the seven
notes and coins) holds a number that is not `NaN`; it is 0 when the fetched record has no
such field and when the fetched value does not parse, and the parsed number otherwise. -/
theorem loadData_numeric_fields (fetchedData : JSObject) (key : String)
    (hkey : key ∈ numericKeys) :
    ∃ n : JSNum,
      viewState fetchedData key = some (FieldVal.scalar (JSVal.num n)) ∧
      n ≠ JSNum.nan ∧
      (fetchedData key = none → n = JSNum.fin 0) ∧
      (∀ value, fetchedData key = some value → parseFloatField value = JSNum.nan →
        n = JSNum.fin 0) ∧
      (∀ value, fetchedData key = some value → parseFloatField value ≠ JSNum.nan →
        n = parseFloatField value) := by
  refine ⟨_, viewState_numericKey fetchedData key hkey, ?_, ?_, ?_, ?_⟩
  · cases fetchedData key with
    | none => exact fun h => JSNum.noConfusion h
    | some value => exact JSNum.orElse_zero_ne_nan _
  · intro h
    rw [h]
  · intro value h hnan
    rw [h]
    show (parseFloatField value).orElse (JSNum.fin 0) = JSNum.fin 0
    rw [hnan]
    rfl
  · intro value h hnum
    rw [h]
    exact JSNum.orElse_zero_of_ne_nan hnum

/-- On the sample fetched record the oil price `"abc"` is normalised to 0. -/
theorem loadData_numeric_fields_witness :
    "oil" ∈ numericKeys ∧
    viewState fetchedSample "oil" = some (FieldVal.scalar (JSVal.num (JSNum.fin 0))) := by
  refine ⟨by decide, ?_⟩
  obtain ⟨n, hn, _, _, hzero, _⟩ := loadData_numeric_fields fetchedSample "oil" (by decide)
  have h0 : n = JSNum.fin 0 := hzero (FieldVal.scalar (JSVal.str "abc")) rfl (by decide)
  rw [hn, h0]

/-- A fetched record whose `creditEntries` is `null` is accepted by `loadData`, and the
render then throws a `TypeError` at `data.creditEntries.reduce`. -/
theorem renderFigures_null_list_throws :
    renderFigures (viewState fetchedNullCredit) = some (Except.error JSError.typeError) := by
  rfl

/-- C12, amended: for every fetched record in which each of packedOilEntries,
creditEntries and debitEntries is missing or an array of line-item objects (the numeric
fields being missing, null or malformed at will), one render computes every derived
figure without raising an error. -/
theorem renderFigures_completes (fetchedData : JSObject)
    (hpacked : AbsentOrEntries (fetchedData "packedOilEntries"))
    (hcredit : AbsentOrEntries (fetchedData "creditEntries"))
    (hdebit : AbsentOrEntries (fetchedData "debitEntries")) :
    ∃ figures : DerivedFigures,
      renderFigures (viewState fetchedData) = some (Except.ok figures) := by
  obtain ⟨packed, hp⟩ :=
    entriesField_viewState fetchedData "packedOilEntries" (Or.inl rfl) hpacked
  obtain ⟨credit, hc⟩ :=
    entriesField_viewState fetchedData "creditEntries" (Or.inr (Or.inl rfl)) hcredit
  obtain ⟨debit, hd⟩ :=
    entriesField_viewState fetchedData "debitEntries" (Or.inr (Or.inr rfl)) hdebit
  unfold renderFigures readingRecordOf
  rw [numbersOk_viewState fetchedData, hp, hc, hd]
  exact ⟨_, rfl⟩

/-- One render on the sample fetched record (unparsable oil price, `null` coins, two lists
missing) completes. -/
theorem renderFigures_completes_witness :
    (AbsentOrEntries (fetchedSample "packedOilEntries") ∧
      AbsentOrEntries (fetchedSample "creditEntries") ∧
      AbsentOrEntries (fetchedSample "debitEntries")) ∧
    ∃ figures : DerivedFigures,
      renderFigures (viewState fetchedSample) = some (Except.ok figures) :=
  have hp : AbsentOrEntries (fetchedSample "packedOilEntries") := Or.inl rfl
  have hc : AbsentOrEntries (fetchedSample "creditEntries") :=
    Or.inr ⟨exampleCreditEntries, rfl⟩
  have hd : AbsentOrEntries (fetchedSample "debitEntries") := Or.inl rfl
  ⟨⟨hp, hc, hd⟩, renderFigures_completes fetchedSample hp hc hd⟩

/-- C13: every derived figure is the value of the function `derivedFigures` at the record,
so two evaluations on the same record coincide; the figures do not even depend on the
record's id and date, and every price that enters them is the record's own petrol, diesel
or oil field. -/
theorem derivedFigures_of_record_alone (data : ReadingRecord) :
    (∀ other : ReadingRecord,
      { other with selectedId := data.selectedId, currentDate := data.currentDate } = data →
      derivedFigures other = derivedFigures data) ∧
    (derivedFigures data).oilRequiredMoney
      = (derivedFigures data).totalOilDifference * data.oil ∧
    (derivedFigures data).requiredMoneyPetrol
      = (derivedFigures data).totalPetrolDifference * data.petrol ∧
    (derivedFigures data).requiredMoneyDiesel
      = (derivedFigures data).totalDieselDifference * data.diesel ∧
    (derivedFigures data).petrolTestQuantityMoney = data.petrolTestQuantity * data.petrol ∧
    (derivedFigures data).dieselTestQuantityMoney = data.dieselTestQuantity * data.diesel := by
  refine ⟨?_, rfl, rfl, rfl, rfl, rfl⟩
  intro other h
  rw [← h]
  rfl

/-- Two readings that differ in id and date only have the same figures. -/
theorem derivedFigures_of_record_alone_witness :
    derivedFigures { sampleRecord with selectedId := JSVal.str "8", currentDate := JSVal.null }
      = derivedFigures sampleRecord :=
  (derivedFigures_of_record_alone sampleRecord).1
    { sampleRecord with selectedId := JSVal.str "8", currentDate := JSVal.null } rfl

/-! ## Moving a finite amount through sums and differences -/

theorem JSNum.add_fin_right_comm (x y : JSNum) (a : ℚ) :
    x + JSNum.fin a + y = x + y + JSNum.fin a := by
  cases x with
  | nan => rfl
  | fin p =>
    cases y with
    | nan => rfl
    | fin q =>
      show JSNum.fin (p + a + q) = JSNum.fin (p + q + a)
      congr 1
      ring
    | inf t => rfl
  | inf s =>
    cases y with
    | nan => rfl
    | fin q => rfl
    | inf t => cases s <;> cases t <;> rfl

theorem JSNum.add_fin_sub (x y : JSNum) (a : ℚ) :
    x + JSNum.fin a - y = x - y + JSNum.fin a := by
  cases x with
  | nan => rfl
  | fin p =>
    cases y with
    | nan => rfl
    | fin q =>
      show JSNum.fin (p + a - q) = JSNum.fin (p - q + a)
      congr 1
      ring
    | inf t => rfl
  | inf s =>
    cases y with
    | nan => rfl
    | fin q => rfl
    | inf t => cases s <;> cases t <;> rfl

theorem JSNum.sub_add_fin (x y : JSNum) (a : ℚ) :
    x - (y + JSNum.fin a) = x - y - JSNum.fin a := by
  cases x with
  | nan => rfl
  | fin p =>
    cases y with
    | nan => rfl
    | fin q =>
      show JSNum.fin (p - (q + a)) = JSNum.fin (p - q - a)
      congr 1
      ring
    | inf t => rfl
  | inf s =>
    cases y with
    | nan => rfl
    | fin q => rfl
    | inf t => cases s <;> cases t <;> rfl

theorem JSNum.sub_sub_fin (x y : JSNum) (a : ℚ) :
    x - (y - JSNum.fin a) = x - y + JSNum.fin a := by
  cases x with
  | nan => rfl
  | fin p =>
    cases y with
    | nan => rfl
    | fin q =>
      show JSNum.fin (p - (q - a)) = JSNum.fin (p - q + a)
      congr 1
      ring
    | inf t => rfl
  | inf s =>
    cases y with
    | nan => rfl
    | fin q => rfl
    | inf t => cases s <;> cases t <;> rfl

theorem JSNum.final_add_debit (o p d td tb ac tp n : JSNum) (a : ℚ) :
    o + p + d + (td + JSNum.fin a) + tb + ac + tp - n
      = o + p + d + td + tb + ac + tp - n + JSNum.fin a := by
  rw [← JSNum.add_assoc3 (o + p + d) td, JSNum.add_fin_right_comm _ tb,
    JSNum.add_fin_right_comm _ ac, JSNum.add_fin_right_comm _ tp, JSNum.add_fin_sub]

theorem JSNum.final_add_acid (o p d td tb ac tp n : JSNum) (a : ℚ) :
    o + p + d + td + tb + (ac + JSNum.fin a) + tp - n
      = o + p + d + td + tb + ac + tp - n + JSNum.fin a := by
  rw [← JSNum.add_assoc3 (o + p + d + td + tb) ac, JSNum.add_fin_right_comm _ tp,
    JSNum.add_fin_sub]

theorem JSNum.final_add_packed (o p d td tb ac tp n : JSNum) (a : ℚ) :
    o + p + d + td + tb + ac + (tp + JSNum.fin a) - n
      = o + p + d + td + tb + ac + tp - n + JSNum.fin a := by
  rw [← JSNum.add_assoc3 (o + p + d + td + tb + ac) tp, JSNum.add_fin_sub]

theorem JSNum.final_add_credit (pos pt dt tc : JSNum) (a : ℚ) :
    pos - (pt + dt + (tc + JSNum.fin a)) = pos - (pt + dt + tc) - JSNum.fin a := by
  rw [← JSNum.add_assoc3 (pt + dt) tc, JSNum.sub_add_fin]

theorem sumEntries_append_numeric (entries : List Entry) (name : JSVal) (a : ℚ) :
    sumEntries (entries ++ [{ name := name, amount := JSVal.num (JSNum.fin a) }])
      = sumEntries entries + JSNum.fin a := by
  unfold sumEntries
  rw [List.foldl_append]
  show _ + (JSNum.fin a).orElse (JSNum.fin 0) = _
  rw [JSNum.orElse_fin_zero]

/-- C14: when packedOilEntries (respectively creditEntries, debitEntries) is the empty
list, that total is exactly 0 and finalResult is the value of its formula with that
category's term left out. -/
theorem empty_list_total_zero (data : ReadingRecord) :
    (totalPackedOilAmount { data with packedOilEntries := [] } = JSNum.fin 0 ∧
     finalResult { data with packedOilEntries := [] } =
      (oilRequiredMoney data + requiredMoneyPetrol data + requiredMoneyDiesel data
        + totalDebitAmount data + totalBatteryWaterAmount data + data.acidWater)
      - (petrolTestQuantityMoney data + dieselTestQuantityMoney data
        + totalCreditAmount data)) ∧
    (totalCreditAmount { data with creditEntries := [] } = JSNum.fin 0 ∧
     finalResult { data with creditEntries := [] } =
      (oilRequiredMoney data + requiredMoneyPetrol data + requiredMoneyDiesel data
        + totalDebitAmount data + totalBatteryWaterAmount data + data.acidWater
        + totalPackedOilAmount data)
      - (petrolTestQuantityMoney data + dieselTestQuantityMoney data)) ∧
    (totalDebitAmount { data with debitEntries := [] } = JSNum.fin 0 ∧
     finalResult { data with debitEntries := [] } =
      (oilRequiredMoney data + requiredMoneyPetrol data + requiredMoneyDiesel data
        + totalBatteryWaterAmount data + data.acidWater + totalPackedOilAmount data)
      - (petrolTestQuantityMoney data + dieselTestQuantityMoney data
        + totalCreditAmount data)) := by
  refine ⟨⟨rfl, ?_⟩, ⟨rfl, ?_⟩, ⟨rfl, ?_⟩⟩
  · show (oilRequiredMoney data + requiredMoneyPetrol data + requiredMoneyDiesel data
        + totalDebitAmount data + totalBatteryWaterAmount data + data.acidWater
        + JSNum.fin 0) - _ = _
    rw [JSNum.add_zero_right]
    rfl
  · show _ - (petrolTestQuantityMoney data + dieselTestQuantityMoney data + JSNum.fin 0) = _
    rw [JSNum.add_zero_right]
    rfl
  · show (oilRequiredMoney data + requiredMoneyPetrol data + requiredMoneyDiesel data
        + JSNum.fin 0 + totalBatteryWaterAmount data + data.acidWater
        + totalPackedOilAmount data) - _ = _
    rw [JSNum.add_zero_right]
    rfl

/-- C15: on the specification's example record the total oil difference is 20, the oil
required money 2000, the total petrol difference 15, the petrol required money 1350,
finalResult 3350, totalDenominationAmount 0, excessShotResult -3350, and the heading is
'Shot'. -/
theorem spec_example_scenario :
    totalOilDifference specExampleRecord = JSNum.fin 20 ∧
    oilRequiredMoney specExampleRecord = JSNum.fin 2000 ∧
    totalPetrolDifference specExampleRecord = JSNum.fin 15 ∧
    requiredMoneyPetrol specExampleRecord = JSNum.fin 1350 ∧
    finalResult specExampleRecord = JSNum.fin 3350 ∧
    totalDenominationAmount specExampleRecord = JSNum.fin 0 ∧
    excessShotResult specExampleRecord = JSNum.fin (-3350) ∧
    (excessShotStatus specExampleRecord).heading = "Shot" := by
  have hoil : totalOilDifference specExampleRecord = JSNum.fin 20 := by
    simp [totalOilDifference, oilDiff1, oilDiff2, oilDiff3, specExampleRecord,
      initialReadingData]
    norm_num
  have hpetrol : totalPetrolDifference specExampleRecord = JSNum.fin 15 := by
    simp [totalPetrolDifference, petrolDiff1, petrolDiff2, petrolDiff3, specExampleRecord,
      initialReadingData]
    norm_num
  have hoilMoney : oilRequiredMoney specExampleRecord = JSNum.fin 2000 := by
    rw [oilRequiredMoney, hoil]
    simp [specExampleRecord]
    norm_num
  have hpetrolMoney : requiredMoneyPetrol specExampleRecord = JSNum.fin 1350 := by
    rw [requiredMoneyPetrol, hpetrol]
    simp [specExampleRecord]
    norm_num
  have hfinal : finalResult specExampleRecord = JSNum.fin 3350 := by
    rw [finalResult, hoilMoney, hpetrolMoney]
    simp [requiredMoneyDiesel, totalDieselDifference, dieselDiff1, dieselDiff2, dieselDiff3,
      totalDebitAmount, totalCreditAmount, totalPackedOilAmount, totalBatteryWaterAmount,
      petrolTestQuantityMoney, dieselTestQuantityMoney, sumEntries, specExampleRecord,
      initialReadingData]
    norm_num
  have hdenomination : totalDenominationAmount specExampleRecord = JSNum.fin 0 := by
    simp [totalDenominationAmount, specExampleRecord, initialReadingData]
  have hexcess : excessShotResult specExampleRecord = JSNum.fin (-3350) := by
    rw [excessShotResult, hfinal, hdenomination]
    simp
  refine ⟨hoil, hoilMoney, hpetrol, hpetrolMoney, hfinal, hdenomination, hexcess, ?_⟩
  rw [excessShotStatus, hexcess]
  simp [JSNum.gt, JSNum.lt]
  norm_num

/-- In exact arithmetic, where no operation rounds: appending an entry of numeric amount
`a` to debitEntries or to packedOilEntries, or adding `a` to acidWater, raises finalResult by
`a` and lowers excessShotResult by `a`; appending such an entry to creditEntries lowers
finalResult by `a` and raises excessShotResult by `a`. -/
theorem finalResult_monotone_in_line_items (data : ReadingRecord) (name : JSVal) (a : ℚ) :
    (finalResult { data with debitEntries :=
          data.debitEntries ++ [{ name := name, amount := JSVal.num (JSNum.fin a) }] }
        = finalResult data + JSNum.fin a ∧
     excessShotResult { data with debitEntries :=
          data.debitEntries ++ [{ name := name, amount := JSVal.num (JSNum.fin a) }] }
        = excessShotResult data - JSNum.fin a) ∧
    (finalResult { data with packedOilEntries :=
          data.packedOilEntries ++ [{ name := name, amount := JSVal.num (JSNum.fin a) }] }
        = finalResult data + JSNum.fin a ∧
     excessShotResult { data with packedOilEntries :=
          data.packedOilEntries ++ [{ name := name, amount := JSVal.num (JSNum.fin a) }] }
        = excessShotResult data - JSNum.fin a) ∧
    (finalResult { data with acidWater := data.acidWater + JSNum.fin a }
        = finalResult data + JSNum.fin a ∧
     excessShotResult { data with acidWater := data.acidWater + JSNum.fin a }
        = excessShotResult data - JSNum.fin a) ∧
    (finalResult { data with creditEntries :=
          data.creditEntries ++ [{ name := name, amount := JSVal.num (JSNum.fin a) }] }
        = finalResult data - JSNum.fin a ∧
     excessShotResult { data with creditEntries :=
          data.creditEntries ++ [{ name := name, amount := JSVal.num (JSNum.fin a) }] }
        = excessShotResult data + JSNum.fin a) := by
  have hdebit : finalResult { data with debitEntries :=
        data.debitEntries ++ [{ name := name, amount := JSVal.num (JSNum.fin a) }] }
      = finalResult data + JSNum.fin a := by
    simp only [finalResult, oilRequiredMoney, totalOilDifference, oilDiff1, oilDiff2, oilDiff3,
      requiredMoneyPetrol, totalPetrolDifference, petrolDiff1, petrolDiff2, petrolDiff3,
      requiredMoneyDiesel, totalDieselDifference, dieselDiff1, dieselDiff2, dieselDiff3,
      petrolTestQuantityMoney, dieselTestQuantityMoney, totalBatteryWaterAmount,
      totalPackedOilAmount, totalCreditAmount, totalDebitAmount, sumEntries_append_numeric]
    exact JSNum.final_add_debit _ _ _ _ _ _ _ _ a
  have hpacked : finalResult { data with packedOilEntries :=
        data.packedOilEntries ++ [{ name := name, amount := JSVal.num (JSNum.fin a) }] }
      = finalResult data + JSNum.fin a := by
    simp only [finalResult, oilRequiredMoney, totalOilDifference, oilDiff1, oilDiff2, oilDiff3,
      requiredMoneyPetrol, totalPetrolDifference, petrolDiff1, petrolDiff2, petrolDiff3,
      requiredMoneyDiesel, totalDieselDifference, dieselDiff1, dieselDiff2, dieselDiff3,
      petrolTestQuantityMoney, dieselTestQuantityMoney, totalBatteryWaterAmount,
      totalPackedOilAmount, totalCreditAmount, totalDebitAmount, sumEntries_append_numeric]
    exact JSNum.final_add_packed _ _ _ _ _ _ _ _ a
  have hacid : finalResult { data with acidWater := data.acidWater + JSNum.fin a }
      = finalResult data + JSNum.fin a := by
    simp only [finalResult, oilRequiredMoney, totalOilDifference, oilDiff1, oilDiff2, oilDiff3,
      requiredMoneyPetrol, totalPetrolDifference, petrolDiff1, petrolDiff2, petrolDiff3,
      requiredMoneyDiesel, totalDieselDifference, dieselDiff1, dieselDiff2, dieselDiff3,
      petrolTestQuantityMoney, dieselTestQuantityMoney, totalBatteryWaterAmount,
      totalPackedOilAmount, totalCreditAmount, totalDebitAmount, sumEntries_append_numeric]
    exact JSNum.final_add_acid _ _ _ _ _ _ _ _ a
  have hcredit : finalResult { data with creditEntries :=
        data.creditEntries ++ [{ name := name, amount := JSVal.num (JSNum.fin a) }] }
      = finalResult data - JSNum.fin a := by
    simp only [finalResult, oilRequiredMoney, totalOilDifference, oilDiff1, oilDiff2, oilDiff3,
      requiredMoneyPetrol, totalPetrolDifference, petrolDiff1, petrolDiff2, petrolDiff3,
      requiredMoneyDiesel, totalDieselDifference, dieselDiff1, dieselDiff2, dieselDiff3,
      petrolTestQuantityMoney, dieselTestQuantityMoney, totalBatteryWaterAmount,
      totalPackedOilAmount, totalCreditAmount, totalDebitAmount, sumEntries_append_numeric]
    exact JSNum.final_add_credit _ _ _ _ a
  refine ⟨⟨hdebit, ?_⟩, ⟨hpacked, ?_⟩, ⟨hacid, ?_⟩, ⟨hcredit, ?_⟩⟩
  · simp only [excessShotResult, totalDenominationAmount]
    rw [hdebit, JSNum.sub_add_fin]
  · simp only [excessShotResult, totalDenominationAmount]
    rw [hpacked, JSNum.sub_add_fin]
  · simp only [excessShotResult, totalDenominationAmount]
    rw [hacid, JSNum.sub_add_fin]
  · simp only [excessShotResult, totalDenominationAmount]
    rw [hcredit, JSNum.sub_sub_fin]

/-! ## The edit flow -/

theorem getNumberValue_eq (value : FieldVal) :
    getNumberValue value
      = if (parseFloatField value).isNaN then JSNum.fin 0 else parseFloatField value := by
  unfold getNumberValue
  cases parseFloatField value <;> rfl

theorem getNumberValue_ne_nan (value : FieldVal) : getNumberValue value ≠ JSNum.nan := by
  rw [getNumberValue_eq]
  cases parseFloatField value <;> simp [JSNum.isNaN]

theorem getNumberValue_of_nan {value : FieldVal} (h : parseFloatField value = JSNum.nan) :
    getNumberValue value = JSNum.fin 0 := by
  rw [getNumberValue_eq, h]
  rfl

theorem getNumberValue_of_ne_nan {value : FieldVal} (h : parseFloatField value ≠ JSNum.nan) :
    getNumberValue value = parseFloatField value := by
  rw [getNumberValue_eq]
  cases hp : parseFloatField value with
  | nan => exact absurd hp h
  | fin q => rfl
  | inf t => rfl

theorem sentEntries_entries (entries : List Entry) :
    sentEntries (FieldVal.list (entries.map some))
      = Except.ok (FieldVal.list ((entries.map sentEntry).map some)) := by
  have hall : (entries.map some).all Option.isSome = true := by
    simp [List.all_eq_true]
  simp only [sentEntries, hall, if_true, List.map_map]
  rfl

/-- On a record that has no property named `hasOwnProperty` of its own the load runs to its
end. -/
theorem loadDataForEdit_of_inherited (fetchedData : JSObject)
    (h : fetchedData "hasOwnProperty" = none) :
    loadDataForEdit fetchedData
      = { formData := newFormData initialFormData fetchedData
          packedOilEntries := orEmptyArray (fetchedData "packedOilEntries")
          creditEntries := orEmptyArray (fetchedData "creditEntries")
          debitEntries := orEmptyArray (fetchedData "debitEntries") } := by
  unfold loadDataForEdit
  rw [h]

/-- C17 at its failing input: for the sample reading stored without a `coins` field,
`loadDataForEdit` followed by `saveChanges` builds a body that has no `coins` property,
although `coins` is a field of the edit form and the other fields are sent. -/
theorem saveChanges_drops_missing_field :
    "coins" ∈ editFormKeys ∧
    ∃ body : JSObject,
      saveChanges (loadDataForEdit fetchedWithoutCoins) = Except.ok body ∧
      body "coins" = none ∧
      body "note500" = some (FieldVal.scalar (JSVal.num (JSNum.fin 7))) := by
  have hkey : fetchedWithoutCoins "hasOwnProperty" = none := by decide
  rw [loadDataForEdit_of_inherited fetchedWithoutCoins hkey]
  refine ⟨by decide, _, rfl, by decide, ?_⟩
  simp [saveChangesData, newFormData, initialFormData, editFormKeys,
    fetchedWithoutCoins, sampleRecord, initialReadingData, ReadingRecord.toObject, getNumberValue,
    parseFloatField, parseFloat, JSNum.isNaN]

/-- C19 at its failing input: in the group `oilFirstReading` the first input writes the
key it displays, but the second displays `formData.oilFirstReading2` while a change writes
`formData.oilFirstReading1`, and the third displays `oilFirstReading3` while a change
writes `oilFirstReading2`. -/
theorem handleInputChange_key_mismatch :
    handleInputChangeKey "oilFirstReading" 0 = "oilFirstReading" ∧
    displayedKey "oilFirstReading" 3 0 = some "oilFirstReading" ∧
    handleInputChangeKey "oilFirstReading" 1 = "oilFirstReading1" ∧
    displayedKey "oilFirstReading" 3 1 = some "oilFirstReading2" ∧
    handleInputChangeKey "oilFirstReading" 2 = "oilFirstReading2" ∧
    displayedKey "oilFirstReading" 3 2 = some "oilFirstReading3" := by
  decide

/-- For every group the key written for the second and for the third input differs from
the key that input displays, so typing into either leaves the displayed value as it was. -/
theorem handleInputChange_key_ne_displayed (baseId : String) :
    (displayedKey baseId 3 1 = some (baseId ++ "2") ∧
      handleInputChangeKey baseId 1 ≠ baseId ++ "2" ∧
      ∀ (formData : JSObject) (value : String),
        handleInputChange baseId formData value 1 (baseId ++ "2") = formData (baseId ++ "2")) ∧
    (displayedKey baseId 3 2 = some (baseId ++ "3") ∧
      handleInputChangeKey baseId 2 ≠ baseId ++ "3" ∧
      ∀ (formData : JSObject) (value : String),
        handleInputChange baseId formData value 2 (baseId ++ "3")
          = formData (baseId ++ "3")) := by
  have k1 : handleInputChangeKey baseId 1 = baseId ++ "1" := rfl
  have k2 : handleInputChangeKey baseId 2 = baseId ++ "2" := rfl
  have n1 : baseId ++ "2" ≠ baseId ++ "1" := by
    intro h
    have h' := congrArg String.data h
    simp only [String.data_append, List.append_cancel_left_eq] at h'
    exact absurd h' (by decide)
  have n2 : baseId ++ "3" ≠ baseId ++ "2" := by
    intro h
    have h' := congrArg String.data h
    simp only [String.data_append, List.append_cancel_left_eq] at h'
    exact absurd h' (by decide)
  refine ⟨⟨rfl, ?_, ?_⟩, ⟨rfl, ?_, ?_⟩⟩
  · rw [k1]
    exact fun h => n1 h.symm
  · intro formData value
    simp only [handleInputChange, k1, n1, if_false]
  · rw [k2]
    exact fun h => n2 h.symm
  · intro formData value
    simp only [handleInputChange, k2, n2, if_false]

/-- C20: the body built by `saveChanges` holds currentDate and selectedId unchanged; every
other form field holds a number that is not `NaN`, the parsed value or 0 when the value
does not parse; each of the three lists is sent entry by entry in the same order, every
entry keeping its name and carrying such a number as amount. -/
theorem saveChanges_body (formData : JSObject) (packed credit debit : List Entry) :
    ∃ body : JSObject,
      saveChanges
          { formData := formData
            packedOilEntries := FieldVal.list (packed.map some)
            creditEntries := FieldVal.list (credit.map some)
            debitEntries := FieldVal.list (debit.map some) } = Except.ok body ∧
      body "currentDate" = formData "currentDate" ∧
      body "selectedId" = formData "selectedId" ∧
      (∀ key value, formData key = some value →
        key ∉ ["currentDate", "selectedId", "packedOilEntries", "creditEntries",
          "debitEntries"] →
        body key = some (FieldVal.scalar (JSVal.num (getNumberValue value))) ∧
        getNumberValue value ≠ JSNum.nan ∧
        (parseFloatField value = JSNum.nan → getNumberValue value = JSNum.fin 0) ∧
        (parseFloatField value ≠ JSNum.nan → getNumberValue value = parseFloatField value)) ∧
      body "packedOilEntries" = some (FieldVal.list ((packed.map sentEntry).map some)) ∧
      body "creditEntries" = some (FieldVal.list ((credit.map sentEntry).map some)) ∧
      body "debitEntries" = some (FieldVal.list ((debit.map sentEntry).map some)) ∧
      (∀ entry : Entry,
        (sentEntry entry).name = entry.name ∧
        ∃ n : JSNum, (sentEntry entry).amount = JSVal.num n ∧ n ≠ JSNum.nan ∧
          (parseFloat entry.amount = JSNum.nan → n = JSNum.fin 0) ∧
          (parseFloat entry.amount ≠ JSNum.nan → n = parseFloat entry.amount)) := by
  refine ⟨saveChangesData formData (FieldVal.list ((packed.map sentEntry).map some))
    (FieldVal.list ((credit.map sentEntry).map some))
    (FieldVal.list ((debit.map sentEntry).map some)), ?_, ?_, ?_, ?_, ?_, ?_, ?_, ?_⟩
  · simp only [saveChanges, sentEntries_entries]
    rfl
  · show (match formData "currentDate" with
      | none => none
      | some value => some value) = formData "currentDate"
    cases formData "currentDate" <;> rfl
  · show (match formData "selectedId" with
      | none => none
      | some value => some value) = formData "selectedId"
    cases formData "selectedId" <;> rfl
  · intro key value hvalue hkey
    simp only [List.mem_cons, List.mem_singleton, List.not_mem_nil, or_false, not_or] at hkey
    obtain ⟨hdate, hid, hp, hc, hd⟩ := hkey
    refine ⟨?_, getNumberValue_ne_nan value, getNumberValue_of_nan,
      getNumberValue_of_ne_nan⟩
    simp only [saveChangesData, hd, hc, hp, hdate, hid, hvalue, if_false, ne_eq,
      not_false_eq_true, and_self, if_true]
  · rfl
  · rfl
  · rfl
  · intro entry
    exact ⟨rfl, _, rfl, getNumberValue_ne_nan _,
      fun h => @getNumberValue_of_nan (FieldVal.scalar entry.amount) h,
      fun h => @getNumberValue_of_ne_nan (FieldVal.scalar entry.amount) h⟩

/-- The body built from the sample edit state: the date is kept, the petrol text `"90.5"`
becomes the number it parses to and the empty coins text becomes 0. -/
theorem saveChanges_body_witness :
    ∃ body : JSObject,
      saveChanges sampleEditState = Except.ok body ∧
      body "currentDate" = some (FieldVal.scalar (JSVal.str "2025-01-31")) ∧
      body "coins" = some (FieldVal.scalar (JSVal.num (JSNum.fin 0))) := by
  obtain ⟨body, hbody, hdate, _, hfields, _⟩ :=
    saveChanges_body sampleEditState.formData [] exampleCreditEntries []
  refine ⟨body, hbody, hdate, ?_⟩
  obtain ⟨hcoins, _, hzero, _⟩ :=
    hfields "coins" (FieldVal.scalar (JSVal.str "")) rfl (by decide)
  rw [hcoins, hzero (by decide)]

/-! ## `formatOutput` -/

theorem roundedHundredths_close (x : ℚ) (hx : 0 ≤ x) :
    |((⌊x * 100 + 1 / 2⌋₊ : ℕ) : ℚ) / 100 - x| ≤ 1 / 200 := by
  have h0 : (0 : ℚ) ≤ x * 100 + 1 / 2 := by linarith
  have hle : ((⌊x * 100 + 1 / 2⌋₊ : ℕ) : ℚ) ≤ x * 100 + 1 / 2 := Nat.floor_le h0
  have hlt : x * 100 + 1 / 2 < ((⌊x * 100 + 1 / 2⌋₊ : ℕ) : ℚ) + 1 := Nat.lt_floor_add_one _
  rw [abs_le]
  constructor <;> linarith

theorem digitChar_isDigit (d : ℕ) (hd : d < 10) : (Nat.digitChar d).isDigit = true := by
  interval_cases d <;> rfl

theorem fixedString_ne_dash (negative : Bool) (n : ℕ) : fixedString negative n ≠ "-" := by
  intro h
  have hlen := congrArg String.length h
  simp only [fixedString, String.length_append] at hlen
  have h2 : (String.mk [Nat.digitChar (n % 100 / 10), Nat.digitChar (n % 10)]).length = 2 :=
    rfl
  have h1 : ("." : String).length = 1 := rfl
  have h3 : ("-" : String).length = 1 := rfl
  rw [h1, h2, h3] at hlen
  omega

/-- C18 at its failing input: a petrol price stored as the text `Infinity` parses as a
number, so with one litre sold the required money is `Infinity`; `formatOutput` then returns
`"Infinity"` for the number, as it does for the text, which is neither `'-'` nor a string
with a decimal point. -/
theorem formatOutput_infinity :
    Binary64.requiredMoneyPetrol infinitePriceRecord = JSNum.inf false ∧
    formatOutput (fun _ => "") (JSVal.num (Binary64.requiredMoneyPetrol infinitePriceRecord))
      = "Infinity" ∧
    formatOutput (fun _ => "") (JSVal.str "Infinity") = "Infinity" ∧
    Binary64.parseFloat (JSVal.str "Infinity") ≠ JSNum.nan ∧
    '.' ∉ "Infinity".data := by
  decide!

/-- What `formatOutput` returns, case by case: '-' when the value does not parse as a
number; for a finite number of magnitude below 10^21 that number rounded to the nearest
hundredth, written as an optional '-', the integer part, a point and exactly two digits,
which is never '-'; and for `Infinity` or `-Infinity` that word. -/
theorem formatOutput_cases (numberToString : ℚ → String) (value : JSVal) :
    (Binary64.parseFloat value = JSNum.nan → formatOutput numberToString value = "-") ∧
    (Binary64.parseFloat value = JSNum.inf false →
      formatOutput numberToString value = "Infinity") ∧
    (Binary64.parseFloat value = JSNum.inf true →
      formatOutput numberToString value = "-Infinity") ∧
    (∀ q : ℚ, Binary64.parseFloat value = JSNum.fin q → |q| < (10 : ℚ) ^ 21 →
      ∃ n : ℕ,
        abs ((n : ℚ) / 100 - abs q) ≤ 1 / 200 ∧
        formatOutput numberToString value
          = (if q < 0 then "-" else "") ++ toString (n / 100) ++ "."
            ++ String.mk [Nat.digitChar (n % 100 / 10), Nat.digitChar (n % 10)] ∧
        (Nat.digitChar (n % 100 / 10)).isDigit = true ∧
        (Nat.digitChar (n % 10)).isDigit = true ∧
        formatOutput numberToString value ≠ "-") := by
  refine ⟨?_, ?_, ?_, ?_⟩
  · intro h
    simp [formatOutput, h, JSNum.isNaN]
  · intro h
    simp [formatOutput, h, JSNum.isNaN, toFixed2]
  · intro h
    simp [formatOutput, h, JSNum.isNaN, toFixed2]
  · intro q h hq
    have hout : formatOutput numberToString value
        = fixedString (decide (q < 0)) ⌊|q| * 100 + 1 / 2⌋₊ := by
      simp [formatOutput, h, JSNum.isNaN, toFixed2, not_le.mpr hq]
    refine ⟨⌊|q| * 100 + 1 / 2⌋₊, roundedHundredths_close |q| (abs_nonneg q), ?_,
      digitChar_isDigit _ (by omega), digitChar_isDigit _ (by omega), ?_⟩
    · rw [hout]
      simp [fixedString]
    · rw [hout]
      exact fixedString_ne_dash _ _

/-- The hundredths are those of the binary64 value: the text `1.005` denotes a value just
below 1.005 and is shown as `1.00`, while `0.125`, a tie, goes to the larger hundredth. -/
theorem formatOutput_examples :
    formatOutput (fun _ => "") (JSVal.str "1.005") = "1.00" ∧
    formatOutput (fun _ => "") (JSVal.str "0.125") = "0.13" ∧
    formatOutput (fun _ => "") (JSVal.str "-2.5") = "-2.50" ∧
    formatOutput (fun _ => "") (JSVal.str "abc") = "-" := by
  decide!

/-! ## The staff form -/

theorem processEntries_eq (entries : List StaffEntry) :
    processEntries entries =
      entries.map fun entry =>
        ({ name := entry.prop "name"
           amount := JSVal.num
            (if (parseFloat (entry.prop "amount")).isNaN then JSNum.fin 0
             else parseFloat (entry.prop "amount")) } : Entry) := by
  unfold processEntries
  apply List.map_congr_left
  intro entry _
  rw [JSNum.orElse_zero]

/-- C21: the payload of `saveAndNavigate` holds currentDate, selectedId, petrol, diesel and
oil exactly as the form holds them; any other form field whose value parses as a number
holds that number, and one whose value does not parse is left as it is; each line-item
list is sent entry by entry in the same order, every entry reduced to its name and a
numeric amount, 0 when the amount does not parse. -/
theorem saveAndNavigate_payload (formData : JSObject)
    (packed credit debit : List StaffEntry) :
    (∀ key ∈ ["currentDate", "selectedId", "petrol", "diesel", "oil"],
      saveAndNavigate formData packed credit debit key = formData key) ∧
    (∀ key value, formData key = some value →
      key ∉ ["currentDate", "selectedId", "petrol", "diesel", "oil", "packedOilEntries",
        "creditEntries", "debitEntries"] →
      (parseFloatField value ≠ JSNum.nan →
        saveAndNavigate formData packed credit debit key
          = some (FieldVal.scalar (JSVal.num (parseFloatField value)))) ∧
      (parseFloatField value = JSNum.nan →
        saveAndNavigate formData packed credit debit key = some value)) ∧
    saveAndNavigate formData packed credit debit "packedOilEntries"
      = some (FieldVal.list ((processEntries packed).map some)) ∧
    saveAndNavigate formData packed credit debit "creditEntries"
      = some (FieldVal.list ((processEntries credit).map some)) ∧
    saveAndNavigate formData packed credit debit "debitEntries"
      = some (FieldVal.list ((processEntries debit).map some)) ∧
    (∀ entries : List StaffEntry,
      (processEntries entries).length = entries.length ∧
      processEntries entries =
        entries.map fun entry =>
          ({ name := entry.prop "name"
             amount := JSVal.num
              (if (parseFloat (entry.prop "amount")).isNaN then JSNum.fin 0
               else parseFloat (entry.prop "amount")) } : Entry)) := by
  refine ⟨?_, ?_, rfl, rfl, rfl, ?_⟩
  · intro key hkey
    simp only [List.mem_cons, List.mem_singleton, List.not_mem_nil, or_false] at hkey
    rcases hkey with rfl | rfl | rfl | rfl | rfl <;>
      (simp only [saveAndNavigate, payloadField]
       cases formData _ <;> simp)
  · intro key value hvalue hkey
    simp only [List.mem_cons, List.mem_singleton, List.not_mem_nil, or_false, not_or] at hkey
    obtain ⟨hdate, hid, hpetrol, hdiesel, hoil, hp, hc, hd⟩ := hkey
    have hspecial : key ∉ ["petrol", "diesel", "oil"] := by
      simp [hpetrol, hdiesel, hoil]
    constructor
    · intro hnum
      have hnan : (parseFloatField value).isNaN = false := by
        cases hv : parseFloatField value with
        | nan => exact absurd hv hnum
        | fin q => rfl
        | inf t => rfl
      simp only [saveAndNavigate, hd, hc, hp, if_false, hvalue, payloadField]
      rw [if_pos ⟨hdate, hid, hspecial, hnan⟩, JSNum.orElse_zero_of_ne_nan hnum]
    · intro hnan
      have hisnan : ¬ ((parseFloatField value).isNaN = false) := by
        rw [hnan]
        decide
      simp only [saveAndNavigate, hd, hc, hp, if_false, hvalue, payloadField]
      rw [if_neg (fun h => hisnan h.2.2.2)]
  · intro entries
    exact ⟨by simp [processEntries], processEntries_eq entries⟩

/-- On the sample staff form the coins text `"12"` is sent as the number 12 and the empty
acid-water text is sent unchanged. -/
theorem saveAndNavigate_payload_witness :
    saveAndNavigate sampleStaffFormData [] [sampleStaffEntry] [] "coins"
      = some (FieldVal.scalar (JSVal.num (parseFloatField (FieldVal.scalar (JSVal.str "12")))))
    ∧ saveAndNavigate sampleStaffFormData [] [sampleStaffEntry] [] "acidWater"
      = some (FieldVal.scalar (JSVal.str "")) :=
  ⟨((saveAndNavigate_payload sampleStaffFormData [] [sampleStaffEntry] []).2.1
      "coins" (FieldVal.scalar (JSVal.str "12")) rfl (by decide)).1 (by decide),
   ((saveAndNavigate_payload sampleStaffFormData [] [sampleStaffEntry] []).2.1
      "acidWater" (FieldVal.scalar (JSVal.str "")) rfl (by decide)).2 (by decide)⟩

/-- C22: `getNumberValue` never returns `NaN`: it is `parseFloat(value)` when that is a
number and 0 otherwise, as for the empty string, non-numeric text, `null` and
`undefined`. -/
theorem getNumberValue_total (value : FieldVal) :
    getNumberValue value ≠ JSNum.nan ∧
    getNumberValue value
      = (if (parseFloatField value).isNaN then JSNum.fin 0 else parseFloatField value) ∧
    getNumberValue (FieldVal.scalar (JSVal.str "")) = JSNum.fin 0 ∧
    getNumberValue (FieldVal.scalar (JSVal.str "abc")) = JSNum.fin 0 ∧
    getNumberValue (FieldVal.scalar JSVal.null) = JSNum.fin 0 ∧
    getNumberValue (FieldVal.scalar JSVal.undefined) = JSNum.fin 0 :=
  ⟨getNumberValue_ne_nan value, getNumberValue_eq value, by decide, by decide, by decide,
    by decide⟩

theorem entryContribution_sentEntry (entry : Entry) :
    entryContribution (sentEntry entry) = entryContribution entry := by
  have hne := getNumberValue_ne_nan (FieldVal.scalar entry.amount)
  have heq := getNumberValue_eq (FieldVal.scalar entry.amount)
  unfold entryContribution sentEntry
  show (if (getNumberValue (FieldVal.scalar entry.amount)).isNaN then JSNum.fin 0
      else getNumberValue (FieldVal.scalar entry.amount)) = _
  have hnan : (getNumberValue (FieldVal.scalar entry.amount)).isNaN = false := by
    cases hv : getNumberValue (FieldVal.scalar entry.amount) with
    | nan => exact absurd hv hne
    | fin q => rfl
    | inf t => rfl
  rw [hnan, heq]
  rfl

theorem sumEntries_map_sentEntry (entries : List Entry) :
    sumEntries (entries.map sentEntry) = sumEntries entries := by
  rw [sumEntries_eq_sum, sumEntries_eq_sum, List.map_map]
  congr 1
  apply List.map_congr_left
  intro entry _
  exact entryContribution_sentEntry entry

/-- C27: `getNumberValue(x)` and `parseFloat(x) || 0` agree on every input, so the totals
`ReadingView` computes from a list normalised at save time, by the edit flow or by the
staff flow, equal the totals it computes from the raw amounts. -/
theorem coercions_agree (data : ReadingRecord) :
    (∀ value : FieldVal,
      getNumberValue value = (parseFloatField value).orElse (JSNum.fin 0)) ∧
    (∀ entries : List Entry, sumEntries (entries.map sentEntry) = sumEntries entries) ∧
    (∀ entries : List StaffEntry,
      sumEntries (processEntries entries)
        = sumEntries (entries.map fun entry =>
            ({ name := entry.prop "name", amount := entry.prop "amount" } : Entry))) ∧
    totalPackedOilAmount { data with packedOilEntries := data.packedOilEntries.map sentEntry }
      = totalPackedOilAmount data ∧
    totalCreditAmount { data with creditEntries := data.creditEntries.map sentEntry }
      = totalCreditAmount data ∧
    totalDebitAmount { data with debitEntries := data.debitEntries.map sentEntry }
      = totalDebitAmount data := by
  refine ⟨?_, sumEntries_map_sentEntry, ?_, sumEntries_map_sentEntry _,
    sumEntries_map_sentEntry _, sumEntries_map_sentEntry _⟩
  · intro value
    rw [getNumberValue_eq, JSNum.orElse_zero]
  · intro entries
    rw [sumEntries_eq_sum, sumEntries_eq_sum, processEntries, List.map_map, List.map_map]
    congr 1
    apply List.map_congr_left
    intro entry _
    show entryContribution
        { name := entry.prop "name"
          amount := JSVal.num ((parseFloat (entry.prop "amount")).orElse (JSNum.fin 0)) }
      = entryContribution { name := entry.prop "name", amount := entry.prop "amount" }
    unfold entryContribution
    show (if ((parseFloat (entry.prop "amount")).orElse (JSNum.fin 0)).isNaN then JSNum.fin 0
        else (parseFloat (entry.prop "amount")).orElse (JSNum.fin 0)) = _
    rw [JSNum.orElse_zero]
    cases parseFloat (entry.prop "amount") <;> rfl

theorem StaffEntry.set_same (entry : StaffEntry) (field : String) (value : JSVal) :
    entry.set field value field = some value := by
  simp [StaffEntry.set]

theorem StaffEntry.set_other (entry : StaffEntry) (field key : String) (value : JSVal)
    (h : key ≠ field) : entry.set field value key = entry key := by
  simp [StaffEntry.set, h]

/-- C28: `handleDynamicEntryChange(id, field, value)` returns a list of the same length in
which, position by position, an entry whose id is `id` has `field` set to `value` and its
other properties unchanged, and any other entry is unchanged; `removeDynamicEntry(id)`
returns the entries whose id is not `id`, all of them, in their original order. -/
theorem dynamic_entry_updates (id field : String) (value : JSVal) (entries : List StaffEntry) :
    (handleDynamicEntryChange id field value entries).length = entries.length ∧
    (∀ (i : ℕ) (entry : StaffEntry), entries[i]? = some entry →
      ∃ updated : StaffEntry,
        (handleDynamicEntryChange id field value entries)[i]? = some updated ∧
        (entry.hasId id = true →
          updated field = some value ∧ ∀ key, key ≠ field → updated key = entry key) ∧
        (entry.hasId id = false → updated = entry)) ∧
    List.Sublist (removeDynamicEntry id entries) entries ∧
    (∀ entry ∈ removeDynamicEntry id entries, entry.hasId id = false) ∧
    (∀ entry ∈ entries, entry.hasId id = false → entry ∈ removeDynamicEntry id entries) ∧
    (removeDynamicEntry id entries).length
        + (entries.filter fun entry => entry.hasId id).length
      = entries.length := by
  refine ⟨by simp [handleDynamicEntryChange], ?_, ?_, ?_, ?_, ?_⟩
  · intro i entry hentry
    refine ⟨if entry.hasId id then entry.set field value else entry, ?_, ?_, ?_⟩
    · simp [handleDynamicEntryChange, List.getElem?_map, hentry]
    · intro hid
      rw [if_pos hid]
      exact ⟨StaffEntry.set_same entry field value,
        fun key hkey => StaffEntry.set_other entry field key value hkey⟩
    · intro hid
      rw [hid]
      rfl
  · exact List.filter_sublist _
  · intro entry hentry
    simp only [removeDynamicEntry, List.mem_filter, Bool.not_eq_true'] at hentry
    exact hentry.2
  · intro entry hentry hid
    simp only [removeDynamicEntry, List.mem_filter, Bool.not_eq_true']
    exact ⟨hentry, hid⟩
  · unfold removeDynamicEntry
    induction entries with
    | nil => rfl
    | cons entry rest ih =>
      cases hid : entry.hasId id <;> simp [List.filter_cons, hid] <;> omega

/-- Changing the amount of the sample line item, found by its id. -/
theorem dynamic_entry_updates_witness :
    ∃ updated : StaffEntry,
      (handleDynamicEntryChange "credit_1" "amount" (JSVal.str "250") [sampleStaffEntry])[0]?
        = some updated ∧
      updated "amount" = some (JSVal.str "250") ∧ updated "name" = sampleStaffEntry "name" := by
  obtain ⟨updated, hupdated, hset, _⟩ :=
    (dynamic_entry_updates "credit_1" "amount" (JSVal.str "250") [sampleStaffEntry]).2.1
      0 sampleStaffEntry rfl
  exact ⟨updated, hupdated, (hset (by decide)).1, (hset (by decide)).2 "name" (by decide)⟩

/-! ## `addDynamicEntry` of the edit form -/

/-- C23: in `addDynamicEntry`, for packedOil, credit and debit alike: when the new entry's
name is empty after trimming or its amount is the empty string, the three lists are
unchanged and the error message is shown; otherwise the entry `{name: trimmed name,
amount}` is appended at the end of that type's list, the other two lists are unchanged
and the new-entry inputs of that type are reset to empty. -/
theorem addDynamicEntry_spec (state : EntryInputState) :
    (∀ newEntry : NewEntry,
      rejectsNewEntry newEntry = true ↔ (jsTrim newEntry.name = "" ∨ newEntry.amount = "")) ∧
    (rejectsNewEntry state.newPackedOil = true →
      (addDynamicEntry "packedOil" state).packedOilEntries = state.packedOilEntries ∧
      (addDynamicEntry "packedOil" state).creditEntries = state.creditEntries ∧
      (addDynamicEntry "packedOil" state).debitEntries = state.debitEntries ∧
      (addDynamicEntry "packedOil" state).isMessageVisible = true ∧
      (addDynamicEntry "packedOil" state).messageType = "error" ∧
      (addDynamicEntry "packedOil" state).message
        = "PackedOil name and amount cannot be empty.") ∧
    (rejectsNewEntry state.newPackedOil = false →
      (addDynamicEntry "packedOil" state).packedOilEntries
        = state.packedOilEntries ++
            [some { name := JSVal.str (jsTrim state.newPackedOil.name)
                    amount := JSVal.str state.newPackedOil.amount }] ∧
      (addDynamicEntry "packedOil" state).creditEntries = state.creditEntries ∧
      (addDynamicEntry "packedOil" state).debitEntries = state.debitEntries ∧
      (addDynamicEntry "packedOil" state).newPackedOil = { name := "", amount := "" }) ∧
    (rejectsNewEntry state.newCredit = true →
      (addDynamicEntry "credit" state).packedOilEntries = state.packedOilEntries ∧
      (addDynamicEntry "credit" state).creditEntries = state.creditEntries ∧
      (addDynamicEntry "credit" state).debitEntries = state.debitEntries ∧
      (addDynamicEntry "credit" state).isMessageVisible = true ∧
      (addDynamicEntry "credit" state).messageType = "error" ∧
      (addDynamicEntry "credit" state).message = "Credit name and amount cannot be empty.") ∧
    (rejectsNewEntry state.newCredit = false →
      (addDynamicEntry "credit" state).creditEntries
        = state.creditEntries ++
            [some { name := JSVal.str (jsTrim state.newCredit.name)
                    amount := JSVal.str state.newCredit.amount }] ∧
      (addDynamicEntry "credit" state).packedOilEntries = state.packedOilEntries ∧
      (addDynamicEntry "credit" state).debitEntries = state.debitEntries ∧
      (addDynamicEntry "credit" state).newCredit = { name := "", amount := "" }) ∧
    (rejectsNewEntry state.newDebit = true →
      (addDynamicEntry "debit" state).packedOilEntries = state.packedOilEntries ∧
      (addDynamicEntry "debit" state).creditEntries = state.creditEntries ∧
      (addDynamicEntry "debit" state).debitEntries = state.debitEntries ∧
      (addDynamicEntry "debit" state).isMessageVisible = true ∧
      (addDynamicEntry "debit" state).messageType = "error" ∧
      (addDynamicEntry "debit" state).message = "Debit name and amount cannot be empty.") ∧
    (rejectsNewEntry state.newDebit = false →
      (addDynamicEntry "debit" state).debitEntries
        = state.debitEntries ++
            [some { name := JSVal.str (jsTrim state.newDebit.name)
                    amount := JSVal.str state.newDebit.amount }] ∧
      (addDynamicEntry "debit" state).packedOilEntries = state.packedOilEntries ∧
      (addDynamicEntry "debit" state).creditEntries = state.creditEntries ∧
      (addDynamicEntry "debit" state).newDebit = { name := "", amount := "" }) := by
  have mp : emptyEntryMessage "packedOil" = "PackedOil name and amount cannot be empty." := by
    decide
  have mc : emptyEntryMessage "credit" = "Credit name and amount cannot be empty." := by
    decide
  have md : emptyEntryMessage "debit" = "Debit name and amount cannot be empty." := by
    decide
  refine ⟨?_, ?_, ?_, ?_, ?_, ?_, ?_⟩
  · intro newEntry
    simp [rejectsNewEntry]
  · intro h
    simp [addDynamicEntry, h, showMessageBox, mp]
  · intro h
    simp [addDynamicEntry, h, appendedEntry]
  · intro h
    simp [addDynamicEntry, h, showMessageBox, mc]
  · intro h
    simp [addDynamicEntry, h, appendedEntry]
  · intro h
    simp [addDynamicEntry, h, showMessageBox, md]
  · intro h
    simp [addDynamicEntry, h, appendedEntry]

/-- On the sample state the new credit `" GPAY "`, `"100"` is appended with its name
trimmed. -/
theorem addDynamicEntry_spec_witness :
    rejectsNewEntry sampleEntryInputState.newCredit = false ∧
    (addDynamicEntry "credit" sampleEntryInputState).creditEntries
      = sampleEntryInputState.creditEntries ++
          [some { name := JSVal.str (jsTrim sampleEntryInputState.newCredit.name)
                  amount := JSVal.str sampleEntryInputState.newCredit.amount }] :=
  ⟨by decide, ((addDynamicEntry_spec sampleEntryInputState).2.2.2.2.1 (by decide)).1⟩

/-! ## `handlePriceChange` -/

theorem dropWhile_head_false {p : Char → Bool} :
    ∀ (l : List Char) (c : Char) (rest : List Char), l.dropWhile p = c :: rest → p c = false
  | [], _, _, h => by simp at h
  | a :: l, c, rest, h => by
    by_cases ha : p a = true
    · rw [List.dropWhile_cons_of_pos ha] at h
      exact dropWhile_head_false l c rest h
    · rw [List.dropWhile_cons_of_neg ha] at h
      obtain ⟨rfl, _⟩ := List.cons.inj h
      simpa using ha

theorem count_point_of_digits (l : List Char) (h : ∀ c ∈ l, c.isDigit = true) :
    l.count '.' = 0 := by
  rw [List.count_eq_zero]
  intro hmem
  exact absurd (h '.' hmem) (by decide)

theorem priceRegexTest_iff (value : String) :
    priceRegexTest value = true ↔ DigitsWithOnePoint value := by
  unfold priceRegexTest DigitsWithOnePoint
  have hsplit : value.data.takeWhile Char.isDigit ++ value.data.dropWhile Char.isDigit
      = value.data := List.takeWhile_append_dropWhile _ _
  have htake : ∀ c ∈ value.data.takeWhile Char.isDigit, c.isDigit = true :=
    fun c hc => List.mem_takeWhile_imp hc
  generalize value.data.takeWhile Char.isDigit = digits at hsplit htake
  cases hdrop : value.data.dropWhile Char.isDigit with
  | nil =>
    rw [hdrop, List.append_nil] at hsplit
    subst hsplit
    simp only [List.dropWhile_nil, List.isEmpty_nil, true_iff]
    exact ⟨fun c hc => Or.inl (htake c hc), by rw [count_point_of_digits _ htake]; omega⟩
  | cons c rest =>
    have hc : c.isDigit = false := dropWhile_head_false _ _ _ hdrop
    rw [hdrop] at hsplit
    by_cases hpoint : c = '.'
    · subst hpoint
      simp only [if_true, List.isEmpty_eq_true, List.dropWhile_eq_nil_iff]
      rw [← hsplit]
      constructor
      · intro hrest
        constructor
        · intro x hx
          simp only [List.mem_append, List.mem_cons] at hx
          rcases hx with hx | rfl | hx
          · exact Or.inl (htake x hx)
          · exact Or.inr rfl
          · exact Or.inl (hrest x hx)
        · rw [List.count_append, List.count_cons_self, count_point_of_digits _ htake,
            count_point_of_digits _ hrest]
      · rintro ⟨hall, hcount⟩ x hx
        rw [List.count_append, List.count_cons_self, count_point_of_digits _ htake] at hcount
        have hzero : rest.count '.' = 0 := by omega
        rw [List.count_eq_zero] at hzero
        rcases hall x (by simp [hx]) with hdigit | rfl
        · exact hdigit
        · exact absurd hx hzero
    · simp only [if_neg hpoint]
      have hself : (c :: rest).dropWhile Char.isDigit = c :: rest := by
        rw [List.dropWhile_cons_of_neg (by simp [hc])]
      rw [hself]
      simp only [List.isEmpty_cons, Bool.false_eq_true, false_iff]
      rintro ⟨hall, _⟩
      rw [← hsplit] at hall
      rcases hall c (by simp) with hdigit | hdot
      · rw [hc] at hdigit
        exact absurd hdigit (by decide)
      · exact hpoint hdot

/-- C24: `handlePriceChange` updates the price state if and only if the typed value
consists only of decimal digits with at most one decimal point (the empty string
included); an update changes only the field named by the input, and a rejected value
leaves the whole state as it was. -/
theorem handlePriceChange_spec (prices : PriceState) (name value : String) :
    (acceptsPrice value = true ↔ DigitsWithOnePoint value) ∧
    DigitsWithOnePoint "" ∧
    (acceptsPrice value = true →
      handlePriceChange prices name value name = some value ∧
      ∀ key, key ≠ name → handlePriceChange prices name value key = prices key) ∧
    (acceptsPrice value = false → handlePriceChange prices name value = prices) := by
  have hempty : DigitsWithOnePoint "" := by
    constructor
    · intro c hc
      simp at hc
    · simp
  refine ⟨?_, hempty, ?_, ?_⟩
  · unfold acceptsPrice
    rw [Bool.or_eq_true, priceRegexTest_iff, decide_eq_true_eq]
    constructor
    · rintro (h | rfl)
      · exact h
      · exact hempty
    · exact fun h => Or.inl h
  · intro h
    constructor
    · simp [handlePriceChange, h]
    · intro key hkey
      simp [handlePriceChange, h, hkey]
  · intro h
    simp [handlePriceChange, h]

/-- The text `"98.50"` is accepted and stored under the input's name. -/
theorem handlePriceChange_spec_witness :
    acceptsPrice "98.50" = true ∧
    handlePriceChange (fun _ => some "") "petrolPrice" "98.50" "petrolPrice" = some "98.50" :=
  ⟨by decide,
   ((handlePriceChange_spec (fun _ => some "") "petrolPrice" "98.50").2.2.1 (by decide)).1⟩

/-- C26 at its failing input: the group `firstReading` generates the ids `firstReading`,
`firstReading2`, `firstReading3`, while the form declares `firstReading1`, `firstReading2`,
`firstReading3`; likewise for the other petrol and diesel groups.  Four generated ids are
no declared key and four declared keys are never generated. -/
theorem staffGeneratedIds_mismatch :
    inputIds "firstReading" 3 = ["firstReading", "firstReading2", "firstReading3"] ∧
    "firstReading" ∉ staffMeterReadingKeys ∧
    "firstReading1" ∈ staffMeterReadingKeys ∧
    "firstReading1" ∉ staffGeneratedIds ∧
    staffGeneratedIds.filter (fun id => decide (id ∉ staffMeterReadingKeys))
      = ["firstReading", "secondReading", "dieselFirstReading", "dieselSecondReading"] ∧
    staffMeterReadingKeys.filter (fun key => decide (key ∉ staffGeneratedIds))
      = ["firstReading1", "secondReading1", "dieselFirstReading1", "dieselSecondReading1"] ∧
    (∀ id ∈ inputIds "oilFirstReading" 3 ++ inputIds "oilSecondReading" 3,
      id ∈ staffMeterReadingKeys) := by
  decide

/-! ## Order of the line items -/

theorem JSNum.add_swap (a b : JSNum) : a + b = b + a := by
  cases a with
  | nan => cases b <;> rfl
  | fin p =>
    cases b with
    | nan => rfl
    | fin q =>
      show JSNum.fin (p + q) = JSNum.fin (q + p)
      rw [Rat.add_comm]
    | inf t => rfl
  | inf s =>
    cases b with
    | nan => rfl
    | fin q => rfl
    | inf t => cases s <;> cases t <;> rfl

theorem JSNum.add_right_swap (x a b : JSNum) : x + a + b = x + b + a := by
  rw [JSNum.add_assoc3, JSNum.add_swap a b, ← JSNum.add_assoc3]

theorem sumEntries_perm {l₁ l₂ : List Entry} (h : l₁.Perm l₂) :
    sumEntries l₁ = sumEntries l₂ := by
  unfold sumEntries
  exact List.Perm.foldl_eq' h (fun x _ y _ z => JSNum.add_right_swap z _ _) _

/-- In exact arithmetic, where no operation rounds: the total of a list of line items is
the same for every permutation of the list, and so are finalResult and excessShotResult. -/
theorem totals_order_independent (data : ReadingRecord) (packed credit debit : List Entry)
    (hpacked : packed.Perm data.packedOilEntries) (hcredit : credit.Perm data.creditEntries)
    (hdebit : debit.Perm data.debitEntries) :
    totalPackedOilAmount { data with packedOilEntries := packed } = totalPackedOilAmount data ∧
    totalCreditAmount { data with creditEntries := credit } = totalCreditAmount data ∧
    totalDebitAmount { data with debitEntries := debit } = totalDebitAmount data ∧
    finalResult
        { data with packedOilEntries := packed, creditEntries := credit, debitEntries := debit }
      = finalResult data ∧
    excessShotResult
        { data with packedOilEntries := packed, creditEntries := credit, debitEntries := debit }
      = excessShotResult data := by
  have hp : sumEntries packed = sumEntries data.packedOilEntries := sumEntries_perm hpacked
  have hc : sumEntries credit = sumEntries data.creditEntries := sumEntries_perm hcredit
  have hd : sumEntries debit = sumEntries data.debitEntries := sumEntries_perm hdebit
  refine ⟨hp, hc, hd, ?_, ?_⟩ <;>
    simp only [finalResult, excessShotResult, totalDenominationAmount, oilRequiredMoney,
    totalOilDifference, oilDiff1, oilDiff2, oilDiff3, requiredMoneyPetrol,
    totalPetrolDifference, petrolDiff1, petrolDiff2, petrolDiff3, requiredMoneyDiesel,
    totalDieselDifference, dieselDiff1, dieselDiff2, dieselDiff3, petrolTestQuantityMoney,
    dieselTestQuantityMoney, totalBatteryWaterAmount, totalPackedOilAmount, totalCreditAmount,
    totalDebitAmount, hp, hc, hd]

/-- Reversing the credit list of the sample reading changes no figure. -/
theorem totals_order_independent_witness :
    (sampleRecord.packedOilEntries.Perm sampleRecord.packedOilEntries ∧
      sampleRecord.creditEntries.reverse.Perm sampleRecord.creditEntries ∧
      sampleRecord.debitEntries.Perm sampleRecord.debitEntries) ∧
    excessShotResult
        { sampleRecord with
          packedOilEntries := sampleRecord.packedOilEntries
          creditEntries := sampleRecord.creditEntries.reverse
          debitEntries := sampleRecord.debitEntries }
      = excessShotResult sampleRecord :=
  ⟨⟨List.Perm.refl _, List.reverse_perm _, List.Perm.refl _⟩,
   (totals_order_independent sampleRecord sampleRecord.packedOilEntries
      sampleRecord.creditEntries.reverse sampleRecord.debitEntries (List.Perm.refl _)
      (List.reverse_perm _) (List.Perm.refl _)).2.2.2.2⟩

/-! ## `fetchTransactions` -/

theorem JSNum.sum_append (l₁ l₂ : List JSNum) : (l₁ ++ l₂).sum = l₁.sum + l₂.sum := by
  induction l₁ with
  | nil =>
    show l₂.sum = JSNum.fin 0 + l₂.sum
    rw [JSNum.zero_add_left]
  | cons a l ih =>
    show a + (l ++ l₂).sum = a + l.sum + l₂.sum
    rw [ih, JSNum.add_assoc3]

theorem foldl_add_sum {α : Type} (f : α → JSNum) (l : List α) (acc : JSNum) :
    l.foldl (fun total x => total + f x) acc = acc + (l.map f).sum := by
  induction l generalizing acc with
  | nil =>
    show acc = acc + JSNum.fin 0
    rw [JSNum.add_zero_right]
  | cons a l ih =>
    show l.foldl (fun total x => total + f x) (acc + f a) = acc + (f a + (l.map f).sum)
    rw [ih, JSNum.add_assoc3]

theorem foldl_days_sum (items : Option DayData → List Transaction)
    (response : List (String × Option DayData)) (acc : JSNum) :
    response.foldl
        (fun total day => (items day.2).foldl (fun sum item => sum + item.amount) total) acc
      = acc + ((response.flatMap fun day => items day.2).map Transaction.amount).sum := by
  induction response generalizing acc with
  | nil =>
    show acc = acc + JSNum.fin 0
    rw [JSNum.add_zero_right]
  | cons day rest ih =>
    rw [List.foldl_cons, ih, foldl_add_sum, List.flatMap_cons, List.map_append,
      JSNum.sum_append, JSNum.add_assoc3]

theorem orderedInsert_congr (r r' : DayGroup → DayGroup → Prop) [DecidableRel r]
    [DecidableRel r'] (a : DayGroup) :
    ∀ l : List DayGroup, (∀ b ∈ l, r a b ↔ r' a b) →
      l.orderedInsert r a = l.orderedInsert r' a
  | [], _ => rfl
  | b :: l, h => by
    have hb : r a b ↔ r' a b := h b (by simp)
    have ih := orderedInsert_congr r r' a l (fun c hc => h c (by simp [hc]))
    by_cases hr : r a b
    · show (if r a b then a :: b :: l else b :: l.orderedInsert r a)
        = (if r' a b then a :: b :: l else b :: l.orderedInsert r' a)
      rw [if_pos hr, if_pos (hb.mp hr)]
    · show (if r a b then a :: b :: l else b :: l.orderedInsert r a)
        = (if r' a b then a :: b :: l else b :: l.orderedInsert r' a)
      rw [if_neg hr, if_neg (fun h' => hr (hb.mpr h')), ih]

theorem insertionSort_congr (r r' : DayGroup → DayGroup → Prop) [DecidableRel r]
    [DecidableRel r'] :
    ∀ l : List DayGroup, (∀ a ∈ l, ∀ b ∈ l, r a b ↔ r' a b) →
      l.insertionSort r = l.insertionSort r'
  | [], _ => rfl
  | a :: l, h => by
    have ih := insertionSort_congr r r' l
      (fun x hx y hy => h x (by simp [hx]) y (by simp [hy]))
    show (l.insertionSort r).orderedInsert r a = (l.insertionSort r').orderedInsert r' a
    rw [ih]
    apply orderedInsert_congr
    intro b hb
    have hmem : b ∈ l := (List.perm_insertionSort r' l).subset hb
    exact h a (by simp) b (by simp [hmem])

theorem keepsBefore_iff_of_finite (dateTime : String → JSNum) (a b : DayGroup)
    (ha : (dateTime a.date).IsFinite) (hb : (dateTime b.date).IsFinite) :
    keepsBefore dateTime a b ↔ (dateTime b.date).toRat ≤ (dateTime a.date).toRat := by
  obtain ⟨p, hp⟩ := ha.exists_fin
  obtain ⟨q, hq⟩ := hb.exists_fin
  unfold keepsBefore
  rw [hp, hq]
  simp [JSNum.gt, JSNum.lt]

/-- C25: the summary's totalCredit is the sum of the amounts of all credits over all
dates, totalDebit that of all debits, and netAmount is totalCredit - totalDebit; a date
whose value is null or whose credits (debits) list is missing adds nothing on that side;
the displayed day groups are the response's dates in another order, which is newest date
first when every date is a valid date. -/
theorem fetchTransactions_summary (dateTime : String → JSNum)
    (response : List (String × Option DayData)) :
    (fetchedSummary response).totalCredit
      = ((response.flatMap fun day => dayCredits day.2).map Transaction.amount).sum ∧
    (fetchedSummary response).totalDebit
      = ((response.flatMap fun day => dayDebits day.2).map Transaction.amount).sum ∧
    (fetchedSummary response).netAmount
      = (fetchedSummary response).totalCredit - (fetchedSummary response).totalDebit ∧
    (dayCredits none = [] ∧ dayDebits none = [] ∧
      (∀ debits, dayCredits (some { credits := none, debits := debits }) = []) ∧
      (∀ credits, dayDebits (some { credits := credits, debits := none }) = [])) ∧
    ((fetchedTransactions dateTime response).map DayGroup.date).Perm
      (response.map Prod.fst) ∧
    ((∀ day ∈ response, (dateTime day.1).IsFinite) →
      (fetchedTransactions dateTime response).Pairwise
        (fun a b => (dateTime b.date).toRat ≤ (dateTime a.date).toRat)) := by
  refine ⟨?_, ?_, rfl, ⟨rfl, rfl, fun _ => rfl, fun _ => rfl⟩, ?_, ?_⟩
  · show accumulatedCredit response = _
    unfold accumulatedCredit
    rw [foldl_days_sum dayCredits, JSNum.zero_add_left]
  · show accumulatedDebit response = _
    unfold accumulatedDebit
    rw [foldl_days_sum dayDebits, JSNum.zero_add_left]
  · unfold fetchedTransactions
    have hperm := (List.perm_insertionSort (keepsBefore dateTime)
      (response.map fun day =>
        ({ date := day.1, credits := dayCredits day.2, debits := dayDebits day.2 } :
          DayGroup))).map DayGroup.date
    refine hperm.trans ?_
    rw [List.map_map]
    exact List.Perm.refl _
  · intro hvalid
    unfold fetchedTransactions
    have hgroups : ∀ g ∈ (response.map fun day =>
        ({ date := day.1, credits := dayCredits day.2, debits := dayDebits day.2 } :
          DayGroup)), (dateTime g.date).IsFinite := by
      intro g hg
      rw [List.mem_map] at hg
      obtain ⟨day, hday, rfl⟩ := hg
      exact hvalid day hday
    rw [insertionSort_congr (keepsBefore dateTime)
      (fun a b => (dateTime b.date).toRat ≤ (dateTime a.date).toRat) _
      (fun a ha b hb => keepsBefore_iff_of_finite dateTime a b (hgroups a ha) (hgroups b hb))]
    haveI : IsTotal DayGroup (fun a b => (dateTime b.date).toRat ≤ (dateTime a.date).toRat) :=
      ⟨fun a b => le_total _ _⟩
    haveI : IsTrans DayGroup (fun a b => (dateTime b.date).toRat ≤ (dateTime a.date).toRat) :=
      ⟨fun a b c hab hbc => le_trans hbc hab⟩
    exact List.sorted_insertionSort _ _

/-- On the sample response, whose two dates are valid, the groups come newest first. -/
theorem fetchTransactions_summary_witness :
    (∀ day ∈ sampleResponse, (sampleDateTime day.1).IsFinite) ∧
    (fetchedTransactions sampleDateTime sampleResponse).Pairwise
      (fun a b => (sampleDateTime b.date).toRat ≤ (sampleDateTime a.date).toRat) :=
  have hvalid : ∀ day ∈ sampleResponse, (sampleDateTime day.1).IsFinite := by decide
  ⟨hvalid, (fetchTransactions_summary sampleDateTime sampleResponse).2.2.2.2.2 hvalid⟩

/-! ## Binary64 arithmetic -/

/-- The rounding on values whose binary64 neighbours are known: the text `0.1`, a sum that
is rounded, an odd whole number above `2 ^ 53` (a tie, which goes to the even significand),
the least subnormal value, underflow to zero, the greatest finite value, and overflow. -/
theorem roundBinary64_examples :
    Binary64.parseFloat (JSVal.str "0.1")
      = JSNum.fin (3602879701896397 / 36028797018963968) ∧
    Binary64.add (Binary64.parseFloat (JSVal.str "0.1")) (Binary64.parseFloat (JSVal.str "0.2"))
      = JSNum.fin (1351079888211149 / 4503599627370496) ∧
    Binary64.parseFloat (JSVal.str "9007199254740993") = JSNum.fin 9007199254740992 ∧
    Binary64.parseFloat (JSVal.str "5e-324") = JSNum.fin (twoPow (-1074)) ∧
    Binary64.parseFloat (JSVal.str "1e-400") = JSNum.fin 0 ∧
    Binary64.parseFloat (JSVal.str "1.7976931348623157e308")
      = JSNum.fin (twoPow 1024 - twoPow 971) ∧
    Binary64.parseFloat (JSVal.str "1e400") = JSNum.inf false := by
  decide!

theorem twoPow_eq_zpow (e : ℤ) : twoPow e = (2 : ℚ) ^ e := by
  unfold twoPow
  split_ifs with h
  · obtain ⟨n, rfl⟩ := Int.eq_ofNat_of_zero_le h
    simp
  · push_neg at h
    obtain ⟨n, hn⟩ := Int.eq_ofNat_of_zero_le (by omega : 0 ≤ -e)
    have he : e = -(n : ℤ) := by omega
    subst he
    simp

theorem log2Fuel_spec (fuel n : ℕ) (hfuel : n ≤ fuel) (hn : 0 < n) :
    2 ^ log2Fuel fuel n ≤ n ∧ n < 2 ^ (log2Fuel fuel n + 1) := by
  induction fuel generalizing n with
  | zero => omega
  | succ fuel ih =>
    unfold log2Fuel
    split_ifs with h2
    · have hdiv : n / 2 ≤ fuel := by omega
      have hpos : 0 < n / 2 := by omega
      obtain ⟨h1, h3⟩ := ih (n / 2) hdiv hpos
      constructor
      · rw [pow_succ]; omega
      · rw [pow_succ]; omega
    · simp; omega

/-- The exponent found by `floorLog2` brackets the quotient. -/
theorem floorLog2_spec (n d : ℕ) (hn : 0 < n) (hd : 0 < d) :
    (2 : ℚ) ^ floorLog2 n d ≤ (n : ℚ) / d ∧ (n : ℚ) / d < (2 : ℚ) ^ (floorLog2 n d + 1) := by
  obtain ⟨hn1, hn2⟩ := log2Fuel_spec n n le_rfl hn
  obtain ⟨hd1, hd2⟩ := log2Fuel_spec d d le_rfl hd
  have hdq : (0 : ℚ) < d := by exact_mod_cast hd
  have hn1q : (2 : ℚ) ^ (log2Fuel n n : ℤ) ≤ n := by
    rw [zpow_natCast]; exact_mod_cast hn1
  have hn2q : (n : ℚ) < (2 : ℚ) ^ ((log2Fuel n n : ℤ) + 1) := by
    have : (n : ℚ) < (2 : ℚ) ^ (log2Fuel n n + 1) := by exact_mod_cast hn2
    rwa [← zpow_natCast, Nat.cast_add, Nat.cast_one] at this
  have hd1q : (2 : ℚ) ^ (log2Fuel d d : ℤ) ≤ d := by
    rw [zpow_natCast]; exact_mod_cast hd1
  have hd2q : (d : ℚ) < (2 : ℚ) ^ ((log2Fuel d d : ℤ) + 1) := by
    have : (d : ℚ) < (2 : ℚ) ^ (log2Fuel d d + 1) := by exact_mod_cast hd2
    rwa [← zpow_natCast, Nat.cast_add, Nat.cast_one] at this
  have h2 : (2 : ℚ) ≠ 0 := by norm_num
  have hbpos : (0 : ℚ) < (2 : ℚ) ^ (log2Fuel d d : ℤ) := by positivity
  unfold floorLog2
  simp only
  rw [twoPow_eq_zpow]
  split_ifs with htest
  · refine ⟨(le_div_iff₀ hdq).mpr htest, ?_⟩
    rw [div_lt_iff₀ hdq]
    have e1 : (2 : ℚ) ^ ((log2Fuel n n : ℤ) - (log2Fuel d d : ℤ) + 1)
        = (2 : ℚ) ^ ((log2Fuel n n : ℤ) + 1) / (2 : ℚ) ^ (log2Fuel d d : ℤ) := by
      rw [← zpow_sub₀ h2]; congr 1; ring
    rw [e1, div_mul_eq_mul_div, lt_div_iff₀ hbpos]
    have hpos1 : (0 : ℚ) < (2 : ℚ) ^ ((log2Fuel n n : ℤ) + 1) := by positivity
    nlinarith
  · push_neg at htest
    constructor
    · rw [le_div_iff₀ hdq]
      have e1 : (2 : ℚ) ^ ((log2Fuel n n : ℤ) - (log2Fuel d d : ℤ) - 1)
          = (2 : ℚ) ^ (log2Fuel n n : ℤ) / (2 : ℚ) ^ ((log2Fuel d d : ℤ) + 1) := by
        rw [← zpow_sub₀ h2]; congr 1; ring
      have hbpos1 : (0 : ℚ) < (2 : ℚ) ^ ((log2Fuel d d : ℤ) + 1) := by positivity
      rw [e1, div_mul_eq_mul_div, div_le_iff₀ hbpos1]
      have hpos1 : (0 : ℚ) < (2 : ℚ) ^ (log2Fuel n n : ℤ) := by positivity
      nlinarith
    · rw [div_lt_iff₀ hdq]
      have : (log2Fuel n n : ℤ) - (log2Fuel d d : ℤ) - 1 + 1
          = (log2Fuel n n : ℤ) - (log2Fuel d d : ℤ) := by ring
      rw [this]
      exact htest


theorem roundHalfEven_intCast (m : ℤ) : roundHalfEven (m : ℚ) = m := by
  unfold roundHalfEven
  simp

theorem roundHalfEven_close (x : ℚ) : |(roundHalfEven x : ℚ) - x| ≤ 1 / 2 := by
  have h1 : ((⌊x⌋ : ℤ) : ℚ) ≤ x := Int.floor_le x
  have h2 : x < ((⌊x⌋ : ℤ) : ℚ) + 1 := Int.lt_floor_add_one x
  unfold roundHalfEven
  simp only
  rw [abs_le]
  split_ifs <;> push_cast <;> constructor <;> linarith

theorem abs_eq_natAbs_div_den (q : ℚ) : |q| = (q.num.natAbs : ℚ) / (q.den : ℚ) := by
  have h := Rat.num_div_den q
  have hd : (0 : ℚ) < q.den := by exact_mod_cast q.den_pos
  conv_lhs => rw [← h]
  rw [abs_div, abs_of_pos hd, Nat.cast_natAbs, Int.cast_abs]

/-- A value on the grid of a binade inside the binary64 range is its own rounding. -/
theorem roundBinary64_of_grid (q : ℚ) (e m : ℤ) (he : -1022 ≤ e) (he2 : e ≤ 1023)
    (hq : |q| < (2 : ℚ) ^ (e + 1)) (hm : q = (m : ℚ) * (2 : ℚ) ^ (e - 52)) :
    roundBinary64 q = JSNum.fin q := by
  by_cases h0 : q = 0
  · simp [roundBinary64, h0]
  have hnum : 0 < q.num.natAbs := Int.natAbs_pos.mpr (Rat.num_ne_zero.mpr h0)
  obtain ⟨hlow, -⟩ := floorLog2_spec q.num.natAbs q.den hnum q.den_pos
  rw [← abs_eq_natAbs_div_den] at hlow
  have hf : floorLog2 q.num.natAbs q.den ≤ e := by
    have : (2 : ℚ) ^ floorLog2 q.num.natAbs q.den < (2 : ℚ) ^ (e + 1) := lt_of_le_of_lt hlow hq
    have := (zpow_lt_zpow_iff_right₀ (by norm_num : (1 : ℚ) < 2)).mp this
    omega
  have he' : max (floorLog2 q.num.natAbs q.den) (-1022) ≤ e := max_le hf he
  have h2 : (2 : ℚ) ≠ 0 := by norm_num
  have hbig : ¬ ((2 : ℚ) ^ (1024 : ℤ) ≤ |q|) := by
    have : (2 : ℚ) ^ (e + 1) ≤ (2 : ℚ) ^ (1024 : ℤ) :=
      zpow_le_zpow_right₀ (by norm_num) (by omega)
    exact not_le.mpr (lt_of_lt_of_le hq this)
  unfold roundBinary64
  simp only [h0, if_false, twoPow_eq_zpow]
  generalize max (floorLog2 q.num.natAbs q.den) (-1022) = E at he'
  obtain ⟨k, hk⟩ := Int.eq_ofNat_of_zero_le (sub_nonneg.mpr he')
  have hdiv : q / (2 : ℚ) ^ (E - 52) = ((m * 2 ^ k : ℤ) : ℚ) := by
    rw [hm, mul_div_assoc, ← zpow_sub₀ h2]
    have : e - 52 - (E - 52) = (k : ℤ) := by omega
    rw [this, zpow_natCast]
    push_cast
    ring
  have hr : ((roundHalfEven (q / (2 : ℚ) ^ (E - 52)) : ℤ) : ℚ) * (2 : ℚ) ^ (E - 52) = q := by
    rw [hdiv, roundHalfEven_intCast, ← hdiv]
    exact div_mul_cancel₀ _ (zpow_ne_zero _ h2)
  rw [hr, if_neg hbig]

/-- A whole number of magnitude below `2 ^ 53` is a binary64 value. -/
theorem roundBinary64_intCast (z : ℤ) (hz : |z| < 2 ^ 53) :
    roundBinary64 (z : ℚ) = JSNum.fin (z : ℚ) := by
  apply roundBinary64_of_grid (z : ℚ) 52 z (by norm_num) (by norm_num)
  · have : |(z : ℚ)| < (2 : ℚ) ^ (53 : ℕ) := by exact_mod_cast hz
    rw [show (52 : ℤ) + 1 = ((53 : ℕ) : ℤ) by norm_num, zpow_natCast]
    exact this
  · simp

/-- The rounding error is at most half the spacing of the binade of `q`. -/
theorem roundBinary64_close (q r : ℚ) (h : roundBinary64 q = JSNum.fin r) :
    |r - q| ≤ (2 : ℚ) ^ (max (floorLog2 q.num.natAbs q.den) (-1022) - 52) / 2 := by
  by_cases h0 : q = 0
  · subst h0
    have : roundBinary64 0 = JSNum.fin 0 := by simp [roundBinary64]
    rw [this] at h
    injection h with h
    subst h
    simp
    positivity
  unfold roundBinary64 at h
  simp only [h0, if_false, twoPow_eq_zpow] at h
  generalize max (floorLog2 q.num.natAbs q.den) (-1022) = E at h ⊢
  split_ifs at h
  injection h with h
  subst h
  have hpos : (0 : ℚ) < (2 : ℚ) ^ (E - 52) := by positivity
  have hclose := roundHalfEven_close (q / (2 : ℚ) ^ (E - 52))
  have hfac : ((roundHalfEven (q / (2 : ℚ) ^ (E - 52)) : ℤ) : ℚ) * (2 : ℚ) ^ (E - 52) - q
      = (((roundHalfEven (q / (2 : ℚ) ^ (E - 52)) : ℤ) : ℚ) - q / (2 : ℚ) ^ (E - 52))
        * (2 : ℚ) ^ (E - 52) := by
    field_simp
  rw [hfac, abs_mul, abs_of_pos hpos]
  calc |((roundHalfEven (q / (2 : ℚ) ^ (E - 52)) : ℤ) : ℚ) - q / (2 : ℚ) ^ (E - 52)|
        * (2 : ℚ) ^ (E - 52)
      ≤ 1 / 2 * (2 : ℚ) ^ (E - 52) := mul_le_mul_of_nonneg_right hclose hpos.le
    _ = (2 : ℚ) ^ (E - 52) / 2 := by ring

/-! ## Records of whole numbers: no operation rounds -/

theorem JSNum.isWholeWithin_iff (bound : ℕ) (x : JSNum) :
    x.isWholeWithin bound = true ↔ ∃ z : ℤ, x = JSNum.fin (z : ℚ) ∧ z.natAbs ≤ bound := by
  cases x with
  | nan => simp [JSNum.isWholeWithin]
  | inf s => simp [JSNum.isWholeWithin]
  | fin q =>
    simp only [JSNum.isWholeWithin, Bool.and_eq_true, decide_eq_true_eq]
    constructor
    · rintro ⟨hden, hnum⟩
      exact ⟨q.num, by rw [Rat.coe_int_num_of_den_eq_one hden], hnum⟩
    · rintro ⟨z, hz, hb⟩
      injection hz with hz
      subst hz
      exact ⟨Rat.den_intCast z, by simpa using hb⟩

theorem JSNum.isWholeWithin_intCast {bound : ℕ} {z : ℤ} (h : z.natAbs ≤ bound) :
    (JSNum.fin (z : ℚ)).isWholeWithin bound = true :=
  (JSNum.isWholeWithin_iff bound _).mpr ⟨z, rfl, h⟩

theorem JSNum.isWholeWithin_mono {b c : ℕ} {x : JSNum} (h : x.isWholeWithin b = true)
    (hbc : b ≤ c) : x.isWholeWithin c = true := by
  obtain ⟨z, hz, hb⟩ := (JSNum.isWholeWithin_iff b x).mp h
  exact (JSNum.isWholeWithin_iff c x).mpr ⟨z, hz, le_trans hb hbc⟩

theorem Binary64.round_intCast (z : ℤ) (hz : z.natAbs < 2 ^ 53) :
    Binary64.round (JSNum.fin (z : ℚ)) = JSNum.fin (z : ℚ) := by
  show roundBinary64 (z : ℚ) = _
  apply roundBinary64_intCast
  have : ((z.natAbs : ℕ) : ℤ) < 2 ^ 53 := by exact_mod_cast hz
  rwa [Int.natCast_natAbs] at this

/-- A whole number of magnitude below `2 ^ 53` is left as it is by the rounding. -/
theorem Binary64.round_whole {b : ℕ} {x : JSNum} (h : x.isWholeWithin b = true)
    (hb : b < 2 ^ 53) : Binary64.round x = x := by
  obtain ⟨z, rfl, hz⟩ := (JSNum.isWholeWithin_iff b x).mp h
  exact Binary64.round_intCast z (lt_of_le_of_lt hz hb)

/-- On whole numbers whose sum stays below `2 ^ 53` the binary64 sum is the exact sum. -/
theorem Binary64.add_whole {a b : ℕ} {x64 x y64 y : JSNum}
    (hx : x64 = x ∧ x.isWholeWithin a = true) (hy : y64 = y ∧ y.isWholeWithin b = true)
    (hab : a + b < 2 ^ 53) :
    Binary64.add x64 y64 = x + y ∧ (x + y).isWholeWithin (a + b) = true := by
  obtain ⟨rfl, hx⟩ := hx
  obtain ⟨rfl, hy⟩ := hy
  obtain ⟨m, rfl, hm⟩ := (JSNum.isWholeWithin_iff a _).mp hx
  obtain ⟨n, rfl, hn⟩ := (JSNum.isWholeWithin_iff b _).mp hy
  have hsum : JSNum.fin (m : ℚ) + JSNum.fin (n : ℚ) = JSNum.fin ((m + n : ℤ) : ℚ) := by
    show JSNum.fin ((m : ℚ) + (n : ℚ)) = _
    push_cast
    rfl
  have hbound : (m + n).natAbs ≤ a + b := le_trans (Int.natAbs_add_le m n) (by omega)
  refine ⟨?_, ?_⟩
  · show Binary64.round (JSNum.fin (m : ℚ) + JSNum.fin (n : ℚ)) = _
    rw [hsum]
    exact Binary64.round_intCast _ (lt_of_le_of_lt hbound hab)
  · rw [hsum]
    exact JSNum.isWholeWithin_intCast hbound

/-- On whole numbers whose difference stays below `2 ^ 53` the binary64 difference is the
exact difference. -/
theorem Binary64.sub_whole {a b : ℕ} {x64 x y64 y : JSNum}
    (hx : x64 = x ∧ x.isWholeWithin a = true) (hy : y64 = y ∧ y.isWholeWithin b = true)
    (hab : a + b < 2 ^ 53) :
    Binary64.sub x64 y64 = x - y ∧ (x - y).isWholeWithin (a + b) = true := by
  obtain ⟨rfl, hx⟩ := hx
  obtain ⟨rfl, hy⟩ := hy
  obtain ⟨m, rfl, hm⟩ := (JSNum.isWholeWithin_iff a _).mp hx
  obtain ⟨n, rfl, hn⟩ := (JSNum.isWholeWithin_iff b _).mp hy
  have hsum : JSNum.fin (m : ℚ) - JSNum.fin (n : ℚ) = JSNum.fin ((m - n : ℤ) : ℚ) := by
    show JSNum.fin ((m : ℚ) - (n : ℚ)) = _
    push_cast
    rfl
  have hbound : (m - n).natAbs ≤ a + b := le_trans (Int.natAbs_sub_le m n) (by omega)
  refine ⟨?_, ?_⟩
  · show Binary64.round (JSNum.fin (m : ℚ) - JSNum.fin (n : ℚ)) = _
    rw [hsum]
    exact Binary64.round_intCast _ (lt_of_le_of_lt hbound hab)
  · rw [hsum]
    exact JSNum.isWholeWithin_intCast hbound

/-- On whole numbers whose product stays below `2 ^ 53` the binary64 product is the exact
product. -/
theorem Binary64.mul_whole {a b : ℕ} {x64 x y64 y : JSNum}
    (hx : x64 = x ∧ x.isWholeWithin a = true) (hy : y64 = y ∧ y.isWholeWithin b = true)
    (hab : a * b < 2 ^ 53) :
    Binary64.mul x64 y64 = x * y ∧ (x * y).isWholeWithin (a * b) = true := by
  obtain ⟨rfl, hx⟩ := hx
  obtain ⟨rfl, hy⟩ := hy
  obtain ⟨m, rfl, hm⟩ := (JSNum.isWholeWithin_iff a _).mp hx
  obtain ⟨n, rfl, hn⟩ := (JSNum.isWholeWithin_iff b _).mp hy
  have hsum : JSNum.fin (m : ℚ) * JSNum.fin (n : ℚ) = JSNum.fin ((m * n : ℤ) : ℚ) := by
    show JSNum.fin ((m : ℚ) * (n : ℚ)) = _
    push_cast
    rfl
  have hbound : (m * n).natAbs ≤ a * b := by
    rw [Int.natAbs_mul]
    exact Nat.mul_le_mul hm hn
  refine ⟨?_, ?_⟩
  · show Binary64.round (JSNum.fin (m : ℚ) * JSNum.fin (n : ℚ)) = _
    rw [hsum]
    exact Binary64.round_intCast _ (lt_of_le_of_lt hbound hab)
  · rw [hsum]
    exact JSNum.isWholeWithin_intCast hbound

/-- `x || 0` is `x` on a whole number. -/
theorem JSNum.orElse_zero_whole {b : ℕ} {x : JSNum} (h : x.isWholeWithin b = true) :
    x.orElse (JSNum.fin 0) = x := by
  apply JSNum.orElse_zero_of_ne_nan
  rintro rfl
  simp [JSNum.isWholeWithin] at h


/-- A whole contribution lies within its own magnitude. -/
theorem entryMagnitude_whole {b : ℕ} {entry : Entry}
    (h : ((parseFloat entry.amount).orElse (JSNum.fin 0)).isWholeWithin b = true) :
    ((parseFloat entry.amount).orElse (JSNum.fin 0)).isWholeWithin (entryMagnitude entry)
      = true := by
  obtain ⟨z, hz, -⟩ := (JSNum.isWholeWithin_iff b _).mp h
  unfold entryMagnitude
  rw [hz]
  apply JSNum.isWholeWithin_intCast
  simp [JSNum.toRat]

/-- A line item whose amount is a whole number below `2 ^ 53` contributes that number. -/
theorem entryAmount_whole {b : ℕ} {entry : Entry}
    (h : ((parseFloat entry.amount).orElse (JSNum.fin 0)).isWholeWithin b = true)
    (hb : b < 2 ^ 53) :
    Binary64.entryAmount entry = (parseFloat entry.amount).orElse (JSNum.fin 0) := by
  unfold Binary64.entryAmount Binary64.parseFloat
  cases hp : parseFloat entry.amount with
  | nan => rfl
  | inf s => rfl
  | fin q =>
    rw [hp, JSNum.orElse_zero_of_ne_nan (by simp)] at h
    rw [Binary64.round_whole h hb]

theorem foldl_whole (entries : List Entry) :
    ∀ (a : ℕ) (acc : JSNum), acc.isWholeWithin a = true →
      (∀ entry ∈ entries, ∃ b : ℕ,
        ((parseFloat entry.amount).orElse (JSNum.fin 0)).isWholeWithin b = true) →
      a + (entries.map entryMagnitude).sum < 2 ^ 53 →
      entries.foldl (fun total entry => Binary64.add total (Binary64.entryAmount entry)) acc
        = entries.foldl
            (fun total entry => total + (parseFloat entry.amount).orElse (JSNum.fin 0)) acc ∧
      (entries.foldl
          (fun total entry => total + (parseFloat entry.amount).orElse (JSNum.fin 0)) acc
        ).isWholeWithin (a + (entries.map entryMagnitude).sum) = true := by
  induction entries with
  | nil =>
    intro a acc hacc _ _
    exact ⟨rfl, by simpa using hacc⟩
  | cons entry rest ih =>
    intro a acc hacc hall hsum
    simp only [List.map_cons, List.sum_cons] at hsum ⊢
    obtain ⟨b, hb⟩ := hall entry (List.mem_cons_self _ _)
    have hmag := entryMagnitude_whole hb
    have hamount : Binary64.entryAmount entry
        = (parseFloat entry.amount).orElse (JSNum.fin 0) :=
      entryAmount_whole hmag (by omega)
    have hstep := Binary64.add_whole (⟨rfl, hacc⟩ : acc = acc ∧ _) ⟨hamount, hmag⟩ (by omega)
    have hrest := ih (a + entryMagnitude entry) _ hstep.2
      (fun e he => hall e (List.mem_cons_of_mem _ he)) (by omega)
    simp only [List.foldl_cons]
    rw [hstep.1]
    refine ⟨hrest.1, ?_⟩
    have := hrest.2
    rwa [Nat.add_assoc] at this

theorem wholeEntries_iff (bound : ℕ) (entries : List Entry) :
    wholeEntries bound entries = true ↔
      (∀ entry ∈ entries,
        ((parseFloat entry.amount).orElse (JSNum.fin 0)).isWholeWithin bound = true) ∧
      (entries.map entryMagnitude).sum ≤ bound := by
  simp [wholeEntries, List.all_eq_true]

/-- On a list of whole amounts whose magnitudes add up to less than `2 ^ 53` the reducer
rounds nothing: its binary64 total is the exact total, a whole number within the bound. -/
theorem sumEntries_whole {bound : ℕ} {entries : List Entry}
    (h : wholeEntries bound entries = true) (hb : bound < 2 ^ 53) :
    Binary64.sumEntries entries = sumEntries entries ∧
    (sumEntries entries).isWholeWithin bound = true := by
  obtain ⟨hall, hsum⟩ := (wholeEntries_iff bound entries).mp h
  have h0 : (JSNum.fin 0).isWholeWithin 0 = true := by
    have := @JSNum.isWholeWithin_intCast 0 0 (by simp)
    simpa using this
  have := foldl_whole entries 0 (JSNum.fin 0) h0 (fun e he => ⟨bound, hall e he⟩)
    (by omega)
  refine ⟨this.1, JSNum.isWholeWithin_mono this.2 (by omega)⟩

theorem wholeEntries_perm {bound : ℕ} {l₁ l₂ : List Entry} (hperm : l₁.Perm l₂)
    (h : wholeEntries bound l₂ = true) : wholeEntries bound l₁ = true := by
  obtain ⟨hall, hsum⟩ := (wholeEntries_iff bound l₂).mp h
  refine (wholeEntries_iff bound l₁).mpr ⟨fun e he => hall e (hperm.mem_iff.mp he), ?_⟩
  rw [(hperm.map entryMagnitude).sum_eq]
  exact hsum

/-- On a record of whole numbers no operation of the calculation rounds: every figure the
binary64 chain computes is the figure of exact arithmetic, a whole number. -/
theorem figures_whole (data : ReadingRecord) (h : data.isWhole = true) :
    (Binary64.totalPackedOilAmount data = totalPackedOilAmount data ∧
      Binary64.totalCreditAmount data = totalCreditAmount data ∧
      Binary64.totalDebitAmount data = totalDebitAmount data) ∧
    Binary64.totalDenominationAmount data = totalDenominationAmount data ∧
    Binary64.finalResult data = finalResult data ∧
    Binary64.excessShotResult data = excessShotResult data ∧
    (finalResult data).isWholeWithin (2 ^ 53 - 1) = true ∧
    (excessShotResult data).isWholeWithin (2 ^ 53 - 1) = true := by
  simp only [ReadingRecord.isWhole, Bool.and_eq_true] at h
  obtain ⟨⟨⟨⟨⟨⟨⟨⟨⟨⟨⟨⟨⟨⟨⟨⟨⟨⟨⟨⟨⟨⟨⟨⟨⟨⟨⟨⟨⟨⟨⟨⟨⟨⟨⟨⟨⟨h_petrol, h_diesel⟩, h_oil⟩, h_oilFirstReading⟩, h_oilSecondReading⟩, h_oilFirstReading2⟩, h_oilSecondReading2⟩, h_oilFirstReading3⟩, h_oilSecondReading3⟩, h_firstReading1⟩, h_secondReading1⟩, h_firstReading2⟩, h_secondReading2⟩, h_firstReading3⟩, h_secondReading3⟩, h_dieselFirstReading1⟩, h_dieselSecondReading1⟩, h_dieselFirstReading2⟩, h_dieselSecondReading2⟩, h_dieselFirstReading3⟩, h_dieselSecondReading3⟩, h_petrolTestQuantity⟩, h_dieselTestQuantity⟩, h_acidWater⟩, h_note500⟩, h_note200⟩, h_note100⟩, h_note50⟩, h_note20⟩, h_note10⟩, h_note5⟩, h_coins⟩, h_batteryWater30⟩, h_batteryWater60⟩, h_batteryWater150⟩, h_packedOilEntries⟩, h_creditEntries⟩, h_debitEntries⟩ := h
  have hoilDiff1 : Binary64.oilDiff1 data = oilDiff1 data ∧
      (oilDiff1 data).isWholeWithin (10 ^ 7 + 10 ^ 7) = true :=
    Binary64.sub_whole ⟨rfl, h_oilFirstReading⟩ ⟨rfl, h_oilSecondReading⟩ (by norm_num)
  have hoilDiff2 : Binary64.oilDiff2 data = oilDiff2 data ∧
      (oilDiff2 data).isWholeWithin (10 ^ 7 + 10 ^ 7) = true :=
    Binary64.sub_whole ⟨rfl, h_oilFirstReading2⟩ ⟨rfl, h_oilSecondReading2⟩ (by norm_num)
  have hoilDiff3 : Binary64.oilDiff3 data = oilDiff3 data ∧
      (oilDiff3 data).isWholeWithin (10 ^ 7 + 10 ^ 7) = true :=
    Binary64.sub_whole ⟨rfl, h_oilFirstReading3⟩ ⟨rfl, h_oilSecondReading3⟩ (by norm_num)
  have hpetrolDiff1 : Binary64.petrolDiff1 data = petrolDiff1 data ∧
      (petrolDiff1 data).isWholeWithin (10 ^ 7 + 10 ^ 7) = true :=
    Binary64.sub_whole ⟨rfl, h_secondReading1⟩ ⟨rfl, h_firstReading1⟩ (by norm_num)
  have hpetrolDiff2 : Binary64.petrolDiff2 data = petrolDiff2 data ∧
      (petrolDiff2 data).isWholeWithin (10 ^ 7 + 10 ^ 7) = true :=
    Binary64.sub_whole ⟨rfl, h_secondReading2⟩ ⟨rfl, h_firstReading2⟩ (by norm_num)
  have hpetrolDiff3 : Binary64.petrolDiff3 data = petrolDiff3 data ∧
      (petrolDiff3 data).isWholeWithin (10 ^ 7 + 10 ^ 7) = true :=
    Binary64.sub_whole ⟨rfl, h_secondReading3⟩ ⟨rfl, h_firstReading3⟩ (by norm_num)
  have hdieselDiff1 : Binary64.dieselDiff1 data = dieselDiff1 data ∧
      (dieselDiff1 data).isWholeWithin (10 ^ 7 + 10 ^ 7) = true :=
    Binary64.sub_whole ⟨rfl, h_dieselSecondReading1⟩ ⟨rfl, h_dieselFirstReading1⟩ (by norm_num)
  have hdieselDiff2 : Binary64.dieselDiff2 data = dieselDiff2 data ∧
      (dieselDiff2 data).isWholeWithin (10 ^ 7 + 10 ^ 7) = true :=
    Binary64.sub_whole ⟨rfl, h_dieselSecondReading2⟩ ⟨rfl, h_dieselFirstReading2⟩ (by norm_num)
  have hdieselDiff3 : Binary64.dieselDiff3 data = dieselDiff3 data ∧
      (dieselDiff3 data).isWholeWithin (10 ^ 7 + 10 ^ 7) = true :=
    Binary64.sub_whole ⟨rfl, h_dieselSecondReading3⟩ ⟨rfl, h_dieselFirstReading3⟩ (by norm_num)
  have htotalOilDifference : Binary64.totalOilDifference data = totalOilDifference data ∧
      (totalOilDifference data).isWholeWithin ((10 ^ 7 + 10 ^ 7) + (10 ^ 7 + 10 ^ 7) + (10 ^ 7 + 10 ^ 7)) = true :=
    Binary64.add_whole (Binary64.add_whole hoilDiff1 hoilDiff2 (by norm_num)) hoilDiff3 (by norm_num)
  have htotalPetrolDifference : Binary64.totalPetrolDifference data = totalPetrolDifference data ∧
      (totalPetrolDifference data).isWholeWithin ((10 ^ 7 + 10 ^ 7) + (10 ^ 7 + 10 ^ 7) + (10 ^ 7 + 10 ^ 7)) = true :=
    Binary64.add_whole (Binary64.add_whole hpetrolDiff1 hpetrolDiff2 (by norm_num)) hpetrolDiff3 (by norm_num)
  have htotalDieselDifference : Binary64.totalDieselDifference data = totalDieselDifference data ∧
      (totalDieselDifference data).isWholeWithin ((10 ^ 7 + 10 ^ 7) + (10 ^ 7 + 10 ^ 7) + (10 ^ 7 + 10 ^ 7)) = true :=
    Binary64.add_whole (Binary64.add_whole hdieselDiff1 hdieselDiff2 (by norm_num)) hdieselDiff3 (by norm_num)
  have hoilRequiredMoney : Binary64.oilRequiredMoney data = oilRequiredMoney data ∧
      (oilRequiredMoney data).isWholeWithin (((10 ^ 7 + 10 ^ 7) + (10 ^ 7 + 10 ^ 7) + (10 ^ 7 + 10 ^ 7)) * 10 ^ 7) = true :=
    Binary64.mul_whole htotalOilDifference ⟨rfl, h_oil⟩ (by norm_num)
  have hrequiredMoneyPetrol : Binary64.requiredMoneyPetrol data = requiredMoneyPetrol data ∧
      (requiredMoneyPetrol data).isWholeWithin (((10 ^ 7 + 10 ^ 7) + (10 ^ 7 + 10 ^ 7) + (10 ^ 7 + 10 ^ 7)) * 10 ^ 7) = true :=
    Binary64.mul_whole htotalPetrolDifference ⟨rfl, h_petrol⟩ (by norm_num)
  have hrequiredMoneyDiesel : Binary64.requiredMoneyDiesel data = requiredMoneyDiesel data ∧
      (requiredMoneyDiesel data).isWholeWithin (((10 ^ 7 + 10 ^ 7) + (10 ^ 7 + 10 ^ 7) + (10 ^ 7 + 10 ^ 7)) * 10 ^ 7) = true :=
    Binary64.mul_whole htotalDieselDifference ⟨rfl, h_diesel⟩ (by norm_num)
  have hpetrolTestQuantityMoney : Binary64.petrolTestQuantityMoney data = petrolTestQuantityMoney data ∧
      (petrolTestQuantityMoney data).isWholeWithin (10 ^ 7 * 10 ^ 7) = true :=
    Binary64.mul_whole ⟨rfl, h_petrolTestQuantity⟩ ⟨rfl, h_petrol⟩ (by norm_num)
  have hdieselTestQuantityMoney : Binary64.dieselTestQuantityMoney data = dieselTestQuantityMoney data ∧
      (dieselTestQuantityMoney data).isWholeWithin (10 ^ 7 * 10 ^ 7) = true :=
    Binary64.mul_whole ⟨rfl, h_dieselTestQuantity⟩ ⟨rfl, h_diesel⟩ (by norm_num)
  have htotalPackedOilAmount : Binary64.totalPackedOilAmount data = totalPackedOilAmount data ∧
      (totalPackedOilAmount data).isWholeWithin (10 ^ 15) = true :=
    sumEntries_whole h_packedOilEntries (by norm_num)
  have htotalCreditAmount : Binary64.totalCreditAmount data = totalCreditAmount data ∧
      (totalCreditAmount data).isWholeWithin (10 ^ 15) = true :=
    sumEntries_whole h_creditEntries (by norm_num)
  have htotalDebitAmount : Binary64.totalDebitAmount data = totalDebitAmount data ∧
      (totalDebitAmount data).isWholeWithin (10 ^ 15) = true :=
    sumEntries_whole h_debitEntries (by norm_num)
  have ho_batteryWater30 : (data.batteryWater30.orElse (JSNum.fin 0)).isWholeWithin (10 ^ 7) = true := by
    rw [JSNum.orElse_zero_whole h_batteryWater30]; exact h_batteryWater30
  have ho_batteryWater60 : (data.batteryWater60.orElse (JSNum.fin 0)).isWholeWithin (10 ^ 7) = true := by
    rw [JSNum.orElse_zero_whole h_batteryWater60]; exact h_batteryWater60
  have ho_batteryWater150 : (data.batteryWater150.orElse (JSNum.fin 0)).isWholeWithin (10 ^ 7) = true := by
    rw [JSNum.orElse_zero_whole h_batteryWater150]; exact h_batteryWater150
  have ho_coins : (data.coins.orElse (JSNum.fin 0)).isWholeWithin (10 ^ 7) = true := by
    rw [JSNum.orElse_zero_whole h_coins]; exact h_coins
  have hc30 : (JSNum.fin 30).isWholeWithin 30 = true := by decide!
  have hc60 : (JSNum.fin 60).isWholeWithin 60 = true := by decide!
  have hc150 : (JSNum.fin 150).isWholeWithin 150 = true := by decide!
  have hc500 : (JSNum.fin 500).isWholeWithin 500 = true := by decide!
  have hc200 : (JSNum.fin 200).isWholeWithin 200 = true := by decide!
  have hc100 : (JSNum.fin 100).isWholeWithin 100 = true := by decide!
  have hc50 : (JSNum.fin 50).isWholeWithin 50 = true := by decide!
  have hc20 : (JSNum.fin 20).isWholeWithin 20 = true := by decide!
  have hc10 : (JSNum.fin 10).isWholeWithin 10 = true := by decide!
  have hc5 : (JSNum.fin 5).isWholeWithin 5 = true := by decide!
  have htotalBatteryWaterAmount : Binary64.totalBatteryWaterAmount data
        = totalBatteryWaterAmount data ∧
      (totalBatteryWaterAmount data).isWholeWithin (30 * 10 ^ 7 + 60 * 10 ^ 7 + 150 * 10 ^ 7) = true :=
    Binary64.add_whole (Binary64.add_whole
      (Binary64.mul_whole ⟨rfl, hc30⟩ ⟨rfl, ho_batteryWater30⟩ (by norm_num))
      (Binary64.mul_whole ⟨rfl, hc60⟩ ⟨rfl, ho_batteryWater60⟩ (by norm_num)) (by norm_num))
      (Binary64.mul_whole ⟨rfl, hc150⟩ ⟨rfl, ho_batteryWater150⟩ (by norm_num)) (by norm_num)
  have htotalDenominationAmount : Binary64.totalDenominationAmount data
        = totalDenominationAmount data ∧
      (totalDenominationAmount data).isWholeWithin (10 ^ 7 * 500 + 10 ^ 7 * 200 + 10 ^ 7 * 100 + 10 ^ 7 * 50 + 10 ^ 7 * 20 + 10 ^ 7 * 10 + 10 ^ 7 * 5 + 10 ^ 7) = true :=
    Binary64.add_whole (Binary64.add_whole (Binary64.add_whole (Binary64.add_whole (Binary64.add_whole (Binary64.add_whole (Binary64.add_whole (Binary64.mul_whole ⟨rfl, h_note500⟩ ⟨rfl, hc500⟩ (by norm_num))
      (Binary64.mul_whole ⟨rfl, h_note200⟩ ⟨rfl, hc200⟩ (by norm_num)) (by norm_num))
      (Binary64.mul_whole ⟨rfl, h_note100⟩ ⟨rfl, hc100⟩ (by norm_num)) (by norm_num))
      (Binary64.mul_whole ⟨rfl, h_note50⟩ ⟨rfl, hc50⟩ (by norm_num)) (by norm_num))
      (Binary64.mul_whole ⟨rfl, h_note20⟩ ⟨rfl, hc20⟩ (by norm_num)) (by norm_num))
      (Binary64.mul_whole ⟨rfl, h_note10⟩ ⟨rfl, hc10⟩ (by norm_num)) (by norm_num))
      (Binary64.mul_whole ⟨rfl, h_note5⟩ ⟨rfl, hc5⟩ (by norm_num)) (by norm_num))
      ⟨rfl, ho_coins⟩ (by norm_num)
  have hpositives := Binary64.add_whole (Binary64.add_whole (Binary64.add_whole
    (Binary64.add_whole (Binary64.add_whole (Binary64.add_whole hoilRequiredMoney
      hrequiredMoneyPetrol (by norm_num)) hrequiredMoneyDiesel (by norm_num))
      htotalDebitAmount (by norm_num)) htotalBatteryWaterAmount (by norm_num))
      (⟨rfl, h_acidWater⟩ : data.acidWater = data.acidWater ∧ _) (by norm_num))
      htotalPackedOilAmount (by norm_num)
  have hnegatives := Binary64.add_whole (Binary64.add_whole hpetrolTestQuantityMoney
    hdieselTestQuantityMoney (by norm_num)) htotalCreditAmount (by norm_num)
  have hfinalResult : Binary64.finalResult data = finalResult data ∧ _ :=
    Binary64.sub_whole hpositives hnegatives (by norm_num)
  have hexcessShotResult : Binary64.excessShotResult data = excessShotResult data ∧ _ :=
    Binary64.sub_whole htotalDenominationAmount hfinalResult (by norm_num)
  exact ⟨⟨htotalPackedOilAmount.1, htotalCreditAmount.1, htotalDebitAmount.1⟩,
    htotalDenominationAmount.1, hfinalResult.1, hexcessShotResult.1,
    JSNum.isWholeWithin_mono hfinalResult.2 (by norm_num),
    JSNum.isWholeWithin_mono hexcessShotResult.2 (by norm_num)⟩

theorem JSNum.isFinite_of_whole {b : ℕ} {x : JSNum} (h : x.isWholeWithin b = true) :
    x.IsFinite := by
  obtain ⟨z, rfl, -⟩ := (JSNum.isWholeWithin_iff b x).mp h
  trivial

theorem finiteEntries_of_whole {b : ℕ} {entries : List Entry}
    (h : wholeEntries b entries = true) : FiniteEntries entries :=
  fun entry he => JSNum.isFinite_of_whole (((wholeEntries_iff b entries).mp h).1 entry he)

/-- A record of whole numbers is a record of decimal values. -/
theorem decimal_of_isWhole (data : ReadingRecord) (h : data.isWhole = true) :
    data.Decimal := by
  simp only [ReadingRecord.isWhole, Bool.and_eq_true] at h
  obtain ⟨⟨⟨⟨⟨⟨⟨⟨⟨⟨⟨⟨⟨⟨⟨⟨⟨⟨⟨⟨⟨⟨⟨⟨⟨⟨⟨⟨⟨⟨⟨⟨⟨⟨⟨⟨⟨h_petrol, h_diesel⟩, h_oil⟩, h_oilFirstReading⟩, h_oilSecondReading⟩, h_oilFirstReading2⟩, h_oilSecondReading2⟩, h_oilFirstReading3⟩, h_oilSecondReading3⟩, h_firstReading1⟩, h_secondReading1⟩, h_firstReading2⟩, h_secondReading2⟩, h_firstReading3⟩, h_secondReading3⟩, h_dieselFirstReading1⟩, h_dieselSecondReading1⟩, h_dieselFirstReading2⟩, h_dieselSecondReading2⟩, h_dieselFirstReading3⟩, h_dieselSecondReading3⟩, h_petrolTestQuantity⟩, h_dieselTestQuantity⟩, h_acidWater⟩, h_note500⟩, h_note200⟩, h_note100⟩, h_note50⟩, h_note20⟩, h_note10⟩, h_note5⟩, h_coins⟩, h_batteryWater30⟩, h_batteryWater60⟩, h_batteryWater150⟩, h_packedOilEntries⟩, h_creditEntries⟩, h_debitEntries⟩ := h
  exact
    { petrol := JSNum.isFinite_of_whole h_petrol
      diesel := JSNum.isFinite_of_whole h_diesel
      oil := JSNum.isFinite_of_whole h_oil
      oilFirstReading := JSNum.isFinite_of_whole h_oilFirstReading
      oilSecondReading := JSNum.isFinite_of_whole h_oilSecondReading
      oilFirstReading2 := JSNum.isFinite_of_whole h_oilFirstReading2
      oilSecondReading2 := JSNum.isFinite_of_whole h_oilSecondReading2
      oilFirstReading3 := JSNum.isFinite_of_whole h_oilFirstReading3
      oilSecondReading3 := JSNum.isFinite_of_whole h_oilSecondReading3
      firstReading1 := JSNum.isFinite_of_whole h_firstReading1
      secondReading1 := JSNum.isFinite_of_whole h_secondReading1
      firstReading2 := JSNum.isFinite_of_whole h_firstReading2
      secondReading2 := JSNum.isFinite_of_whole h_secondReading2
      firstReading3 := JSNum.isFinite_of_whole h_firstReading3
      secondReading3 := JSNum.isFinite_of_whole h_secondReading3
      dieselFirstReading1 := JSNum.isFinite_of_whole h_dieselFirstReading1
      dieselSecondReading1 := JSNum.isFinite_of_whole h_dieselSecondReading1
      dieselFirstReading2 := JSNum.isFinite_of_whole h_dieselFirstReading2
      dieselSecondReading2 := JSNum.isFinite_of_whole h_dieselSecondReading2
      dieselFirstReading3 := JSNum.isFinite_of_whole h_dieselFirstReading3
      dieselSecondReading3 := JSNum.isFinite_of_whole h_dieselSecondReading3
      petrolTestQuantity := JSNum.isFinite_of_whole h_petrolTestQuantity
      dieselTestQuantity := JSNum.isFinite_of_whole h_dieselTestQuantity
      acidWater := JSNum.isFinite_of_whole h_acidWater
      note500 := JSNum.isFinite_of_whole h_note500
      note200 := JSNum.isFinite_of_whole h_note200
      note100 := JSNum.isFinite_of_whole h_note100
      note50 := JSNum.isFinite_of_whole h_note50
      note20 := JSNum.isFinite_of_whole h_note20
      note10 := JSNum.isFinite_of_whole h_note10
      note5 := JSNum.isFinite_of_whole h_note5
      coins := JSNum.isFinite_of_whole h_coins
      batteryWater30 := JSNum.isFinite_of_whole h_batteryWater30
      batteryWater60 := JSNum.isFinite_of_whole h_batteryWater60
      batteryWater150 := JSNum.isFinite_of_whole h_batteryWater150
      packedOilEntries := finiteEntries_of_whole h_packedOilEntries
      creditEntries := finiteEntries_of_whole h_creditEntries
      debitEntries := finiteEntries_of_whole h_debitEntries }

/-! ## The calculation on binary64 values -/

/-- The amounts `0.1`, `0.2`, `0.3` total `0.6000000000000001` in this order and `0.6` in
the reverse order, so the credit total, finalResult and excessShotResult of a reading
change when its credit list is reversed. -/
theorem totals_depend_on_order :
    tenthsEntries.reverse.Perm tenthsEntries ∧
    Binary64.sumEntries tenthsEntries
      = JSNum.fin (1351079888211149 / 2251799813685248) ∧
    Binary64.sumEntries tenthsEntries.reverse
      = JSNum.fin (5404319552844595 / 9007199254740992) ∧
    Binary64.totalCreditAmount { initialReadingData with creditEntries := tenthsEntries.reverse }
      ≠ Binary64.totalCreditAmount { initialReadingData with creditEntries := tenthsEntries } ∧
    Binary64.finalResult { initialReadingData with creditEntries := tenthsEntries.reverse }
      ≠ Binary64.finalResult { initialReadingData with creditEntries := tenthsEntries } ∧
    Binary64.excessShotResult { initialReadingData with creditEntries := tenthsEntries.reverse }
      ≠ Binary64.excessShotResult { initialReadingData with creditEntries := tenthsEntries } :=
  ⟨List.reverse_perm _, by decide!⟩

/-- With a debit of `0.3` and `0.1` of acid water finalResult is the binary64 value `0.4`;
appending a debit of `0.2` makes it the binary64 value `0.6`, which is not the old figure
plus `0.2` (that sum is `0.6000000000000001`), and the two figures do not differ by the
amount, neither as binary64 difference nor exactly. -/
theorem finalResult_append_not_by_amount :
    Binary64.finalResult tenthsRecord
      = JSNum.fin (3602879701896397 / 9007199254740992) ∧
    Binary64.finalResult
        { tenthsRecord with debitEntries := tenthsRecord.debitEntries ++ [fifthEntry] }
      = JSNum.fin (5404319552844595 / 9007199254740992) ∧
    Binary64.add (Binary64.finalResult tenthsRecord) (Binary64.entryAmount fifthEntry)
      = JSNum.fin (1351079888211149 / 2251799813685248) ∧
    Binary64.finalResult
        { tenthsRecord with debitEntries := tenthsRecord.debitEntries ++ [fifthEntry] }
      ≠ Binary64.add (Binary64.finalResult tenthsRecord) (Binary64.entryAmount fifthEntry) ∧
    Binary64.sub
        (Binary64.finalResult
          { tenthsRecord with debitEntries := tenthsRecord.debitEntries ++ [fifthEntry] })
        (Binary64.finalResult tenthsRecord)
      ≠ Binary64.entryAmount fifthEntry ∧
    (Binary64.finalResult
        { tenthsRecord with debitEntries := tenthsRecord.debitEntries ++ [fifthEntry] }).toRat
      - (Binary64.finalResult tenthsRecord).toRat
      ≠ (Binary64.entryAmount fifthEntry).toRat := by
  decide!

/-- On the petrol sale the till balances exactly in decimal arithmetic (the closed form of
the decimal fields is `0`), yet the calculation returns `5 / 2 ^ 40`, about `4.5e-12`,
and the heading "Excess".  That value is not the closed form of the binary64 fields
either (`41 / 2 ^ 43`), nor its rounding. -/
theorem excessShotResult_not_closed_form :
    closedFormExcessShot fuelSaleDecimals = 0 ∧
    Binary64.excessShotResult fuelSaleRecord = JSNum.fin (5 / 1099511627776) ∧
    (Binary64.excessShotStatus fuelSaleRecord).heading = "Excess" ∧
    closedFormExcessShot fuelSaleRecord = 41 / 8796093022208 ∧
    Binary64.excessShotResult fuelSaleRecord
      ≠ JSNum.fin (closedFormExcessShot fuelSaleRecord) ∧
    Binary64.excessShotResult fuelSaleRecord
      ≠ Binary64.round (JSNum.fin (closedFormExcessShot fuelSaleRecord)) := by
  decide!

theorem maxSafeInteger_lt : maxSafeInteger < 2 ^ 53 := by
  unfold maxSafeInteger; norm_num

/-- Lists of whole amounts that are permutations of each other have the same binary64
total. -/
theorem sumEntries_whole_perm {l₁ l₂ : List Entry} (hperm : l₁.Perm l₂)
    (h : wholeEntries maxSafeInteger l₂ = true) :
    Binary64.sumEntries l₁ = Binary64.sumEntries l₂ := by
  rw [(sumEntries_whole (wholeEntries_perm hperm h) maxSafeInteger_lt).1,
    (sumEntries_whole h maxSafeInteger_lt).1]
  exact sumEntries_perm hperm

/-- C29, amended: when the amounts of a list are whole numbers whose magnitudes add up to
at most `Number.MAX_SAFE_INTEGER`, the total `ReadingView` computes is the same for every
permutation of the list, so reordering such packed-oil, credit and debit entries changes
neither finalResult nor excessShotResult. -/
theorem totals_order_independent_whole (data : ReadingRecord)
    (packed credit debit : List Entry)
    (hpacked : packed.Perm data.packedOilEntries) (hcredit : credit.Perm data.creditEntries)
    (hdebit : debit.Perm data.debitEntries)
    (hwp : wholeEntries maxSafeInteger data.packedOilEntries = true)
    (hwc : wholeEntries maxSafeInteger data.creditEntries = true)
    (hwd : wholeEntries maxSafeInteger data.debitEntries = true) :
    Binary64.totalPackedOilAmount { data with packedOilEntries := packed }
      = Binary64.totalPackedOilAmount data ∧
    Binary64.totalCreditAmount { data with creditEntries := credit }
      = Binary64.totalCreditAmount data ∧
    Binary64.totalDebitAmount { data with debitEntries := debit }
      = Binary64.totalDebitAmount data ∧
    Binary64.finalResult
        { data with packedOilEntries := packed, creditEntries := credit, debitEntries := debit }
      = Binary64.finalResult data ∧
    Binary64.excessShotResult
        { data with packedOilEntries := packed, creditEntries := credit, debitEntries := debit }
      = Binary64.excessShotResult data := by
  have hp : Binary64.sumEntries packed = Binary64.sumEntries data.packedOilEntries :=
    sumEntries_whole_perm hpacked hwp
  have hc : Binary64.sumEntries credit = Binary64.sumEntries data.creditEntries :=
    sumEntries_whole_perm hcredit hwc
  have hd : Binary64.sumEntries debit = Binary64.sumEntries data.debitEntries :=
    sumEntries_whole_perm hdebit hwd
  refine ⟨hp, hc, hd, ?_, ?_⟩ <;>
    simp only [Binary64.finalResult, Binary64.excessShotResult, Binary64.positives,
    Binary64.negatives, Binary64.totalDenominationAmount, Binary64.oilRequiredMoney,
    Binary64.totalOilDifference, Binary64.oilDiff1, Binary64.oilDiff2, Binary64.oilDiff3,
    Binary64.requiredMoneyPetrol, Binary64.totalPetrolDifference, Binary64.petrolDiff1,
    Binary64.petrolDiff2, Binary64.petrolDiff3, Binary64.requiredMoneyDiesel,
    Binary64.totalDieselDifference, Binary64.dieselDiff1, Binary64.dieselDiff2,
    Binary64.dieselDiff3, Binary64.petrolTestQuantityMoney, Binary64.dieselTestQuantityMoney,
    Binary64.totalBatteryWaterAmount, Binary64.totalPackedOilAmount,
    Binary64.totalCreditAmount, Binary64.totalDebitAmount, hp, hc, hd]

/-- Reversing the lists of the whole-number reading changes no figure. -/
theorem totals_order_independent_whole_witness :
    (wholeRecord.packedOilEntries.reverse.Perm wholeRecord.packedOilEntries ∧
      wholeRecord.creditEntries.reverse.Perm wholeRecord.creditEntries ∧
      wholeRecord.debitEntries.reverse.Perm wholeRecord.debitEntries) ∧
    (wholeEntries maxSafeInteger wholeRecord.packedOilEntries = true ∧
      wholeEntries maxSafeInteger wholeRecord.creditEntries = true ∧
      wholeEntries maxSafeInteger wholeRecord.debitEntries = true) ∧
    Binary64.excessShotResult
        { wholeRecord with
          packedOilEntries := wholeRecord.packedOilEntries.reverse
          creditEntries := wholeRecord.creditEntries.reverse
          debitEntries := wholeRecord.debitEntries.reverse }
      = Binary64.excessShotResult wholeRecord :=
  ⟨⟨List.reverse_perm _, List.reverse_perm _, List.reverse_perm _⟩,
   ⟨by decide!, by decide!, by decide!⟩,
   (totals_order_independent_whole wholeRecord wholeRecord.packedOilEntries.reverse
      wholeRecord.creditEntries.reverse wholeRecord.debitEntries.reverse
      (List.reverse_perm _) (List.reverse_perm _) (List.reverse_perm _)
      (by decide!) (by decide!) (by decide!)).2.2.2.2⟩

theorem exists_fin_of_whole {b : ℕ} {x : JSNum} (h : x.isWholeWithin b = true) :
    ∃ r : ℚ, x = JSNum.fin r := by
  obtain ⟨z, hz, -⟩ := (JSNum.isWholeWithin_iff b x).mp h
  exact ⟨z, hz⟩

/-- Two figures of a whole-number record and of a changed whole-number record, the changed
ones being the old ones moved by `d` and `-d` in exact arithmetic. -/
theorem moved_figures (data changed : ReadingRecord) (d : ℚ)
    (h : data.isWhole = true) (hc : changed.isWhole = true)
    (hfinal : finalResult changed = finalResult data + JSNum.fin d)
    (hexcess : excessShotResult changed = excessShotResult data - JSNum.fin d) :
    ∃ r s : ℚ,
      Binary64.finalResult data = JSNum.fin r ∧
      Binary64.excessShotResult data = JSNum.fin s ∧
      Binary64.finalResult changed = JSNum.fin (r + d) ∧
      Binary64.excessShotResult changed = JSNum.fin (s - d) := by
  obtain ⟨-, -, hf, he, hwf, hwe⟩ := figures_whole data h
  obtain ⟨-, -, hf', he', -, -⟩ := figures_whole changed hc
  obtain ⟨r, hr⟩ := exists_fin_of_whole hwf
  obtain ⟨s, hs⟩ := exists_fin_of_whole hwe
  refine ⟨r, s, by rw [hf, hr], by rw [he, hs], ?_, ?_⟩
  · rw [hf', hfinal, hr]; rfl
  · rw [he', hexcess, hs]; rfl

theorem JSNum.sub_fin_eq_add_neg (x : JSNum) (a : ℚ) :
    x - JSNum.fin a = x + JSNum.fin (-a) := by
  cases x with
  | nan => rfl
  | fin q =>
    show JSNum.fin (q - a) = JSNum.fin (q + -a)
    rw [sub_eq_add_neg]
  | inf s => rfl

theorem JSNum.add_fin_eq_sub_neg (x : JSNum) (a : ℚ) :
    x + JSNum.fin a = x - JSNum.fin (-a) := by
  rw [JSNum.sub_fin_eq_add_neg, neg_neg]

/-- C16, amended: on a record of whole numbers (every numeric field a whole number of
magnitude at most ten million, the amounts of each list whole numbers whose magnitudes add
up to at most 10^15) that stays one after the change, and for a whole amount `a`: appending
an entry of amount `a` to debitEntries or to packedOilEntries, or adding `a` to acidWater,
raises finalResult by exactly `a` and lowers excessShotResult by `a`; appending such an entry
to creditEntries lowers finalResult by `a` and raises excessShotResult by `a`. -/
theorem finalResult_moves_by_whole_amount (data : ReadingRecord) (name : JSVal) (a : ℤ)
    (h : data.isWhole = true) :
    (ReadingRecord.isWhole
          { data with debitEntries :=
            data.debitEntries ++ [{ name := name, amount := JSVal.num (JSNum.fin (a : ℚ)) }] } = true →
      ∃ r s : ℚ,
        Binary64.finalResult data = JSNum.fin r ∧
        Binary64.excessShotResult data = JSNum.fin s ∧
        Binary64.finalResult
          { data with debitEntries :=
            data.debitEntries ++ [{ name := name, amount := JSVal.num (JSNum.fin (a : ℚ)) }] } = JSNum.fin (r + a) ∧
        Binary64.excessShotResult
          { data with debitEntries :=
            data.debitEntries ++ [{ name := name, amount := JSVal.num (JSNum.fin (a : ℚ)) }] } = JSNum.fin (s - a)) ∧
    (ReadingRecord.isWhole
          { data with packedOilEntries :=
            data.packedOilEntries ++ [{ name := name, amount := JSVal.num (JSNum.fin (a : ℚ)) }] } = true →
      ∃ r s : ℚ,
        Binary64.finalResult data = JSNum.fin r ∧
        Binary64.excessShotResult data = JSNum.fin s ∧
        Binary64.finalResult
          { data with packedOilEntries :=
            data.packedOilEntries ++ [{ name := name, amount := JSVal.num (JSNum.fin (a : ℚ)) }] } = JSNum.fin (r + a) ∧
        Binary64.excessShotResult
          { data with packedOilEntries :=
            data.packedOilEntries ++ [{ name := name, amount := JSVal.num (JSNum.fin (a : ℚ)) }] } = JSNum.fin (s - a)) ∧
    (ReadingRecord.isWhole
          { data with acidWater := data.acidWater + JSNum.fin (a : ℚ) } = true →
      ∃ r s : ℚ,
        Binary64.finalResult data = JSNum.fin r ∧
        Binary64.excessShotResult data = JSNum.fin s ∧
        Binary64.finalResult
          { data with acidWater := data.acidWater + JSNum.fin (a : ℚ) } = JSNum.fin (r + a) ∧
        Binary64.excessShotResult
          { data with acidWater := data.acidWater + JSNum.fin (a : ℚ) } = JSNum.fin (s - a)) ∧
    (ReadingRecord.isWhole
          { data with creditEntries :=
            data.creditEntries ++ [{ name := name, amount := JSVal.num (JSNum.fin (a : ℚ)) }] } = true →
      ∃ r s : ℚ,
        Binary64.finalResult data = JSNum.fin r ∧
        Binary64.excessShotResult data = JSNum.fin s ∧
        Binary64.finalResult
          { data with creditEntries :=
            data.creditEntries ++ [{ name := name, amount := JSVal.num (JSNum.fin (a : ℚ)) }] } = JSNum.fin (r - a) ∧
        Binary64.excessShotResult
          { data with creditEntries :=
            data.creditEntries ++ [{ name := name, amount := JSVal.num (JSNum.fin (a : ℚ)) }] } = JSNum.fin (s + a)) := by
  obtain ⟨⟨hd1, hd2⟩, ⟨hp1, hp2⟩, ⟨ha1, ha2⟩, ⟨hc1, hc2⟩⟩ :=
    finalResult_monotone_in_line_items data name (a : ℚ)
  refine ⟨fun hw => moved_figures data _ a h hw hd1 hd2,
    fun hw => moved_figures data _ a h hw hp1 hp2,
    fun hw => moved_figures data _ a h hw ha1 ha2, fun hw => ?_⟩
  rw [JSNum.sub_fin_eq_add_neg] at hc1
  rw [JSNum.add_fin_eq_sub_neg] at hc2
  obtain ⟨r, s, h1, h2, h3, h4⟩ := moved_figures data _ (-(a : ℚ)) h hw hc1 hc2
  exact ⟨r, s, h1, h2, by rw [h3, sub_eq_add_neg], by rw [h4, sub_neg_eq_add]⟩

/-- On the whole-number reading a further debit of `5` moves the two figures by `5`. -/
theorem finalResult_moves_by_whole_amount_witness :
    (wholeRecord.isWhole = true ∧
      ReadingRecord.isWhole
        { wholeRecord with debitEntries :=
            wholeRecord.debitEntries
              ++ [{ name := JSVal.str "L", amount := JSVal.num (JSNum.fin ((5 : ℤ) : ℚ)) }] }
        = true) ∧
    ∃ r s : ℚ,
      Binary64.finalResult wholeRecord = JSNum.fin r ∧
      Binary64.excessShotResult wholeRecord = JSNum.fin s ∧
      Binary64.finalResult
        { wholeRecord with debitEntries :=
            wholeRecord.debitEntries
              ++ [{ name := JSVal.str "L", amount := JSVal.num (JSNum.fin ((5 : ℤ) : ℚ)) }] }
        = JSNum.fin (r + (5 : ℤ)) ∧
      Binary64.excessShotResult
        { wholeRecord with debitEntries :=
            wholeRecord.debitEntries
              ++ [{ name := JSVal.str "L", amount := JSVal.num (JSNum.fin ((5 : ℤ) : ℚ)) }] }
        = JSNum.fin (s - (5 : ℤ)) :=
  ⟨⟨by decide!, by decide!⟩,
   (finalResult_moves_by_whole_amount wholeRecord (JSVal.str "L") 5 (by decide!)).1
     (by decide!)⟩

/-- C10, amended: no figure is rounded to two decimal places before it is used:
excessShotResult is the closed form (500·note500 + … + 5·note5 + coins) − [Σ(oilFirst −
oilSecond)·oil + Σ(petrolSecond − petrolFirst)·petrol + Σ(dieselSecond − dieselFirst)·diesel
+ totalDebit + 30·bw30 + 60·bw60 + 150·bw150 + acidWater + totalPackedOil −
(petrolTestQuantity·petrol + dieselTestQuantity·diesel + totalCredit)] evaluated in the raw
fields with binary64 operations in the order of the code, each returning the nearest
binary64 value; and on a record of whole numbers (every numeric field of magnitude at most
ten million, the amounts of each list adding up to at most 10^15 in magnitude) no
operation rounds, so that it is exactly the closed form. -/
theorem excessShotResult_closed_form_binary64 (data : ReadingRecord) :
    Binary64.excessShotResult data
      = Binary64.sub
          (Binary64.add (Binary64.add (Binary64.add (Binary64.add (Binary64.add (Binary64.add
            (Binary64.add (Binary64.mul data.note500 (JSNum.fin 500))
              (Binary64.mul data.note200 (JSNum.fin 200)))
              (Binary64.mul data.note100 (JSNum.fin 100)))
              (Binary64.mul data.note50 (JSNum.fin 50)))
              (Binary64.mul data.note20 (JSNum.fin 20)))
              (Binary64.mul data.note10 (JSNum.fin 10)))
              (Binary64.mul data.note5 (JSNum.fin 5)))
            (data.coins.orElse (JSNum.fin 0)))
          (Binary64.sub
            (Binary64.add (Binary64.add (Binary64.add (Binary64.add (Binary64.add (Binary64.add
              (Binary64.mul
                (Binary64.add (Binary64.add
                  (Binary64.sub data.oilFirstReading data.oilSecondReading)
                  (Binary64.sub data.oilFirstReading2 data.oilSecondReading2))
                  (Binary64.sub data.oilFirstReading3 data.oilSecondReading3))
                data.oil)
              (Binary64.mul
                (Binary64.add (Binary64.add
                  (Binary64.sub data.secondReading1 data.firstReading1)
                  (Binary64.sub data.secondReading2 data.firstReading2))
                  (Binary64.sub data.secondReading3 data.firstReading3))
                data.petrol))
              (Binary64.mul
                (Binary64.add (Binary64.add
                  (Binary64.sub data.dieselSecondReading1 data.dieselFirstReading1)
                  (Binary64.sub data.dieselSecondReading2 data.dieselFirstReading2))
                  (Binary64.sub data.dieselSecondReading3 data.dieselFirstReading3))
                data.diesel))
              (Binary64.sumEntries data.debitEntries))
              (Binary64.add (Binary64.add
                (Binary64.mul (JSNum.fin 30) (data.batteryWater30.orElse (JSNum.fin 0)))
                (Binary64.mul (JSNum.fin 60) (data.batteryWater60.orElse (JSNum.fin 0))))
                (Binary64.mul (JSNum.fin 150) (data.batteryWater150.orElse (JSNum.fin 0)))))
              data.acidWater)
              (Binary64.sumEntries data.packedOilEntries))
            (Binary64.add (Binary64.add
              (Binary64.mul data.petrolTestQuantity data.petrol)
              (Binary64.mul data.dieselTestQuantity data.diesel))
              (Binary64.sumEntries data.creditEntries))) ∧
    (data.isWhole = true →
      Binary64.excessShotResult data = JSNum.fin (closedFormExcessShot data)) := by
  refine ⟨rfl, fun h => ?_⟩
  rw [(figures_whole data h).2.2.2.1]
  exact excessShotResult_closed_form data (decimal_of_isWhole data h)

/-- The closed form on the whole-number reading. -/
theorem excessShotResult_closed_form_binary64_witness :
    wholeRecord.isWhole = true ∧
    Binary64.excessShotResult wholeRecord
      = JSNum.fin (closedFormExcessShot wholeRecord) :=
  ⟨by decide!, (excessShotResult_closed_form_binary64 wholeRecord).2 (by decide!)⟩

end TVJPump
